import Mathlib

/-!
# SIP transaction state machines and the TURN/STUN client engine

A shallow embedding of `TransactionState.cxx` (namespace `Vocal2`) and of
`TurnAsyncSocket.cxx` (namespace `reTurn`), with theorems about the
retransmission schedules, the state-dependent response handling and the
transaction lifecycles.

Conventions of the embedding.

* C++ objects that are shared through pointers (`TransactionState`) live in an
  explicit heap; a pointer is an address, `none` is the null pointer.
* SIP and STUN messages are values; `delete msg` on a message has no
  counterpart.
* Side effects on collaborators (timer service, transport, TU FIFO, the
  application callbacks) are recorded in order in logs kept in the state.
* A run that dereferences a null or dangling pointer, or fails an `assert`,
  ends in `Except.error`.
-/

namespace Vocal2

/-- The string type of the stack (`Data`); transaction ids are values of it. -/
abbrev Data := String

/-- Request methods (`MethodTypes.hxx`). The source names `INVITE`, `ACK` and
`CANCEL`; the remaining constructors stand for every other method. -/
inductive MethodTypes where
  | ACK
  | BYE
  | CANCEL
  | INVITE
  | OPTIONS
  | REGISTER
  | UNKNOWN
  deriving DecidableEq, Repr

/-- The enumeration `TransactionState::Machine`. -/
inductive Machine where
  | ClientNonInvite
  | ClientInvite
  | ServerNonInvite
  | ServerInvite
  | Stale
  deriving DecidableEq, Repr

/-- The enumeration `TransactionState::State`. -/
inductive State where
  | Calling
  | Trying
  | Proceeding
  | Completed
  | Confirmed
  | Terminated
  | Bogus
  deriving DecidableEq, Repr

/-- The timer kinds `Timer::TimerA` ... `Timer::TimerStale` used by the source. -/
inductive TimerType where
  | TimerA
  | TimerB
  | TimerD
  | TimerE1
  | TimerE2
  | TimerF
  | TimerG
  | TimerH
  | TimerI
  | TimerJ
  | TimerK
  | TimerTrying
  | TimerStale
  deriving DecidableEq, Repr

/-- What the source reads of a `SipMessage`: `isExternal()`, `isRequest()`,
`isResponse()`, `header(h_RequestLine).getMethod()`,
`header(h_StatusLine).responseCode()`, `header(h_CSeq).method()` and
`getTransactionId()`. -/
structure SipMessage where
  isExternal : Bool
  isRequest : Bool
  isResponse : Bool
  requestMethod : MethodTypes
  responseCode : Int
  cseqMethod : MethodTypes
  transactionId : Data
  deriving DecidableEq, Repr

/-- A `TimerMessage`: `getType()`, `getDuration()`, `getTransactionId()`. -/
structure TimerMessage where
  type : TimerType
  duration : Nat
  transactionId : Data
  deriving DecidableEq, Repr

/-- A `SendingMessage`, the transport's sent-confirmation: `isReliable()`,
`getTransactionId()`. -/
structure SendingMessage where
  isReliable : Bool
  transactionId : Data
  deriving DecidableEq, Repr

/-- A `Message*` taken from the state-machine FIFO, by dynamic type. `other`
is a message of any further subclass. -/
inductive Message where
  | sip (m : SipMessage)
  | timer (t : TimerMessage)
  | sending (m : SendingMessage)
  | other (tid : Data)
  deriving DecidableEq, Repr

/-- The virtual `Message::getTransactionId()`. -/
def Message.getTransactionId : Message → Data
  | .sip m => m.transactionId
  | .timer t => t.transactionId
  | .sending m => m.transactionId
  | .other tid => tid

/-- An address of a heap-allocated `TransactionState`. -/
abbrev Ptr := Nat

/-- The members of `TransactionState`. `mCancelStateMachine` and
`mMsgToRetransmit` are pointers in the source; `none` is the null pointer. -/
structure TransactionState where
  mMachine : Machine
  mState : State
  mIsReliable : Bool
  mCancelStateMachine : Option Ptr
  mMsgToRetransmit : Option SipMessage
  deriving DecidableEq, Repr

/-- One call `mStack.mTimers.add(type, tid, duration)`. -/
structure TimerEntry where
  type : TimerType
  transactionId : Data
  duration : Nat
  deriving DecidableEq, Repr

/-- One call on `mStack.mTransportSelector`: `send(sip)` or
`retransmit(ptr)`; `retransmit` records the pointer it was given, which may
be null. -/
inductive WireOp where
  | send (m : SipMessage)
  | retransmit (m : Option SipMessage)
  deriving DecidableEq, Repr

/-- The ways a run can leave defined behaviour. `useAfterDelete` is the use of
a message after `delete msg`. -/
inductive Fault where
  | assertFailed
  | nullDeref
  | danglingPointer
  | fifoEmpty
  | destructorCycle
  | useAfterDelete
  deriving DecidableEq, Repr

/-- The parts of `SipStack` the source touches, with the heap of
`TransactionState` objects. `mTimers`, `mTransportSelector` and `mTUFifo` hold
the calls made on them, oldest first. The heap is indexed by address: a cell
holds the object allocated there, or `none` once it has been deleted. -/
structure SipStack where
  mStateMacFifo : List Message
  mTransactionMap : List (Data × Ptr)
  mTimers : List TimerEntry
  mTransportSelector : List WireOp
  mTUFifo : List SipMessage
  mDiscardStrayResponses : Bool
  heap : List (Option TransactionState)
  deriving DecidableEq, Repr

/-- Declarations the source uses and does not define: the constants of class
`Timer` (milliseconds), the default arguments `lower` and `upper` of
`TransactionState::isResponse`, and the message builders of class `Helper`. -/
structure Env where
  T1 : Nat
  T2 : Nat
  T4 : Nat
  T100 : Nat
  TD : Nat
  TS : Nat
  isResponseLower : Int
  isResponseUpper : Int
  makeResponse : SipMessage → Int → SipMessage
  makeFailureAck : SipMessage → SipMessage → SipMessage

/-- Modelled from the spec: class `TransactionMap` (its source is not part of
the repository files at hand), a map from transaction id to transaction with
at most one entry per id. `remove` erases the entry of an id. -/
def TransactionMap.remove (tid : Data) (m : List (Data × Ptr)) : List (Data × Ptr) :=
  m.filter (fun e => decide (e.1 ≠ tid))

/-- Modelled from the spec: `TransactionMap::add`, which records the
transaction under the id; an entry already stored under that id is replaced. -/
def TransactionMap.add (tid : Data) (p : Ptr) (m : List (Data × Ptr)) : List (Data × Ptr) :=
  (tid, p) :: TransactionMap.remove tid m

/-- Modelled from the spec: `TransactionMap::find`, the transaction stored
under the id, or null. -/
def TransactionMap.find (tid : Data) (m : List (Data × Ptr)) : Option Ptr :=
  (m.find? (fun e => decide (e.1 = tid))).map (fun e => e.2)

namespace SipStack

/-- The object at an address, if the address is live. -/
def lookup (s : SipStack) (p : Ptr) : Option TransactionState :=
  match s.heap[p]? with
  | some (some t) => some t
  | _ => none

/-- Assignment to the members of the object at `p`. -/
def store (s : SipStack) (p : Ptr) (t : TransactionState) : SipStack :=
  { s with heap := s.heap.set p (some t) }

/-- Release of the storage at `p`. -/
def free (s : SipStack) (p : Ptr) : SipStack :=
  { s with heap := s.heap.set p none }

/-- The expression `new TransactionState(stack, m, st)`, which yields the
address of the new object: the constructor clears `mIsReliable`,
`mCancelStateMachine` and `mMsgToRetransmit`. -/
def new (s : SipStack) (m : Machine) (st : State) : Ptr × SipStack :=
  (s.heap.length,
   { s with
     heap := s.heap ++ [some { mMachine := m, mState := st, mIsReliable := false,
                               mCancelStateMachine := none, mMsgToRetransmit := none }] })

/-- The call `mTimers.add(type, tid, duration)`. -/
def timersAdd (s : SipStack) (ty : TimerType) (tid : Data) (d : Nat) : SipStack :=
  { s with mTimers := s.mTimers ++ [{ type := ty, transactionId := tid, duration := d }] }

/-- The call `mTransportSelector.send(sip)`. -/
def transportSend (s : SipStack) (m : SipMessage) : SipStack :=
  { s with mTransportSelector := s.mTransportSelector ++ [WireOp.send m] }

/-- The call `mTransportSelector.retransmit(ptr)`. -/
def transportRetransmit (s : SipStack) (m : Option SipMessage) : SipStack :=
  { s with mTransportSelector := s.mTransportSelector ++ [WireOp.retransmit m] }

/-- The call `mTUFifo.add(sip)`. -/
def tuFifoAdd (s : SipStack) (m : SipMessage) : SipStack :=
  { s with mTUFifo := s.mTUFifo ++ [m] }

/-- The call `mTransactionMap.add(tid, state)`. -/
def mapAdd (s : SipStack) (tid : Data) (p : Ptr) : SipStack :=
  { s with mTransactionMap := TransactionMap.add tid p s.mTransactionMap }

/-- The call `mTransactionMap.remove(tid)`. -/
def mapRemove (s : SipStack) (tid : Data) : SipStack :=
  { s with mTransactionMap := TransactionMap.remove tid s.mTransactionMap }

end SipStack

/-- The width of `unsigned long`, the type of the timer durations. -/
def ULONG_BITS : Nat := 64

/-- The statement `d *= 2` on an `unsigned long`. -/
def doubleULong (d : Nat) : Nat := (d * 2) % 2 ^ ULONG_BITS

namespace TransactionState

/-- The destructor run by `delete p`, then the release of the object:
`~TransactionState` reads the id of `mMsgToRetransmit` (a null pointer there
is dereferenced), removes that id from the table and deletes the CANCEL child.
The first argument bounds the depth of nested child deletions. -/
def destroyAux : Nat → Ptr → SipStack → Except Fault SipStack
  | 0, _, _ => .error Fault.destructorCycle
  | fuel + 1, p, s =>
    match s.lookup p with
    | none => .error Fault.danglingPointer
    | some t =>
      match t.mMsgToRetransmit with
      | none => .error Fault.nullDeref
      | some m =>
        let s1 := s.mapRemove m.transactionId
        match t.mCancelStateMachine with
        | none => .ok (s1.free p)
        | some c =>
          match destroyAux fuel c s1 with
          | .error e => .error e
          | .ok s2 => .ok (s2.free p)

/-- The statement `delete p` for a non-null `TransactionState* p`. A chain of
children is no longer than the heap, so the bound is reached only on a cycle of
child pointers. -/
def delete (p : Ptr) (s : SipStack) : Except Fault SipStack :=
  destroyAux (s.heap.length + 1) p s

/-- Embeds `TransactionState::isRequest`. -/
def isRequest : Message → Bool
  | .sip m => m.isRequest
  | _ => false

/-- Embeds `TransactionState::isInvite`. -/
def isInvite (msg : Message) : Bool :=
  match msg with
  | .sip m => m.isRequest && decide (m.requestMethod = MethodTypes.INVITE)
  | _ => false

/-- Embeds `TransactionState::isResponse(msg, lower, upper)`. -/
def isResponse (msg : Message) (lower upper : Int) : Bool :=
  match msg with
  | .sip m => m.isResponse && decide (m.responseCode ≥ lower) && decide (m.responseCode ≤ upper)
  | _ => false

/-- Embeds `TransactionState::isResponse(msg)` with the default bounds. -/
def isResponseDefault (env : Env) (msg : Message) : Bool :=
  isResponse msg env.isResponseLower env.isResponseUpper

/-- Embeds `TransactionState::isTimer`. -/
def isTimer : Message → Bool
  | .timer _ => true
  | _ => false

/-- Embeds `TransactionState::isFromTU`. -/
def isFromTU : Message → Bool
  | .sip m => !m.isExternal
  | _ => false

/-- Embeds `TransactionState::isTranportError`, constantly false in the source. -/
def isTranportError (_msg : Message) : Bool := false

/-- Embeds `TransactionState::isSentIndication`. -/
def isSentIndication : Message → Bool
  | .sending _ => true
  | _ => false

/-- Embeds `TransactionState::isSentReliable`. -/
def isSentReliable : Message → Bool
  | .sending m => m.isReliable
  | _ => false

/-- Embeds `TransactionState::isSentUnreliable`. -/
def isSentUnreliable : Message → Bool
  | .sending m => !m.isReliable
  | _ => false

/-- Embeds `TransactionState::sendToWire`: the dynamic cast must succeed. -/
def sendToWire (msg : Message) (s : SipStack) : Except Fault SipStack :=
  match msg with
  | .sip m => .ok (s.transportSend m)
  | _ => .error Fault.assertFailed

/-- Embeds `TransactionState::sendToTU`: the dynamic cast must succeed. -/
def sendToTU (msg : Message) (s : SipStack) : Except Fault SipStack :=
  match msg with
  | .sip m => .ok (s.tuFifoAdd m)
  | _ => .error Fault.assertFailed

/-- Embeds `TransactionState::make100`. -/
def make100 (env : Env) (request : SipMessage) : SipMessage :=
  env.makeResponse request 100

/-- Embeds `TransactionState::processClientNonInvite`, run on the object at `this`. -/
def processClientNonInvite (env : Env) (this : Ptr) (msg : Message) (s : SipStack) :
    Except Fault SipStack :=
  match s.lookup this with
  | none => .error Fault.danglingPointer
  | some t =>
    if isRequest msg && !isInvite msg && isFromTU msg then
      match msg with
      | .sip sip =>
        sendToWire msg
          ((s.store this { t with mMsgToRetransmit := some sip }).timersAdd
            TimerType.TimerF msg.getTransactionId (64 * env.T1))
      | _ => .error Fault.nullDeref
    else if isSentReliable msg then
      .ok s
    else if isSentUnreliable msg then
      .ok (s.timersAdd TimerType.TimerE1 msg.getTransactionId env.T1)
    else if isResponseDefault env msg && !isFromTU msg then
      match msg with
      | .sip sip =>
        let code := sip.responseCode
        if code ≥ 100 ∧ code < 200 then
          if t.mState = State.Trying ∨ t.mState = State.Proceeding then
            let s1 := s.store this { t with mState := State.Proceeding }
            let s2 := if t.mIsReliable then s1
                      else s1.timersAdd TimerType.TimerE2 msg.getTransactionId env.T2
            sendToTU msg s2
          else
            .ok s
        else if code ≥ 200 then
          if t.mIsReliable then
            match sendToTU msg s with
            | .error e => .error e
            | .ok s1 => delete this s1
          else
            sendToTU msg
              ((s.store this { t with mState := State.Completed }).timersAdd
                TimerType.TimerK msg.getTransactionId env.T4)
        else
          .ok s
      | _ => .error Fault.nullDeref
    else if isTimer msg then
      match msg with
      | .timer timer =>
        match timer.type with
        | TimerType.TimerE1 =>
          if t.mState = State.Trying then
            let d := if timer.duration < env.T2 then doubleULong timer.duration
                     else timer.duration
            .ok ((s.timersAdd TimerType.TimerE1 msg.getTransactionId d).transportRetransmit
                  t.mMsgToRetransmit)
          else
            .ok s
        | TimerType.TimerE2 =>
          if t.mState = State.Proceeding then
            .ok ((s.timersAdd TimerType.TimerE2 msg.getTransactionId env.T2).transportRetransmit
                  t.mMsgToRetransmit)
          else
            .ok s
        | TimerType.TimerF =>
          match t.mMsgToRetransmit with
          | none => .error Fault.nullDeref
          | some m =>
            match sendToTU (Message.sip (env.makeResponse m 408)) s with
            | .error e => .error e
            | .ok s1 => delete this s1
        | TimerType.TimerK => delete this s
        | _ => .error Fault.assertFailed
      | _ => .error Fault.nullDeref
    else if isTranportError msg then
      .error Fault.assertFailed
    else
      .ok s

/-- Embeds `TransactionState::processClientInvite`, run on the object at `this`. -/
def processClientInvite (env : Env) (this : Ptr) (msg : Message) (s : SipStack) :
    Except Fault SipStack :=
  match s.lookup this with
  | none => .error Fault.danglingPointer
  | some t =>
    if isInvite msg && isFromTU msg then
      match msg with
      | .sip sip =>
        match sip.requestMethod with
        | MethodTypes.INVITE =>
          sendToWire msg
            ((s.store this { t with mMsgToRetransmit := some sip }).timersAdd
              TimerType.TimerB msg.getTransactionId (64 * env.T1))
        | MethodTypes.CANCEL =>
          let new := s.new Machine.ClientNonInvite State.Trying
          let s1 := new.2.store this { t with mCancelStateMachine := some new.1 }
          let s2 := s1.mapAdd msg.getTransactionId new.1
          match processClientNonInvite env new.1 msg s2 with
          | .error e => .error e
          | .ok s3 => sendToWire msg s3
        | _ => .ok s
      | _ => .error Fault.nullDeref
    else if isSentIndication msg then
      match t.mMsgToRetransmit with
      | none => .error Fault.nullDeref
      | some stored =>
        match stored.requestMethod with
        | MethodTypes.INVITE =>
          if isSentReliable msg then
            .ok (s.timersAdd TimerType.TimerA msg.getTransactionId env.T1)
          else
            .ok s
        | MethodTypes.CANCEL =>
          match t.mCancelStateMachine with
          | none => .error Fault.nullDeref
          | some c => processClientNonInvite env c msg s
        | _ => .ok s
    else if isResponseDefault env msg && !isFromTU msg then
      match msg with
      | .sip sip =>
        let code := sip.responseCode
        match sip.cseqMethod with
        | MethodTypes.INVITE =>
          if code ≥ 100 ∧ code < 200 then
            if t.mState = State.Calling ∨ t.mState = State.Proceeding then
              sendToTU msg (s.store this { t with mState := State.Proceeding })
            else
              .ok s
          else if code ≥ 200 ∧ code < 300 then
            sendToTU msg
              ((s.store this { t with mMachine := Machine.Stale, mState := State.Terminated }).timersAdd
                TimerType.TimerStale msg.getTransactionId env.TS)
          else if code ≥ 300 then
            if t.mIsReliable then
              match t.mMsgToRetransmit with
              | none => .error Fault.nullDeref
              | some invite =>
                let ack := env.makeFailureAck invite sip
                let s1 := s.store this { t with mMsgToRetransmit := some ack }
                match sendToTU msg (s1.transportRetransmit (some ack)) with
                | .error e => .error e
                | .ok s2 => delete this s2
            else
              if t.mState = State.Calling ∨ t.mState = State.Proceeding then
                match t.mMsgToRetransmit with
                | none => .error Fault.nullDeref
                | some invite =>
                  let ack := env.makeFailureAck invite sip
                  let s1 := (s.store this { t with mState := State.Completed,
                                                   mMsgToRetransmit := some ack }).timersAdd
                              TimerType.TimerD msg.getTransactionId env.TD
                  sendToTU msg (s1.transportRetransmit (some ack))
              else if t.mState = State.Completed then
                sendToTU msg (s.transportRetransmit t.mMsgToRetransmit)
              else
                .error Fault.assertFailed
          else
            .ok s
        | MethodTypes.CANCEL =>
          match t.mCancelStateMachine with
          | none => .error Fault.nullDeref
          | some c => processClientNonInvite env c msg s
        | _ => .ok s
      | _ => .error Fault.nullDeref
    else if isTimer msg then
      match msg with
      | .timer timer =>
        match timer.type with
        | TimerType.TimerA =>
          if t.mState = State.Calling then
            let d := if timer.duration < env.T2 then doubleULong timer.duration
                     else timer.duration
            .ok ((s.timersAdd TimerType.TimerA msg.getTransactionId d).transportRetransmit
                  t.mMsgToRetransmit)
          else
            .ok s
        | TimerType.TimerB =>
          match delete this s with
          | .error e => .error e
          | .ok _ => .error Fault.assertFailed
        | TimerType.TimerD => delete this s
        | _ =>
          match t.mCancelStateMachine with
          | none => .error Fault.assertFailed
          | some c => processClientNonInvite env c msg s
      | _ => .error Fault.nullDeref
    else if isTranportError msg then
      match delete this s with
      | .error e => .error e
      | .ok _ => .error Fault.assertFailed
    else
      .ok s

/-- Embeds `TransactionState::processServerNonInvite`, run on the object at `this`. -/
def processServerNonInvite (env : Env) (this : Ptr) (msg : Message) (s : SipStack) :
    Except Fault SipStack :=
  match s.lookup this with
  | none => .error Fault.danglingPointer
  | some t =>
    if isRequest msg && !isInvite msg && !isFromTU msg then
      if t.mState = State.Trying then
        .ok s
      else if t.mState = State.Proceeding ∨ t.mState = State.Trying then
        .ok (s.transportRetransmit t.mMsgToRetransmit)
      else
        .error Fault.assertFailed
    else if isResponseDefault env msg && isFromTU msg then
      match msg with
      | .sip sip =>
        let code := sip.responseCode
        if code ≥ 100 ∧ code < 200 then
          if t.mState = State.Trying ∨ t.mState = State.Proceeding then
            sendToWire msg
              (s.store this { t with mMsgToRetransmit := some sip, mState := State.Proceeding })
          else
            .ok s
        else if code ≥ 200 ∧ code ≤ 699 then
          if t.mIsReliable then
            match sendToWire msg (s.store this { t with mMsgToRetransmit := some sip }) with
            | .error e => .error e
            | .ok s1 => delete this s1
          else
            if t.mState = State.Trying ∨ t.mState = State.Proceeding then
              sendToWire msg
                ((s.store this { t with mState := State.Completed,
                                        mMsgToRetransmit := some sip }).timersAdd
                  TimerType.TimerJ msg.getTransactionId (64 * env.T1))
            else if t.mState = State.Completed then
              .ok s
            else
              .error Fault.assertFailed
        else
          .ok s
      | _ => .error Fault.nullDeref
    else if isTimer msg then
      match msg with
      | .timer timer =>
        if t.mState = State.Completed then
          if timer.type = TimerType.TimerJ then
            delete this s
          else
            .error Fault.assertFailed
        else
          .error Fault.assertFailed
      | _ => .error Fault.nullDeref
    else if isTranportError msg then
      match delete this s with
      | .error e => .error e
      | .ok _ => .error Fault.assertFailed
    else
      .ok s

/-- The branches of `processServerNonInvite` that end with `delete msg`, for a
transaction with the members `t`: a request from the wire in Trying or
Proceeding, a provisional response from the TU outside Trying and Proceeding,
a final response from the TU in Completed when the transaction is not reliable,
a response from the TU with a code outside 100 to 699, a timer, and a transport
error. -/
def processServerNonInviteDeletesMsg (env : Env) (t : TransactionState) (msg : Message) : Bool :=
  if isRequest msg && !isInvite msg && !isFromTU msg then
    decide (t.mState = State.Trying ∨ t.mState = State.Proceeding)
  else if isResponseDefault env msg && isFromTU msg then
    match msg with
    | .sip sip =>
      let code := sip.responseCode
      if code ≥ 100 ∧ code < 200 then
        !decide (t.mState = State.Trying ∨ t.mState = State.Proceeding)
      else if code ≥ 200 ∧ code ≤ 699 then
        if t.mIsReliable then false
        else if t.mState = State.Trying ∨ t.mState = State.Proceeding then false
        else decide (t.mState = State.Completed)
      else true
    | _ => false
  else if isTimer msg then
    true
  else if isTranportError msg then
    true
  else
    false

/-- The two `case CANCEL:` blocks of `processServerInvite`: a child Server
Non-INVITE transaction is created, recorded under the message's id, given the
message, and the message goes to the TU. When the child's handler has deleted
the message, the `sendToTU(msg)` that follows uses a deleted message. -/
def serverInviteCancel (env : Env) (this : Ptr) (t : TransactionState) (msg : Message)
    (s : SipStack) : Except Fault SipStack :=
  let new := s.new Machine.ServerNonInvite State.Trying
  let s1 := new.2.store this { t with mCancelStateMachine := some new.1 }
  let s2 := s1.mapAdd msg.getTransactionId new.1
  match s2.lookup new.1 with
  | none => .error Fault.danglingPointer
  | some child =>
    match processServerNonInvite env new.1 msg s2 with
    | .error e => .error e
    | .ok s3 =>
      if processServerNonInviteDeletesMsg env child msg then .error Fault.useAfterDelete
      else sendToTU msg s3

/-- Embeds `TransactionState::processServerInvite`, run on the object at `this`. -/
def processServerInvite (env : Env) (this : Ptr) (msg : Message) (s : SipStack) :
    Except Fault SipStack :=
  match s.lookup this with
  | none => .error Fault.danglingPointer
  | some t =>
    if isRequest msg && !isFromTU msg then
      match msg with
      | .sip sip =>
        match sip.requestMethod with
        | MethodTypes.INVITE =>
          if t.mState = State.Proceeding ∨ t.mState = State.Completed then
            match t.mMsgToRetransmit with
            | none =>
              sendToTU msg (s.store this { t with mMsgToRetransmit := some (make100 env sip) })
            | some _ => sendToTU msg s
          else
            .ok s
        | MethodTypes.ACK =>
          if t.mState = State.Completed then
            if t.mIsReliable then
              delete this s
            else
              .ok ((s.store this { t with mState := State.Confirmed }).timersAdd
                    TimerType.TimerI msg.getTransactionId env.T4)
          else
            .ok s
        | MethodTypes.CANCEL => serverInviteCancel env this t msg s
        | _ => .ok s
      | _ => .error Fault.nullDeref
    else if isResponse msg 100 699 && isFromTU msg then
      match msg with
      | .sip sip =>
        let code := sip.responseCode
        match sip.cseqMethod with
        | MethodTypes.INVITE =>
          if code = 100 then
            if t.mState = State.Trying then
              sendToWire msg
                (s.store this { t with mMsgToRetransmit := some sip, mState := State.Proceeding })
            else
              .ok s
          else if code > 100 ∧ code < 200 then
            if t.mState = State.Trying ∨ t.mState = State.Proceeding then
              sendToWire msg
                (s.store this { t with mMsgToRetransmit := some sip, mState := State.Proceeding })
            else
              .ok s
          else if code ≥ 200 ∧ code < 300 then
            if t.mState = State.Trying ∨ t.mState = State.Proceeding then
              sendToWire msg
                ((s.store this { t with mMsgToRetransmit := some sip, mMachine := Machine.Stale,
                                        mState := State.Terminated }).timersAdd
                  TimerType.TimerStale msg.getTransactionId env.TS)
            else
              .ok s
          else if code ≥ 300 then
            if t.mState = State.Trying ∨ t.mState = State.Proceeding then
              let s1 := (s.store this { t with mMsgToRetransmit := some sip,
                                               mMachine := Machine.Stale,
                                               mState := State.Completed }).timersAdd
                          TimerType.TimerH msg.getTransactionId (64 * env.T1)
              let s2 := if t.mIsReliable then s1
                        else s1.timersAdd TimerType.TimerG msg.getTransactionId env.T1
              sendToWire msg s2
            else
              .ok s
          else
            .ok s
        | MethodTypes.CANCEL => serverInviteCancel env this t msg s
        | _ => .ok s
      | _ => .error Fault.nullDeref
    else if isTimer msg then
      match msg with
      | .timer timer =>
        match timer.type with
        | TimerType.TimerG =>
          if t.mState = State.Completed then
            .ok ((s.transportRetransmit t.mMsgToRetransmit).timersAdd
                  TimerType.TimerG msg.getTransactionId (doubleULong timer.duration))
          else
            .ok s
        | TimerType.TimerH => delete this s
        | TimerType.TimerI => delete this s
        | TimerType.TimerJ => .ok (s.store this { t with mCancelStateMachine := none })
        | TimerType.TimerTrying =>
          if t.mState = State.Proceeding then
            match t.mMsgToRetransmit with
            | none => .error Fault.assertFailed
            | some m => sendToWire (Message.sip m) s
          else
            .ok s
        | _ => .error Fault.assertFailed
      | _ => .error Fault.nullDeref
    else if isTranportError msg then
      delete this s
    else
      .ok s

/-- Embeds `TransactionState::processStale`, whose body is empty. -/
def processStale (_this : Ptr) (_msg : Message) (s : SipStack) : Except Fault SipStack :=
  .ok s

/-- Embeds `TransactionState::process`: one message is taken from the state-machine
FIFO and dispatched. -/
def process (env : Env) (stack : SipStack) : Except Fault SipStack :=
  match stack.mStateMacFifo with
  | [] => .error Fault.fifoEmpty
  | message :: rest =>
    let s0 := { stack with mStateMacFifo := rest }
    let s1 :=
      match message with
      | .sip sip =>
        if !sip.isExternal && sip.isRequest && decide (sip.requestMethod = MethodTypes.ACK) then
          s0.transportSend sip
        else s0
      | _ => s0
    let tid := message.getTransactionId
    match TransactionMap.find tid s1.mTransactionMap with
    | some state =>
      match s1.lookup state with
      | none => .error Fault.danglingPointer
      | some t =>
        match t.mMachine with
        | Machine.ClientNonInvite => processClientNonInvite env state message s1
        | Machine.ClientInvite => processClientInvite env state message s1
        | Machine.ServerNonInvite => processServerNonInvite env state message s1
        | Machine.ServerInvite => processServerInvite env state message s1
        | Machine.Stale => processStale state message s1
    | none =>
      match message with
      | .sip sip =>
        if sip.isRequest then
          if sip.isExternal then
            let s2 :=
              if sip.requestMethod = MethodTypes.INVITE then
                let new := s1.new Machine.ServerInvite State.Proceeding
                let s3 := new.2.store new.1
                            { mMachine := Machine.ServerInvite, mState := State.Proceeding,
                              mIsReliable := false, mCancelStateMachine := none,
                              mMsgToRetransmit := some (make100 env sip) }
                (s3.timersAdd TimerType.TimerTrying tid env.T100).mapAdd tid new.1
              else
                let new := s1.new Machine.ServerNonInvite State.Trying
                new.2.mapAdd tid new.1
            .ok (s2.tuFifoAdd sip)
          else
            if sip.requestMethod = MethodTypes.INVITE then
              let new := s1.new Machine.ClientInvite State.Calling
              processClientInvite env new.1 message (new.2.mapAdd tid new.1)
            else
              let new := s1.new Machine.ClientNonInvite State.Trying
              processClientNonInvite env new.1 message (new.2.mapAdd tid new.1)
        else if sip.isResponse then
          if stack.mDiscardStrayResponses then
            .ok s1
          else
            .error Fault.assertFailed
        else
          .ok s1
      | _ => .ok s1

/-- The dispatcher's step on `msg`: `process` run when `msg` is the message
the state-machine FIFO yields next. -/
def deliver (env : Env) (msg : Message) (s : SipStack) : Except Fault SipStack :=
  process env { s with mStateMacFifo := msg :: s.mStateMacFifo }

/-- The expiry message the timer service delivers for a scheduled timer. -/
def expiry (e : TimerEntry) : Message :=
  Message.timer { type := e.type, duration := e.duration, transactionId := e.transactionId }

/-- Modelled from the spec: `Helper::makeResponse` (class `Helper` is not part
of the repository files at hand), the response with the given code constructed
from a prior request: it belongs to the request's transaction and answers the
request's method. -/
def specMakeResponse (request : SipMessage) (code : Int) : SipMessage :=
  { isExternal := false, isRequest := false, isResponse := true,
    requestMethod := request.requestMethod, responseCode := code,
    cseqMethod := request.requestMethod, transactionId := request.transactionId }

/-- Modelled from the spec: `Helper::makeFailureAck`, the `ACK` for a failure
response, constructed from the stored INVITE and the response, with the
INVITE's Via branch (so the INVITE's transaction id) and method `ACK`. -/
def specMakeFailureAck (invite : SipMessage) (_response : SipMessage) : SipMessage :=
  { isExternal := false, isRequest := true, isResponse := false,
    requestMethod := MethodTypes.ACK, responseCode := 0,
    cseqMethod := MethodTypes.ACK, transactionId := invite.transactionId }

/-- Modelled from the spec: the initial timer values of its timer table
(`T1 = 500`, `T2 = 4000`, `T4 = 5000`, `T100 = 200`, `TS = 32000`, and
`TD = 32000` from its scenario 3), response codes from 0 to 699, and the
message builders above. -/
def specEnv : Env :=
  { T1 := 500, T2 := 4000, T4 := 5000, T100 := 200, TD := 32000, TS := 32000,
    isResponseLower := 0, isResponseUpper := 699,
    makeResponse := specMakeResponse, makeFailureAck := specMakeFailureAck }

/-- A stack with no transaction and nothing logged. -/
def emptyStack : SipStack :=
  { mStateMacFifo := [], mTransactionMap := [], mTimers := [], mTransportSelector := [],
    mTUFifo := [], mDiscardStrayResponses := true, heap := [] }

/-- A stack whose table holds the one transaction `t`, at address 0, under `tid`. -/
def singleStack (tid : Data) (t : TransactionState) : SipStack :=
  { emptyStack with mTransactionMap := [(tid, 0)], heap := [some t] }

/-- A request with the given method, id and origin. -/
def sampleRequest (m : MethodTypes) (tid : Data) (external : Bool) : SipMessage :=
  { isExternal := external, isRequest := true, isResponse := false, requestMethod := m,
    responseCode := 0, cseqMethod := m, transactionId := tid }

/-- A response with the given code to a request of method `m`. -/
def sampleResponse (code : Int) (m : MethodTypes) (tid : Data) (external : Bool) : SipMessage :=
  { isExternal := external, isRequest := false, isResponse := true, requestMethod := m,
    responseCode := code, cseqMethod := m, transactionId := tid }

/-- The dispatcher's steps on a sequence of messages, in order. -/
def deliverAll (env : Env) : List Message → SipStack → Except Fault SipStack
  | [], s => .ok s
  | msg :: msgs, s =>
    match deliver env msg s with
    | .error e => .error e
    | .ok s1 => deliverAll env msgs s1

/-- Whether a message is the expiry of Timer Stale. -/
def isTimerStale : Message → Bool
  | .timer t => decide (t.type = TimerType.TimerStale)
  | _ => false

/-- The condition of the first branch of `process`: a request with method `ACK`
from the TU. -/
def isAckFromTU : Message → Bool
  | .sip m => !m.isExternal && m.isRequest && decide (m.requestMethod = MethodTypes.ACK)
  | _ => false

/-- A transaction without CANCEL child. -/
def sampleTransaction (m : Machine) (st : State) (reliable : Bool) (msg : Option SipMessage) :
    TransactionState :=
  { mMachine := m, mState := st, mIsReliable := reliable, mCancelStateMachine := none,
    mMsgToRetransmit := msg }

/-- The timer service firing, `n` times in a row, the timer scheduled last:
each time the dispatcher is given the expiry of the newest entry of `mTimers`. -/
def fireLast (env : Env) : Nat → SipStack → Except Fault SipStack
  | 0, s => .ok s
  | n + 1, s =>
    match s.mTimers.getLast? with
    | none => .ok s
    | some e =>
      match deliver env (expiry e) s with
      | .error err => .error err
      | .ok s1 => fireLast env n s1

end TransactionState

end Vocal2

/-! ## The TURN/STUN client engine -/

namespace reTurn

/-- The string type `resip::Data`. -/
abbrev Data := String

/-- A 128-bit magic cookie and transaction id (`UInt128`). -/
abbrev UInt128 := Nat

/-- The enumeration `StunTuple::TransportType`. -/
inductive TransportType where
  | None
  | UDP
  | TCP
  | TLS
  deriving DecidableEq, Repr

/-- A `StunTuple`: transport type, address and port. Addresses are kept in
their textual form, as in `asio::ip::address::from_string`. -/
structure StunTuple where
  mTransport : TransportType
  mAddress : String
  mPort : Nat
  deriving DecidableEq, Repr

/-- The address attribute `StunAtrAddress` of a STUN message. -/
structure StunAtrAddress where
  addr : String
  port : Nat
  deriving DecidableEq, Repr

/-- The message classes `StunMessage::StunClass...`; `mClass` is a `UInt16`, and
`Other` stands for every further value. -/
inductive StunClass where
  | Request
  | Indication
  | SuccessResponse
  | ErrorResponse
  | Other
  deriving DecidableEq, Repr

/-- The methods `StunMessage::...Method`; `mMethod` is a `UInt16`, and `Other`
stands for every further value. -/
inductive StunMethod where
  | Bind
  | SharedSecret
  | TurnAllocate
  | TurnRefresh
  | TurnSend
  | TurnData
  | TurnChannelConfirmation
  | Other
  deriving DecidableEq, Repr

/-- The attribute `mErrorCode`. -/
structure StunErrorCode where
  errorClass : Nat
  number : Nat
  deriving DecidableEq, Repr

/-- The attribute `mTurnRequestedPortProps`. -/
structure RequestedPortProps where
  props : Nat
  port : Nat
  deriving DecidableEq, Repr

/-- The values of `mTurnRequestedTransport`. -/
inductive RequestedTransport where
  | RequestedTransportUdp
  | RequestedTransportTcp
  deriving DecidableEq, Repr

/-- What the source reads and writes of a `StunMessage`. An attribute `mX`
guarded by its flag `mHasX` is an `Option`: `some v` when the flag is set.
`mHasMessageIntegrity` stays a flag, its hash is not touched by the source. -/
structure StunMessage where
  mIsValid : Bool
  mClass : StunClass
  mMethod : StunMethod
  magicCookieAndTid : UInt128
  mRemoteTuple : StunTuple
  mHasMessageIntegrity : Bool
  mHmacKey : Data
  mUsername : Option Data
  mPassword : Option Data
  mRealm : Option Data
  mNonce : Option Data
  mErrorCode : Option StunErrorCode
  mXorMappedAddress : Option StunAtrAddress
  mMappedAddress : Option StunAtrAddress
  mTurnRelayAddress : Option StunAtrAddress
  mTurnPeerAddress : Option StunAtrAddress
  mTurnChannelNumber : Option Nat
  mTurnLifetime : Option Nat
  mTurnBandwidth : Option Nat
  mTurnRequestedTransport : Option RequestedTransport
  mTurnRequestedIp : Option StunAtrAddress
  mTurnRequestedPortProps : Option RequestedPortProps
  mTurnData : Option (List Nat)
  deriving DecidableEq, Repr

/-- The error values of `ErrorCode.hxx` that the source produces, the success
value of a default `asio::error_code`, and the pass-through STUN response codes
`errorClass * 100 + number`. -/
inductive ErrorCode where
  | Success
  | NotConnected
  | NoAllocation
  | AlreadyAllocated
  | InvalidRequestedTransport
  | MissingAttributes
  | BadMessageIntegrity
  | ErrorParsingMessage
  | FrameError
  | UnknownRemoteAddress
  | InvalidChannelNumberReceived
  | StrayResponse
  | ResponseTimeout
  | Stun (code : Nat)
  deriving DecidableEq, Repr

/-- One call on the `TurnAsyncSocketHandler`. -/
inductive Callback where
  | onBindSuccess (reflexive : StunTuple)
  | onBindFailure (e : ErrorCode)
  | onSharedSecretSuccess (username password : Data)
  | onSharedSecretFailure (e : ErrorCode)
  | onAllocationSuccess (reflexive relay : StunTuple) (lifetime bandwidth : Nat)
  | onAllocationFailure (e : ErrorCode)
  | onRefreshSuccess (lifetime : Nat)
  | onRefreshFailure (e : ErrorCode)
  | onSetActiveDestinationSuccess
  | onSetActiveDestinationFailure (e : ErrorCode)
  | onClearActiveDestinationSuccess
  | onClearActiveDestinationFailure (e : ErrorCode)
  | onReceiveSuccess (address : String) (port : Nat) (data : List Nat)
  | onReceiveFailure (e : ErrorCode)
  deriving DecidableEq, Repr

/-- One call on `mAsyncSocketBase`: `send(destination, data)`,
`send(destination, channel, data)` or `close()`. -/
inductive SocketOp where
  | send (destination : StunTuple) (data : List Nat)
  | sendFramed (destination : StunTuple) (channel : Nat) (data : List Nat)
  | close
  deriving DecidableEq, Repr

/-- The ways a run of the engine can leave defined behaviour. -/
inductive Fault where
  | assertFailed
  | nullDeref
  | invalidIterator
  | outOfRange
  deriving DecidableEq, Repr

/-- One call on a timer: `RequestEntry::startTimer` and `stopTimer` of the
entry of a request, and the start and cancellation of the allocation timer. -/
inductive TimerOp where
  | requestStart (tid : UInt128) (milliseconds : Nat)
  | requestStop (tid : UInt128)
  | allocationStart (seconds : Nat)
  | allocationCancel
  deriving DecidableEq, Repr

/-- The members of `TurnAsyncSocket::RequestEntry`; `mRequestMessage` is a
pointer, `none` the null pointer. -/
structure RequestEntry where
  mRequestMessage : Option StunMessage
  mRequestsSent : Nat
  mTimeout : Nat
  deriving DecidableEq, Repr

/-- Modelled from the spec: a `RemotePeer` (its source is not part of the
repository files at hand): the peer tuple, the client-to-server and
server-to-client channel numbers (0 when not yet known) and their confirmation
flags. -/
structure RemotePeer where
  mPeerTuple : StunTuple
  mClientToServerChannel : Nat
  mServerToClientChannel : Nat
  mClientToServerChannelConfirmed : Bool
  mServerToClientChannelConfirmed : Bool
  deriving DecidableEq, Repr

/-- Modelled from the spec: the `ChannelManager` (its source is not part of the
repository files at hand). It owns the peers; a `RemotePeer*` is the position of
the peer in `peers`. The peers are found by peer address and by
client-to-server channel, and by server-to-client channel once that lookup has
been added. Channel numbers come from a counter that only grows. -/
structure ChannelManager where
  peers : List RemotePeer
  serverToClientLookup : List (Nat × Nat)
  mNextChannelNumber : Nat
  deriving DecidableEq, Repr

/-- The members of `TurnAsyncSocket` and what its collaborators have been given:
`mTurnAsyncSocketHandler` records whether the handler pointer is non-null;
`connected`, `connectedAddress` and `connectedPort` are the answers of
`mAsyncSocketBase`; `socketOps`, `callbacks` and `timerOps` hold the calls on the
socket base, the handler and the timers, oldest first; `tidsDrawn` counts the
transaction ids generated so far. -/
structure TurnAsyncSocket where
  mTurnAsyncSocketHandler : Bool
  mTurnFraming : Bool
  mLocalBinding : StunTuple
  mHaveAllocation : Bool
  mActiveDestination : Option Nat
  mCloseAfterDestroyAllocationFinishes : Bool
  mRequestedTransportType : TransportType
  mRelayTransportType : TransportType
  mUsername : Data
  mPassword : Data
  mHmacKey : Data
  mRealm : Data
  mNonce : Data
  mLifetime : Nat
  mChannelManager : ChannelManager
  mActiveRequestMap : List (UInt128 × RequestEntry)
  connected : Bool
  connectedAddress : String
  connectedPort : Nat
  socketOps : List SocketOp
  callbacks : List Callback
  timerOps : List TimerOp
  tidsDrawn : Nat
  deriving DecidableEq, Repr

/-- Functions the source calls and does not define: the encoders
`stunEncodeMessage` and `stunEncodeFramedMessage`, the check
`checkMessageIntegrity(key)`, the digest behind `MD5Stream::getHex`, and the
random source of `createHeader`, as the sequence of ids it yields. -/
structure StunEnv where
  stunEncodeMessage : StunMessage → List Nat
  stunEncodeFramedMessage : StunMessage → List Nat
  checkMessageIntegrity : StunMessage → Data → Bool
  md5Hex : String → String
  randomTid : Nat → UInt128

/-- Embeds `UDP_RT0`. -/
def UDP_RT0 : Nat := 100

/-- Embeds `UDP_MAX_RETRANSMITS`. -/
def UDP_MAX_RETRANSMITS : Nat := 7

/-- Embeds `TCP_RESPONSE_TIME`. -/
def TCP_RESPONSE_TIME : Nat := 7900

/-- Embeds `UDP_FINAL_REQUEST_TIME`. -/
def UDP_FINAL_REQUEST_TIME : Nat := UDP_RT0 * 16

/-- Embeds `std::map::find` on `mActiveRequestMap`. -/
def RequestMap.find (tid : UInt128) (m : List (UInt128 × RequestEntry)) : Option RequestEntry :=
  (m.find? (fun e => decide (e.1 = tid))).map (fun e => e.2)

/-- Embeds `std::map::erase` of the entry of a key. -/
def RequestMap.erase (tid : UInt128) (m : List (UInt128 × RequestEntry)) :
    List (UInt128 × RequestEntry) :=
  m.filter (fun e => decide (e.1 ≠ tid))

/-- The assignment `map[tid] = entry`. -/
def RequestMap.insert (tid : UInt128) (entry : RequestEntry) (m : List (UInt128 × RequestEntry)) :
    List (UInt128 × RequestEntry) :=
  (tid, entry) :: RequestMap.erase tid m

/-- Modelled from the spec: the default-constructed `StunMessage`
(`StunMessage.cxx` is not part of the repository files at hand), with no attribute set. -/
def StunMessage.empty : StunMessage :=
  { mIsValid := true, mClass := StunClass.Other, mMethod := StunMethod.Other,
    magicCookieAndTid := 0,
    mRemoteTuple := { mTransport := TransportType.None, mAddress := "0.0.0.0", mPort := 0 },
    mHasMessageIntegrity := false, mHmacKey := "", mUsername := none, mPassword := none,
    mRealm := none, mNonce := none, mErrorCode := none, mXorMappedAddress := none,
    mMappedAddress := none, mTurnRelayAddress := none, mTurnPeerAddress := none,
    mTurnChannelNumber := none, mTurnLifetime := none, mTurnBandwidth := none,
    mTurnRequestedTransport := none, mTurnRequestedIp := none,
    mTurnRequestedPortProps := none, mTurnData := none }

/-- Modelled from the spec: `StunMessage::setErrorCode(code, reason)`, which
splits the code into its class (hundreds) and number. -/
def StunMessage.setErrorCode (msg : StunMessage) (code : Nat) : StunMessage :=
  { msg with mErrorCode := some { errorClass := code / 100, number := code % 100 } }

/-- Modelled from the spec: `StunMessage::setStunAtrAddressFromTuple`, which
copies address and port of the tuple into the attribute. -/
def setStunAtrAddressFromTuple (tuple : StunTuple) : StunAtrAddress :=
  { addr := tuple.mAddress, port := tuple.mPort }

/-- Modelled from the spec: `StunMessage::setTupleFromStunAtrAddress`, which
copies address and port of the attribute into the tuple and keeps its
transport type. -/
def setTupleFromStunAtrAddress (tuple : StunTuple) (a : StunAtrAddress) : StunTuple :=
  { tuple with mAddress := a.addr, mPort := a.port }

/-- The default-constructed `StunTuple`. -/
def StunTuple.unset : StunTuple :=
  { mTransport := TransportType.None, mAddress := "0.0.0.0", mPort := 0 }

namespace ChannelManager

/-- Modelled from the spec: `findRemotePeerByPeerAddress`. -/
def findRemotePeerByPeerAddress (cm : ChannelManager) (tuple : StunTuple) : Option Nat :=
  let i := cm.peers.findIdx (fun p => decide (p.mPeerTuple = tuple))
  if i < cm.peers.length then some i else none

/-- Modelled from the spec: `findRemotePeerByClientToServerChannel`. -/
def findRemotePeerByClientToServerChannel (cm : ChannelManager) (channel : Nat) : Option Nat :=
  let i := cm.peers.findIdx (fun p => decide (p.mClientToServerChannel = channel))
  if i < cm.peers.length then some i else none

/-- Modelled from the spec: `findRemotePeerByServerToClientChannel`. -/
def findRemotePeerByServerToClientChannel (cm : ChannelManager) (channel : Nat) : Option Nat :=
  (cm.serverToClientLookup.find? (fun e => decide (e.1 = channel))).map (fun e => e.2)

/-- Modelled from the spec: `addRemotePeerServerToClientChannelLookup`, which
makes the peer findable by its server-to-client channel. -/
def addRemotePeerServerToClientChannelLookup (cm : ChannelManager) (peer : Nat) : ChannelManager :=
  match cm.peers[peer]? with
  | none => cm
  | some p =>
    { cm with serverToClientLookup :=
        (p.mServerToClientChannel, peer) ::
          cm.serverToClientLookup.filter (fun e => decide (e.1 ≠ p.mServerToClientChannel)) }

/-- Assignment to the members of the peer at a position. -/
def setPeer (cm : ChannelManager) (peer : Nat) (p : RemotePeer) : ChannelManager :=
  { cm with peers := cm.peers.set peer p }

end ChannelManager

namespace TurnAsyncSocket

/-- A call on the handler, made only when `mTurnAsyncSocketHandler` is set. -/
def callback (sock : TurnAsyncSocket) (c : Callback) : TurnAsyncSocket :=
  if sock.mTurnAsyncSocketHandler then { sock with callbacks := sock.callbacks ++ [c] }
  else sock

/-- Embeds `TurnAsyncSocket::send(boost::shared_ptr<DataBuffer>&)`: the data goes to
the connected address over the local transport. -/
def send (sock : TurnAsyncSocket) (data : List Nat) : TurnAsyncSocket :=
  { sock with socketOps := sock.socketOps ++
      [SocketOp.send { mTransport := sock.mLocalBinding.mTransport,
                       mAddress := sock.connectedAddress, mPort := sock.connectedPort } data] }

/-- Embeds `TurnAsyncSocket::send(unsigned short channel, boost::shared_ptr<DataBuffer>&)`. -/
def sendChannel (sock : TurnAsyncSocket) (channel : Nat) (data : List Nat) : TurnAsyncSocket :=
  { sock with socketOps := sock.socketOps ++
      [SocketOp.sendFramed { mTransport := sock.mLocalBinding.mTransport,
                             mAddress := sock.connectedAddress, mPort := sock.connectedPort }
        channel data] }

/-- Embeds `StunMessage::createHeader(stunclass, method)`: class and method are set and
a new transaction id is drawn from the random source. -/
def createHeader (env : StunEnv) (msg : StunMessage) (stunclass : StunClass) (method : StunMethod)
    (sock : TurnAsyncSocket) : StunMessage × TurnAsyncSocket :=
  ({ msg with mClass := stunclass, mMethod := method,
              magicCookieAndTid := env.randomTid sock.tidsDrawn },
   { sock with tidsDrawn := sock.tidsDrawn + 1 })

/-- Embeds `TurnAsyncSocket::createNewStunMessage`. -/
def createNewStunMessage (env : StunEnv) (stunclass : StunClass) (method : StunMethod)
    (addAuthInfo : Bool) (sock : TurnAsyncSocket) : StunMessage × TurnAsyncSocket :=
  let r := createHeader env StunMessage.empty stunclass method sock
  let msg := r.1
  if addAuthInfo && !sock.mUsername.isEmpty && !sock.mHmacKey.isEmpty then
    let msg1 := { msg with mHasMessageIntegrity := true, mUsername := some sock.mUsername,
                           mHmacKey := sock.mHmacKey }
    let msg2 := if !sock.mRealm.isEmpty then { msg1 with mRealm := some sock.mRealm } else msg1
    let msg3 := if !sock.mNonce.isEmpty then { msg2 with mNonce := some sock.mNonce } else msg2
    (msg3, r.2)
  else
    (msg, r.2)

/-- The constructor of `RequestEntry`. -/
def newRequestEntry (sock : TurnAsyncSocket) (requestMessage : StunMessage) : RequestEntry :=
  { mRequestMessage := some requestMessage,
    mRequestsSent := 1,
    mTimeout := if sock.mLocalBinding.mTransport = TransportType.UDP then UDP_RT0
                else TCP_RESPONSE_TIME }

/-- Embeds `RequestEntry::startTimer` of the entry registered under `key`: the request
timer is armed with `mTimeout` milliseconds. -/
def startTimer (key : UInt128) (entry : RequestEntry) (sock : TurnAsyncSocket) : TurnAsyncSocket :=
  { sock with timerOps := sock.timerOps ++ [TimerOp.requestStart key entry.mTimeout] }

/-- Embeds `RequestEntry::stopTimer` of the entry registered under `key`. -/
def stopTimer (key : UInt128) (sock : TurnAsyncSocket) : TurnAsyncSocket :=
  { sock with timerOps := sock.timerOps ++ [TimerOp.requestStop key] }

/-- Embeds `TurnAsyncSocket::sendStunMessage(message, reTransmission)`. -/
def sendStunMessage (env : StunEnv) (message : StunMessage) (reTransmission : Bool)
    (sock : TurnAsyncSocket) : TurnAsyncSocket :=
  let buffer := if sock.mTurnFraming then env.stunEncodeFramedMessage message
                else env.stunEncodeMessage message
  let sock1 :=
    if !reTransmission then
      if message.mClass = StunClass.Request then
        let requestEntry := newRequestEntry sock message
        startTimer message.magicCookieAndTid requestEntry
          { sock with mActiveRequestMap :=
              RequestMap.insert message.magicCookieAndTid requestEntry sock.mActiveRequestMap }
      else sock
    else sock
  send sock1 buffer

/-- Embeds `TurnAsyncSocket::cancelAllocationTimer`. -/
def cancelAllocationTimer (sock : TurnAsyncSocket) : TurnAsyncSocket :=
  { sock with timerOps := sock.timerOps ++ [TimerOp.allocationCancel] }

/-- Embeds `TurnAsyncSocket::startAllocationTimer`: the timer is set to
`(mLifetime*5)/8` seconds. `mLifetime` is an `unsigned int`, as the lifetime
arguments and `UnspecifiedLifetime` of this file are, so the product is taken
in 32-bit unsigned arithmetic. -/
def startAllocationTimer (sock : TurnAsyncSocket) : TurnAsyncSocket :=
  { sock with timerOps := sock.timerOps ++
      [TimerOp.allocationStart ((sock.mLifetime * 5) % 2 ^ 32 / 8)] }

/-- Embeds `TurnAsyncSocket::clearActiveRequestMap`: the timer of every entry is
stopped and the map is cleared. -/
def clearActiveRequestMap (sock : TurnAsyncSocket) : TurnAsyncSocket :=
  { sock with
    timerOps := sock.timerOps ++ sock.mActiveRequestMap.map (fun e => TimerOp.requestStop e.1),
    mActiveRequestMap := [] }

/-- Embeds `TurnAsyncSocket::actualClose`. -/
def actualClose (sock : TurnAsyncSocket) : TurnAsyncSocket :=
  let sock1 := cancelAllocationTimer (clearActiveRequestMap sock)
  { sock1 with socketOps := sock1.socketOps ++ [SocketOp.close] }

/-- Embeds `TurnAsyncSocket::requestTimeout(tid)`. In the Refresh case with
`mCloseAfterDestroyAllocationFinishes` set, `actualClose` clears the map before
`erase(it)` is reached, which then works on an invalidated iterator. -/
def requestTimeout (tid : UInt128) (sock : TurnAsyncSocket) : Except Fault TurnAsyncSocket :=
  match RequestMap.find tid sock.mActiveRequestMap with
  | none => .ok sock
  | some entry =>
    match entry.mRequestMessage with
    | none => .error Fault.nullDeref
    | some request =>
      let erase := fun (s : TurnAsyncSocket) =>
        { s with mActiveRequestMap := RequestMap.erase tid s.mActiveRequestMap }
      match request.mMethod with
      | StunMethod.Bind =>
        .ok (erase (sock.callback (Callback.onBindFailure ErrorCode.ResponseTimeout)))
      | StunMethod.SharedSecret =>
        .ok (erase (sock.callback (Callback.onSharedSecretFailure ErrorCode.ResponseTimeout)))
      | StunMethod.TurnAllocate =>
        .ok (erase (sock.callback (Callback.onAllocationFailure ErrorCode.ResponseTimeout)))
      | StunMethod.TurnRefresh =>
        let sock1 := sock.callback (Callback.onRefreshFailure ErrorCode.ResponseTimeout)
        if sock1.mCloseAfterDestroyAllocationFinishes then
          .error Fault.invalidIterator
        else
          .ok (erase sock1)
      | _ => .error Fault.assertFailed

/-- Embeds `RequestEntry::requestTimerExpired(e)`, run on an entry whose timer is the
one of `key`; `e` tells whether the wait ended with an error (cancellation).
The result holds the entry's members after the call. -/
def requestTimerExpired (env : StunEnv) (key : UInt128) (entry : RequestEntry) (e : Bool)
    (sock : TurnAsyncSocket) : Except Fault (RequestEntry × TurnAsyncSocket) :=
  match entry.mRequestMessage with
  | none => .ok (entry, sock)
  | some request =>
    if e then .ok (entry, sock)
    else if sock.mLocalBinding.mTransport ≠ TransportType.UDP ∨
            entry.mRequestsSent = UDP_MAX_RETRANSMITS then
      match requestTimeout request.magicCookieAndTid sock with
      | .error f => .error f
      | .ok sock1 => .ok (entry, sock1)
    else
      let timeout := if entry.mRequestsSent = UDP_MAX_RETRANSMITS - 1 then UDP_FINAL_REQUEST_TIME
                     else entry.mTimeout * 2
      let entry1 := { entry with mTimeout := timeout, mRequestsSent := entry.mRequestsSent + 1 }
      .ok (entry1, startTimer key entry1 (sendStunMessage env request true sock))

/-- The request timer of the entry registered under `tid` expires: the io
service calls `requestTimerExpired` on that entry with no error, and the
entry, when the map still holds it, has the members the call left. -/
def requestTimerFires (env : StunEnv) (tid : UInt128) (sock : TurnAsyncSocket) :
    Except Fault TurnAsyncSocket :=
  match RequestMap.find tid sock.mActiveRequestMap with
  | none => .ok sock
  | some entry =>
    match requestTimerExpired env tid entry false sock with
    | .error f => .error f
    | .ok r =>
      .ok { r.2 with mActiveRequestMap :=
              r.2.mActiveRequestMap.map (fun e => if e.1 = tid then (tid, r.1) else e) }

/-- Embeds `TurnAsyncSocket::handleDataInd`. -/
def handleDataInd (env : StunEnv) (stunMessage : StunMessage) (sock : TurnAsyncSocket) :
    ErrorCode × TurnAsyncSocket :=
  match stunMessage.mTurnPeerAddress, stunMessage.mTurnChannelNumber with
  | some peerAddress, some channelNumber =>
    let remoteTuple := setTupleFromStunAtrAddress
      { StunTuple.unset with mTransport := sock.mRelayTransportType } peerAddress
    match sock.mChannelManager.findRemotePeerByPeerAddress remoteTuple,
          (sock.mChannelManager.findRemotePeerByPeerAddress remoteTuple).bind
            (fun i => sock.mChannelManager.peers[i]?) with
    | some peer, some remotePeer =>
      if remotePeer.mServerToClientChannel ≠ 0 ∧
         remotePeer.mServerToClientChannel ≠ channelNumber then
        (ErrorCode.InvalidChannelNumberReceived, sock)
      else
        let sock1 :=
          if !remotePeer.mServerToClientChannelConfirmed then
            { sock with mChannelManager :=
                (sock.mChannelManager.setPeer peer
                  { remotePeer with mServerToClientChannel := channelNumber,
                                    mServerToClientChannelConfirmed := true
                  }).addRemotePeerServerToClientChannelLookup peer }
          else sock
        let sock2 :=
          if sock1.mLocalBinding.mTransport = TransportType.UDP then
            let r := createNewStunMessage env StunClass.Indication
                       StunMethod.TurnChannelConfirmation false sock1
            sendStunMessage env
              { r.1 with mTurnPeerAddress := some peerAddress,
                         mTurnChannelNumber := some channelNumber } false r.2
          else sock1
        let sock3 :=
          match stunMessage.mTurnData with
          | some data =>
            sock2.callback (Callback.onReceiveSuccess remoteTuple.mAddress remoteTuple.mPort data)
          | none => sock2
        (ErrorCode.Success, sock3)
    | _, _ => (ErrorCode.UnknownRemoteAddress, sock)
  | _, _ => (ErrorCode.MissingAttributes, sock)

/-- Embeds `TurnAsyncSocket::handleChannelConfirmation`. -/
def handleChannelConfirmation (stunMessage : StunMessage) (sock : TurnAsyncSocket) :
    ErrorCode × TurnAsyncSocket :=
  match stunMessage.mTurnPeerAddress, stunMessage.mTurnChannelNumber with
  | some peerAddress, some channelNumber =>
    let remoteTuple := setTupleFromStunAtrAddress
      { StunTuple.unset with mTransport := sock.mRelayTransportType } peerAddress
    match sock.mChannelManager.findRemotePeerByClientToServerChannel channelNumber,
          (sock.mChannelManager.findRemotePeerByClientToServerChannel channelNumber).bind
            (fun i => sock.mChannelManager.peers[i]?) with
    | some peer, some remotePeer =>
      if remotePeer.mPeerTuple ≠ remoteTuple then
        (ErrorCode.UnknownRemoteAddress, sock)
      else
        (ErrorCode.Success,
         { sock with mChannelManager :=
             (sock.mChannelManager.setPeer peer
               { remotePeer with mClientToServerChannelConfirmed := true }) })
    | _, _ => (ErrorCode.InvalidChannelNumberReceived, sock)
  | _, _ => (ErrorCode.MissingAttributes, sock)

/-- Embeds `TurnAsyncSocket::handleSharedSecretResponse`. -/
def handleSharedSecretResponse (stunMessage : StunMessage) (sock : TurnAsyncSocket) :
    ErrorCode × TurnAsyncSocket :=
  if stunMessage.mClass = StunClass.SuccessResponse then
    match stunMessage.mUsername, stunMessage.mPassword with
    | some username, some password =>
      (ErrorCode.Success, sock.callback (Callback.onSharedSecretSuccess username password))
    | _, _ =>
      (ErrorCode.MissingAttributes,
       sock.callback (Callback.onSharedSecretFailure ErrorCode.MissingAttributes))
  else
    match stunMessage.mErrorCode with
    | some ec =>
      (ErrorCode.Success,
       sock.callback (Callback.onSharedSecretFailure
         (ErrorCode.Stun (ec.errorClass * 100 + ec.number))))
    | none =>
      (ErrorCode.MissingAttributes,
       sock.callback (Callback.onSharedSecretFailure ErrorCode.MissingAttributes))

/-- Embeds `TurnAsyncSocket::handleBindRequest`. -/
def handleBindRequest (env : StunEnv) (stunMessage : StunMessage) (sock : TurnAsyncSocket) :
    ErrorCode × TurnAsyncSocket :=
  let response : StunMessage :=
    { StunMessage.empty with
      mClass := StunClass.SuccessResponse, mMethod := StunMethod.Bind,
      magicCookieAndTid := stunMessage.magicCookieAndTid,
      mXorMappedAddress := some (setStunAtrAddressFromTuple stunMessage.mRemoteTuple) }
  (ErrorCode.Success, sendStunMessage env response false sock)

/-- Embeds `TurnAsyncSocket::handleBindResponse`. -/
def handleBindResponse (stunMessage : StunMessage) (sock : TurnAsyncSocket) :
    ErrorCode × TurnAsyncSocket :=
  if stunMessage.mClass = StunClass.SuccessResponse then
    let reflexiveTuple := { StunTuple.unset with mTransport := sock.mLocalBinding.mTransport }
    match stunMessage.mXorMappedAddress, stunMessage.mMappedAddress with
    | some a, _ =>
      (ErrorCode.Success,
       sock.callback (Callback.onBindSuccess (setTupleFromStunAtrAddress reflexiveTuple a)))
    | none, some a =>
      (ErrorCode.Success,
       sock.callback (Callback.onBindSuccess (setTupleFromStunAtrAddress reflexiveTuple a)))
    | none, none =>
      (ErrorCode.MissingAttributes,
       sock.callback (Callback.onBindFailure ErrorCode.MissingAttributes))
  else
    match stunMessage.mErrorCode with
    | some ec =>
      (ErrorCode.Success,
       sock.callback (Callback.onBindFailure (ErrorCode.Stun (ec.errorClass * 100 + ec.number))))
    | none =>
      (ErrorCode.MissingAttributes,
       sock.callback (Callback.onBindFailure ErrorCode.MissingAttributes))

/-- Embeds `TurnAsyncSocket::handleAllocateResponse`. -/
def handleAllocateResponse (stunMessage : StunMessage) (sock : TurnAsyncSocket) :
    ErrorCode × TurnAsyncSocket :=
  if stunMessage.mClass = StunClass.SuccessResponse then
    let reflexiveTuple :=
      match stunMessage.mXorMappedAddress with
      | some a => setTupleFromStunAtrAddress
                    { StunTuple.unset with mTransport := sock.mLocalBinding.mTransport } a
      | none => StunTuple.unset
    let relayTuple :=
      match stunMessage.mTurnRelayAddress with
      | some a => setTupleFromStunAtrAddress
                    { StunTuple.unset with mTransport := sock.mRelayTransportType } a
      | none => StunTuple.unset
    let sock1 := { sock with mLifetime := match stunMessage.mTurnLifetime with
                                          | some l => l
                                          | none => 0 }
    if sock1.mLifetime ≠ 0 then
      let sock2 := startAllocationTimer { sock1 with mHaveAllocation := true }
      (ErrorCode.Success,
       sock2.callback (Callback.onAllocationSuccess reflexiveTuple relayTuple sock2.mLifetime
         (match stunMessage.mTurnBandwidth with
          | some b => b
          | none => 0)))
    else
      (ErrorCode.Success, sock1.callback (Callback.onAllocationFailure ErrorCode.MissingAttributes))
  else
    match stunMessage.mErrorCode with
    | some ec =>
      (ErrorCode.Success,
       sock.callback (Callback.onAllocationFailure
         (ErrorCode.Stun (ec.errorClass * 100 + ec.number))))
    | none =>
      (ErrorCode.MissingAttributes,
       sock.callback (Callback.onAllocationFailure ErrorCode.MissingAttributes))

/-- The block `if(mCloseAfterDestroyAllocationFinishes) { mHaveAllocation = false;
actualClose(); }`. -/
def closeIfRequested (sock : TurnAsyncSocket) : TurnAsyncSocket :=
  if sock.mCloseAfterDestroyAllocationFinishes then
    actualClose { sock with mHaveAllocation := false }
  else sock

/-- Embeds `TurnAsyncSocket::handleRefreshResponse`. -/
def handleRefreshResponse (stunMessage : StunMessage) (sock : TurnAsyncSocket) :
    ErrorCode × TurnAsyncSocket :=
  if stunMessage.mClass = StunClass.SuccessResponse then
    let sock1 := { sock with mLifetime := match stunMessage.mTurnLifetime with
                                          | some l => l
                                          | none => 0 }
    if sock1.mLifetime ≠ 0 then
      let sock2 := startAllocationTimer { sock1 with mHaveAllocation := true }
      (ErrorCode.Success,
       closeIfRequested (sock2.callback (Callback.onRefreshSuccess sock2.mLifetime)))
    else
      let sock2 := { cancelAllocationTimer sock1 with mHaveAllocation := false }
      let sock3 := sock2.callback (Callback.onRefreshSuccess 0)
      (ErrorCode.Success,
       if sock3.mCloseAfterDestroyAllocationFinishes then actualClose sock3 else sock3)
  else
    match stunMessage.mErrorCode with
    | some ec =>
      (ErrorCode.Success,
       closeIfRequested (sock.callback (Callback.onRefreshFailure
         (ErrorCode.Stun (ec.errorClass * 100 + ec.number)))))
    | none =>
      (ErrorCode.MissingAttributes,
       closeIfRequested (sock.callback (Callback.onRefreshFailure ErrorCode.MissingAttributes)))

/-- The condition under which `handleStunMessage` re-issues a request: realm,
nonce and error code are present, the error class is 4, and the number is 1
with `mHmacKey` still empty, or 38. -/
def isAuthChallenge (stunMessage : StunMessage) (sock : TurnAsyncSocket) : Bool :=
  match stunMessage.mRealm, stunMessage.mNonce, stunMessage.mErrorCode with
  | some _, some _, some ec =>
    decide (ec.errorClass = 4) &&
      ((decide (ec.number = 1) && sock.mHmacKey.isEmpty) || decide (ec.number = 38))
  | _, _, _ => false

/-- Embeds `TurnAsyncSocket::handleStunMessage`. -/
def handleStunMessage (env : StunEnv) (stunMessage : StunMessage) (sock : TurnAsyncSocket) :
    Except Fault (ErrorCode × TurnAsyncSocket) :=
  if stunMessage.mIsValid then
    if !env.checkMessageIntegrity stunMessage sock.mHmacKey then
      .ok (ErrorCode.BadMessageIntegrity, sock)
    else
      match stunMessage.mClass with
      | StunClass.Request =>
        match stunMessage.mMethod with
        | StunMethod.Bind => .ok (handleBindRequest env stunMessage sock)
        | _ =>
          let response : StunMessage :=
            { (StunMessage.empty.setErrorCode 400) with
              mClass := StunClass.ErrorResponse,
              magicCookieAndTid := stunMessage.magicCookieAndTid }
          .ok (ErrorCode.Success, sendStunMessage env response false sock)
      | StunClass.Indication =>
        match stunMessage.mMethod with
        | StunMethod.TurnData => .ok (handleDataInd env stunMessage sock)
        | StunMethod.TurnChannelConfirmation => .ok (handleChannelConfirmation stunMessage sock)
        | _ => .ok (ErrorCode.Success, sock)
      | StunClass.Other => .ok (ErrorCode.Success, sock)
      | _ =>
        match RequestMap.find stunMessage.magicCookieAndTid sock.mActiveRequestMap with
        | none => .ok (ErrorCode.StrayResponse, sock)
        | some entry =>
          let sock1 := stopTimer stunMessage.magicCookieAndTid sock
          if isAuthChallenge stunMessage sock1 then
            let sock2 :=
              { sock1 with
                mNonce := stunMessage.mNonce.getD "",
                mRealm := stunMessage.mRealm.getD "",
                mHmacKey := env.md5Hex (sock1.mUsername ++ ":" ++ stunMessage.mRealm.getD "" ++
                                        ":" ++ sock1.mPassword) }
            match entry.mRequestMessage with
            | none => .error Fault.nullDeref
            | some oldRequest =>
              let sock3 :=
                { sock2 with mActiveRequestMap :=
                    RequestMap.erase stunMessage.magicCookieAndTid sock2.mActiveRequestMap }
              let r := createHeader env oldRequest oldRequest.mClass oldRequest.mMethod sock3
              let newRequest : StunMessage :=
                { r.1 with mHasMessageIntegrity := true, mUsername := some sock2.mUsername,
                           mHmacKey := sock2.mHmacKey, mRealm := some sock2.mRealm,
                           mNonce := some sock2.mNonce }
              .ok (ErrorCode.Success, sendStunMessage env newRequest false r.2)
          else
            let sock2 :=
              { sock1 with mActiveRequestMap :=
                  RequestMap.erase stunMessage.magicCookieAndTid sock1.mActiveRequestMap }
            match stunMessage.mMethod with
            | StunMethod.Bind => .ok (handleBindResponse stunMessage sock2)
            | StunMethod.SharedSecret => .ok (handleSharedSecretResponse stunMessage sock2)
            | StunMethod.TurnAllocate => .ok (handleAllocateResponse stunMessage sock2)
            | StunMethod.TurnRefresh => .ok (handleRefreshResponse stunMessage sock2)
            | _ => .ok (ErrorCode.Success, sock2)
  else
    .ok (ErrorCode.ErrorParsingMessage, sock)

/-- The destination of every message of the engine: the connected address over
the local transport. -/
def serverTuple (sock : TurnAsyncSocket) : StunTuple :=
  { mTransport := sock.mLocalBinding.mTransport, mAddress := sock.connectedAddress,
    mPort := sock.connectedPort }

/-- The encoding `sendStunMessage` hands to the socket. -/
def encoded (env : StunEnv) (sock : TurnAsyncSocket) (msg : StunMessage) : List Nat :=
  if sock.mTurnFraming then env.stunEncodeFramedMessage msg else env.stunEncodeMessage msg

/-- The failure callback of a method, as the list of calls it amounts to:
`onBindFailure`, `onSharedSecretFailure`, `onAllocationFailure` or
`onRefreshFailure` with the error, and no call for any other method. -/
def failureCallback (method : StunMethod) (e : ErrorCode) : List Callback :=
  match method with
  | StunMethod.Bind => [Callback.onBindFailure e]
  | StunMethod.SharedSecret => [Callback.onSharedSecretFailure e]
  | StunMethod.TurnAllocate => [Callback.onAllocationFailure e]
  | StunMethod.TurnRefresh => [Callback.onRefreshFailure e]
  | _ => []

/-- The request timer of the entry registered under `tid` expires `n` times in
a row and no response arrives in between. -/
def requestTimerFiresN (env : StunEnv) (tid : UInt128) :
    Nat → TurnAsyncSocket → Except Fault TurnAsyncSocket
  | 0, sock => .ok sock
  | n + 1, sock =>
    match requestTimerFires env tid sock with
    | .error f => .error f
    | .ok sock1 => requestTimerFiresN env tid n sock1

/-- The constructor of `TurnAsyncSocket` for a local binding with the given
transport, together with a socket base connected to `server`; nothing has been
sent, called or drawn yet. -/
def initial (transport : TransportType) (address : String) (port : Nat) (turnFraming : Bool)
    (server : String) (serverPort : Nat) : TurnAsyncSocket :=
  { mTurnAsyncSocketHandler := true, mTurnFraming := turnFraming,
    mLocalBinding := { mTransport := transport, mAddress := address, mPort := port },
    mHaveAllocation := false, mActiveDestination := none,
    mCloseAfterDestroyAllocationFinishes := false,
    mRequestedTransportType := TransportType.None, mRelayTransportType := TransportType.None,
    mUsername := "", mPassword := "", mHmacKey := "", mRealm := "", mNonce := "",
    mLifetime := 0,
    mChannelManager := { peers := [], serverToClientLookup := [], mNextChannelNumber := 16384 },
    mActiveRequestMap := [],
    connected := true, connectedAddress := server, connectedPort := serverPort,
    socketOps := [], callbacks := [], timerOps := [], tidsDrawn := 0 }

end TurnAsyncSocket

end reTurn

namespace reTurn

/-- Declarations of the headers that the source uses and that are not at hand:
the default value of the parameter `addAuthInfo` of `createNewStunMessage`, and
the constant `StunMessage::PortPropsNone`. -/
structure Decls where
  addAuthInfo : Bool
  PortPropsNone : Nat

namespace TurnAsyncSocket

/-- The static member `UnspecifiedLifetime`. -/
def UnspecifiedLifetime : Nat := 0xFFFFFFFF

/-- The static member `UnspecifiedBandwidth`. -/
def UnspecifiedBandwidth : Nat := 0xFFFFFFFF

/-- The static member `UnspecifiedPort`. -/
def UnspecifiedPort : Nat := 0

/-- The static member `UnspecifiedIpAddress`. -/
def UnspecifiedIpAddress : String := "0.0.0.0"

/-- Embeds `TurnAsyncSocket::doCreateAllocation`. -/
def doCreateAllocation (env : StunEnv) (decls : Decls) (lifetime bandwidth : Nat)
    (requestedPortProps requestedPort : Nat) (requestedTransportType : TransportType)
    (requestedIpAddress : String) (sock : TurnAsyncSocket) : TurnAsyncSocket :=
  let sock1 :=
    { sock with
      mRequestedTransportType := requestedTransportType,
      mRelayTransportType :=
        if requestedTransportType ≠ TransportType.None then requestedTransportType
        else sock.mLocalBinding.mTransport }
  if !sock1.connected then
    sock1.callback (Callback.onAllocationFailure ErrorCode.NotConnected)
  else if sock1.mHaveAllocation then
    sock1.callback (Callback.onAllocationFailure ErrorCode.AlreadyAllocated)
  else
    let r := createNewStunMessage env StunClass.Request StunMethod.TurnAllocate
               decls.addAuthInfo sock1
    let request1 := if lifetime ≠ UnspecifiedLifetime then
                      { r.1 with mTurnLifetime := some lifetime }
                    else r.1
    let request2 := if bandwidth ≠ UnspecifiedBandwidth then
                      { request1 with mTurnBandwidth := some bandwidth }
                    else request1
    let finish := fun (request3 : StunMessage) =>
      let request4 :=
        if requestedIpAddress ≠ UnspecifiedIpAddress then
          { request3 with mTurnRequestedIp :=
              (some (setStunAtrAddressFromTuple
                { mTransport := TransportType.None, mAddress := requestedIpAddress,
                  mPort := 0 })) }
        else request3
      let request5 :=
        if requestedPortProps ≠ decls.PortPropsNone ∨ requestedPort ≠ UnspecifiedPort then
          { request4 with mTurnRequestedPortProps :=
              (some { props := requestedPortProps, port := requestedPort }) }
        else request4
      sendStunMessage env request5 false r.2
    if requestedTransportType ≠ TransportType.None ∧
       requestedTransportType ≠ TransportType.TLS then
      if requestedTransportType = TransportType.UDP then
        finish { request2 with
                 mTurnRequestedTransport := some RequestedTransport.RequestedTransportUdp }
      else if requestedTransportType = TransportType.TCP ∧
              r.2.mLocalBinding.mTransport ≠ TransportType.UDP then
        finish { request2 with
                 mTurnRequestedTransport := some RequestedTransport.RequestedTransportTcp }
      else
        r.2.callback (Callback.onAllocationFailure ErrorCode.InvalidRequestedTransport)
    else
      finish request2

/-- Embeds `TurnAsyncSocket::doRefreshAllocation`. -/
def doRefreshAllocation (env : StunEnv) (decls : Decls) (lifetime : Nat)
    (sock : TurnAsyncSocket) : TurnAsyncSocket :=
  if !sock.mHaveAllocation then
    let sock1 := sock.callback (Callback.onRefreshFailure ErrorCode.NoAllocation)
    if sock1.mCloseAfterDestroyAllocationFinishes then
      actualClose { sock1 with mHaveAllocation := false }
    else sock1
  else
    let r := createNewStunMessage env StunClass.Request StunMethod.TurnRefresh
               decls.addAuthInfo sock
    let request := if lifetime ≠ UnspecifiedLifetime then
                     { r.1 with mTurnLifetime := some lifetime }
                   else r.1
    sendStunMessage env request false r.2

/-- Embeds `TurnAsyncSocket::doDestroyAllocation`. -/
def doDestroyAllocation (env : StunEnv) (decls : Decls) (sock : TurnAsyncSocket) :
    TurnAsyncSocket :=
  doRefreshAllocation env decls 0 sock

end TurnAsyncSocket

/-- The declarations for the examples: authentication attributes are added by
default, and `PortPropsNone` is 0. -/
def sampleDecls : Decls :=
  { addAuthInfo := true, PortPropsNone := 0 }

end reTurn

namespace reTurn

/-- An instance for the examples. The encoders yield the transaction id as the
only byte, framed messages behind the four bytes of channel 0; a message passes
the integrity check when it carries no integrity attribute or was keyed with
the key at hand; the digest is a non-empty stand-in for the MD5 hex digest;
the `n`-th id drawn is `1000 + n`. -/
def sampleStunEnv : StunEnv :=
  { stunEncodeMessage := fun msg => [msg.magicCookieAndTid],
    stunEncodeFramedMessage := fun msg => [0, 0, 0, 1, msg.magicCookieAndTid],
    checkMessageIntegrity := fun msg key => !msg.mHasMessageIntegrity || decide (msg.mHmacKey = key),
    md5Hex := fun s => "md5(" ++ s ++ ")",
    randomTid := fun n => 1000 + n }

/-- A request of the given method and id without attributes. -/
def sampleStunRequest (method : StunMethod) (tid : UInt128) : StunMessage :=
  { StunMessage.empty with mClass := StunClass.Request, mMethod := method,
                           magicCookieAndTid := tid }

/-- A client over UDP at `10.0.0.1:5000`, connected to the server
`10.0.0.2:3478`, with user name `"u"` and password `"p"`. -/
def sampleUdpSocket : TurnAsyncSocket :=
  { TurnAsyncSocket.initial TransportType.UDP "10.0.0.1" 5000 false "10.0.0.2" 3478 with
    mUsername := "u", mPassword := "p" }

/-- The sample client with an Allocate request outstanding under id 7. -/
def sampleOutstanding : TurnAsyncSocket :=
  TurnAsyncSocket.sendStunMessage sampleStunEnv (sampleStunRequest StunMethod.TurnAllocate 7) false
    sampleUdpSocket

/-- A success response to the Allocate request `tid` with the given lifetime,
the relay address `1.2.3.4:50000` and the reflexive address `9.9.9.9:4000`. -/
def sampleAllocateSuccess (tid : UInt128) (lifetime : Nat) : StunMessage :=
  { StunMessage.empty with mClass := StunClass.SuccessResponse,
                           mMethod := StunMethod.TurnAllocate,
                           magicCookieAndTid := tid,
                           mTurnLifetime := some lifetime,
                           mTurnRelayAddress := some { addr := "1.2.3.4", port := 50000 },
                           mXorMappedAddress := some { addr := "9.9.9.9", port := 4000 } }

/-- The sample client holding an allocation while `close()` is under way:
`mCloseAfterDestroyAllocationFinishes` is set and the Refresh request with
lifetime 0 has been sent (under id 1000). -/
def sampleClosing : TurnAsyncSocket :=
  TurnAsyncSocket.doDestroyAllocation sampleStunEnv sampleDecls
    { sampleUdpSocket with mHaveAllocation := true,
                           mCloseAfterDestroyAllocationFinishes := true }

end reTurn

namespace reTurn

/-! ### Sending and receiving application data -/

namespace ChannelManager

/-- Modelled from the spec: `getNextChannelNumber` (the `ChannelManager` is not
part of the repository files at hand), which hands out the value of the
counter and advances the counter. -/
def getNextChannelNumber (cm : ChannelManager) : Nat × ChannelManager :=
  (cm.mNextChannelNumber, { cm with mNextChannelNumber := cm.mNextChannelNumber + 1 })

/-- Modelled from the spec: `createRemotePeer(peerTuple, clientToServerChannel,
serverToClientChannel)` (the `ChannelManager` is not part of the repository
files at hand), which adds a peer with the given tuple and channel numbers,
neither channel confirmed, and returns it. -/
def createRemotePeer (cm : ChannelManager) (peerTuple : StunTuple)
    (clientToServerChannel serverToClientChannel : Nat) : Nat × ChannelManager :=
  (cm.peers.length,
   { cm with peers := cm.peers ++
       [{ mPeerTuple := peerTuple,
          mClientToServerChannel := clientToServerChannel,
          mServerToClientChannel := serverToClientChannel,
          mClientToServerChannelConfirmed := false,
          mServerToClientChannelConfirmed := false }] })

end ChannelManager

namespace TurnAsyncSocket

/-- Embeds `TurnAsyncSocket::doSetActiveDestination`. -/
def doSetActiveDestination (address : String) (port : Nat) (sock : TurnAsyncSocket) :
    TurnAsyncSocket :=
  let remoteTuple : StunTuple :=
    { mTransport := sock.mRelayTransportType, mAddress := address, mPort := port }
  let sock1 :=
    match sock.mChannelManager.findRemotePeerByPeerAddress remoteTuple with
    | some remotePeer => { sock with mActiveDestination := some remotePeer }
    | none =>
      let n := sock.mChannelManager.getNextChannelNumber
      let r := n.2.createRemotePeer remoteTuple n.1 0
      { sock with mChannelManager := r.2, mActiveDestination := some r.1 }
  sock1.callback Callback.onSetActiveDestinationSuccess

/-- Embeds `TurnAsyncSocket::doClearActiveDestination`. -/
def doClearActiveDestination (sock : TurnAsyncSocket) : TurnAsyncSocket :=
  if !sock.mHaveAllocation then
    sock.callback (Callback.onClearActiveDestinationFailure ErrorCode.NoAllocation)
  else
    ({ sock with mActiveDestination := none }).callback Callback.onClearActiveDestinationSuccess

/-- Embeds `TurnAsyncSocket::sendTo(RemotePeer&, boost::shared_ptr<DataBuffer>&)`:
`peer` is the position of the peer the reference is bound to, `remotePeer` its
members. -/
def sendTo (env : StunEnv) (peer : Nat) (remotePeer : RemotePeer) (data : List Nat)
    (sock : TurnAsyncSocket) : TurnAsyncSocket :=
  if remotePeer.mClientToServerChannelConfirmed then
    sock.sendChannel remotePeer.mClientToServerChannel data
  else
    let r := createNewStunMessage env StunClass.Indication StunMethod.TurnSend false sock
    let ind1 : StunMessage :=
      { r.1 with mTurnPeerAddress := some (setStunAtrAddressFromTuple remotePeer.mPeerTuple),
                 mTurnChannelNumber := some remotePeer.mClientToServerChannel }
    let ind2 := if data.length > 0 then { ind1 with mTurnData := some data } else ind1
    let sock1 :=
      if r.2.mLocalBinding.mTransport ≠ TransportType.UDP then
        { r.2 with mChannelManager :=
            (r.2.mChannelManager.setPeer peer
              { remotePeer with mClientToServerChannelConfirmed := true }) }
      else r.2
    sendStunMessage env ind2 false sock1

/-- Embeds `TurnAsyncSocket::doSend`: with an allocation the data goes to
`*mActiveDestination`, a null pointer when no active destination is set. -/
def doSend (env : StunEnv) (data : List Nat) (sock : TurnAsyncSocket) :
    Except Fault TurnAsyncSocket :=
  if !sock.mHaveAllocation then
    .ok (sock.send data)
  else
    match sock.mActiveDestination with
    | none => .error Fault.nullDeref
    | some peer =>
      match sock.mChannelManager.peers[peer]? with
      | none => .error Fault.nullDeref
      | some remotePeer => .ok (sendTo env peer remotePeer data sock)

/-- Embeds `TurnAsyncSocket::doSendTo`. Without an allocation the data goes to
the address and port of the call over the local transport. -/
def doSendTo (env : StunEnv) (address : String) (port : Nat) (data : List Nat)
    (sock : TurnAsyncSocket) : Except Fault TurnAsyncSocket :=
  if !sock.mHaveAllocation then
    let destination : StunTuple :=
      { mTransport := sock.mLocalBinding.mTransport, mAddress := address, mPort := port }
    .ok { sock with socketOps := sock.socketOps ++ [SocketOp.send destination data] }
  else
    let remoteTuple : StunTuple :=
      { mTransport := sock.mRelayTransportType, mAddress := address, mPort := port }
    let found : Nat × TurnAsyncSocket :=
      match sock.mChannelManager.findRemotePeerByPeerAddress remoteTuple with
      | some remotePeer => (remotePeer, sock)
      | none =>
        let n := sock.mChannelManager.getNextChannelNumber
        let r := n.2.createRemotePeer remoteTuple n.1 0
        (r.1, { sock with mChannelManager := r.2 })
    match found.2.mChannelManager.peers[found.1]? with
    | none => .error Fault.nullDeref
    | some remotePeer => .ok (sendTo env found.1 remotePeer data found.2)

/-- Embeds `TurnAsyncSocket::handleReceivedData`. The constructor
`StunMessage(localTuple, remoteTuple, buf, bufLen)`, which parses the bytes, is
the parameter `stunMessageOf`. The two bytes copied to `channelNumber` are read
in network order. -/
def handleReceivedData (env : StunEnv)
    (stunMessageOf : StunTuple → StunTuple → List Nat → StunMessage)
    (address : String) (port : Nat) (data : List Nat) (sock : TurnAsyncSocket) :
    Except Fault TurnAsyncSocket :=
  if sock.mTurnFraming then
    if data.length > 4 then
      let channelNumber := (data.getD 0 0 % 256) * 256 + data.getD 1 0 % 256
      if channelNumber = 0 then
        let stunMsg := stunMessageOf sock.mLocalBinding (serverTuple sock) (data.drop 4)
        match handleStunMessage env stunMsg sock with
        | .error f => .error f
        | .ok r => .ok r.2
      else
        match sock.mChannelManager.findRemotePeerByServerToClientChannel channelNumber,
              (sock.mChannelManager.findRemotePeerByServerToClientChannel channelNumber).bind
                (fun i => sock.mChannelManager.peers[i]?) with
        | some _, some remotePeer =>
          .ok (sock.callback (Callback.onReceiveSuccess remotePeer.mPeerTuple.mAddress
                 remotePeer.mPeerTuple.mPort (data.drop 4)))
        | _, _ => .ok sock
    else
      .ok (sock.callback (Callback.onReceiveFailure ErrorCode.FrameError))
  else
    match data[0]? with
    | none => .error Fault.outOfRange
    | some b =>
      let deliver : Except Fault TurnAsyncSocket :=
        .ok (sock.callback (Callback.onReceiveSuccess address port data))
      if b = 0 ∨ b = 1 then
        let stunMsg := stunMessageOf sock.mLocalBinding (serverTuple sock) data
        if stunMsg.mIsValid then
          match handleStunMessage env stunMsg sock with
          | .error f => .error f
          | .ok r => .ok r.2
        else deliver
      else deliver

/-- Embeds `TurnAsyncSocket::doClose`; the `doDestroyAllocation` that
`destroyAllocation()` posts is run at once. -/
def doClose (env : StunEnv) (decls : Decls) (sock : TurnAsyncSocket) : TurnAsyncSocket :=
  if sock.mHaveAllocation ∧ sock.mLocalBinding.mTransport = TransportType.UDP then
    doDestroyAllocation env decls { sock with mCloseAfterDestroyAllocationFinishes := true }
  else
    actualClose sock

end TurnAsyncSocket

end reTurn

namespace reTurn

namespace TurnAsyncSocket

/-- The Send indication that `sendTo` builds for a peer and a payload when the
socket is in state `sock`: an indication of method Send under the next id
drawn, with the peer's address and port, the peer's client-to-server channel
number, and the payload when it is not empty. -/
def sendIndication (env : StunEnv) (sock : TurnAsyncSocket) (remotePeer : RemotePeer)
    (data : List Nat) : StunMessage :=
  { StunMessage.empty with
    mClass := StunClass.Indication, mMethod := StunMethod.TurnSend,
    magicCookieAndTid := env.randomTid sock.tidsDrawn,
    mTurnPeerAddress :=
      (some { addr := remotePeer.mPeerTuple.mAddress, port := remotePeer.mPeerTuple.mPort }),
    mTurnChannelNumber := some remotePeer.mClientToServerChannel,
    mTurnData := if data.length > 0 then some data else none }

/-- The ChannelConfirmation indication that `handleDataInd` builds when the
socket is in state `sock`: an indication of method ChannelConfirmation under
the next id drawn, with the given peer address and channel number. -/
def channelConfirmationIndication (env : StunEnv) (sock : TurnAsyncSocket)
    (peerAddress : StunAtrAddress) (channelNumber : Nat) : StunMessage :=
  { StunMessage.empty with
    mClass := StunClass.Indication, mMethod := StunMethod.TurnChannelConfirmation,
    magicCookieAndTid := env.randomTid sock.tidsDrawn,
    mTurnPeerAddress := some peerAddress,
    mTurnChannelNumber := some channelNumber }

end TurnAsyncSocket

/-- The sample client holding an allocation relayed over UDP. -/
def sampleAllocated : TurnAsyncSocket :=
  { sampleUdpSocket with mHaveAllocation := true, mRelayTransportType := TransportType.UDP }

/-- A client over TCP at `10.0.0.1:5000`, connected to the server
`10.0.0.2:3478`, holding an allocation relayed over TCP. -/
def sampleTcpAllocated : TurnAsyncSocket :=
  { TurnAsyncSocket.initial TransportType.TCP "10.0.0.1" 5000 false "10.0.0.2" 3478 with
    mHaveAllocation := true, mRelayTransportType := TransportType.TCP }

/-- The server of the sample clients, reached over the given transport. -/
def sampleServer (transport : TransportType) : StunTuple :=
  { mTransport := transport, mAddress := "10.0.0.2", mPort := 3478 }

/-- The peer `5.6.7.8:9000` behind a relay of the given transport, with the
client-to-server channel 16384, the given server-to-client channel and the
given confirmation flags. -/
def samplePeer (transport : TransportType) (serverToClientChannel : Nat)
    (clientToServerConfirmed serverToClientConfirmed : Bool) : RemotePeer :=
  { mPeerTuple := { mTransport := transport, mAddress := "5.6.7.8", mPort := 9000 },
    mClientToServerChannel := 16384,
    mServerToClientChannel := serverToClientChannel,
    mClientToServerChannelConfirmed := clientToServerConfirmed,
    mServerToClientChannelConfirmed := serverToClientConfirmed }

/-- A Data indication from the peer `5.6.7.8:9000` with the given channel
number and payload. -/
def sampleDataInd (channel : Nat) (data : List Nat) : StunMessage :=
  { StunMessage.empty with
    mClass := StunClass.Indication, mMethod := StunMethod.TurnData,
    mTurnPeerAddress := some { addr := "5.6.7.8", port := 9000 },
    mTurnChannelNumber := some channel,
    mTurnData := some data }

/-- A ChannelConfirmation indication of the server for the peer `5.6.7.8:9000`
and the given channel number. -/
def sampleChannelConfirmation (channel : Nat) : StunMessage :=
  { StunMessage.empty with
    mClass := StunClass.Indication, mMethod := StunMethod.TurnChannelConfirmation,
    mTurnPeerAddress := some { addr := "5.6.7.8", port := 9000 },
    mTurnChannelNumber := some channel }

end reTurn

namespace Vocal2

/-- The retransmission timers: Timer A, E1, E2 and G. -/
def TimerType.isRetransmission : TimerType → Bool
  | TimerType.TimerA => true
  | TimerType.TimerE1 => true
  | TimerType.TimerE2 => true
  | TimerType.TimerG => true
  | _ => false

/-- The stacks the dispatcher reaches: it starts with no transaction and
nothing logged, and every step is the dispatch of one message that runs without
fault. -/
inductive Reachable (env : Env) : SipStack → Prop where
  | start (discard : Bool) :
      Reachable env { TransactionState.emptyStack with mDiscardStrayResponses := discard }
  | step (msg : Message) (s s1 : SipStack) :
      Reachable env s → TransactionState.deliver env msg s = .ok s1 → Reachable env s1

/-- What the dispatcher and the handlers keep true of every transaction:
`mIsReliable` is false; a transaction whose machine is Server INVITE is in
`Proceeding`; a transaction holds a message to retransmit unless it is a Server
Non-INVITE transaction in `Trying`; a client transaction has no CANCEL child. -/
def TransactionState.Sound (t : TransactionState) : Prop :=
  t.mIsReliable = false ∧
  (t.mMachine = Machine.ServerInvite → t.mState = State.Proceeding) ∧
  (t.mMsgToRetransmit = none →
    t.mMachine = Machine.ServerNonInvite ∧ t.mState = State.Trying) ∧
  (t.mMachine = Machine.ClientInvite ∨ t.mMachine = Machine.ClientNonInvite →
    t.mCancelStateMachine = none)

/-- The invariant of the stack: every live transaction is sound, and the
table holds at most one entry per transaction id. -/
def SipStack.Sound (s : SipStack) : Prop :=
  (∀ t, some t ∈ s.heap → t.Sound) ∧ (s.mTransactionMap.map Prod.fst).Nodup

/-- The effect of one handler run that the invariants need: the stack stays
sound, the timers scheduled are appended, a retransmission timer is scheduled
under the id `tid` and only while the transaction holds a message to
retransmit, and no null pointer is handed to `retransmit`. -/
def StepOk (this : Ptr) (tid : Data) (s s1 : SipStack) : Prop :=
  s1.Sound ∧
  s.mTimers <+: s1.mTimers ∧
  (∀ e ∈ s1.mTimers.drop s.mTimers.length, e.type.isRetransmission = true →
    e.transactionId = tid ∧ ∃ t1, s1.lookup this = some t1 ∧ t1.mMsgToRetransmit ≠ none) ∧
  s.mTransportSelector <+: s1.mTransportSelector ∧
  WireOp.retransmit none ∉ s1.mTransportSelector.drop s.mTransportSelector.length

/-- The effect of a handler run that schedules no retransmission timer. -/
def StepQuiet (s s1 : SipStack) : Prop :=
  s1.Sound ∧
  s.mTimers <+: s1.mTimers ∧
  (∀ e ∈ s1.mTimers.drop s.mTimers.length, e.type.isRetransmission = false) ∧
  s.mTransportSelector <+: s1.mTransportSelector ∧
  WireOp.retransmit none ∉ s1.mTransportSelector.drop s.mTransportSelector.length

/-- The effect of one dispatcher step that the reachable-state invariants
need: the stack stays sound, the timers scheduled are appended, a
retransmission timer is scheduled only under an id whose transaction holds a
message to retransmit after the step, and no null pointer is handed to
`retransmit`. -/
def DeliverOk (s s1 : SipStack) : Prop :=
  s1.Sound ∧
  s.mTimers <+: s1.mTimers ∧
  (∀ e ∈ s1.mTimers.drop s.mTimers.length, e.type.isRetransmission = true →
    ∃ p t1, TransactionMap.find e.transactionId s.mTransactionMap = some p ∧
      s1.lookup p = some t1 ∧ t1.mMsgToRetransmit ≠ none) ∧
  (WireOp.retransmit none ∉ s.mTransportSelector →
    WireOp.retransmit none ∉ s1.mTransportSelector)

/-- The stack after the dispatcher has been given the INVITE `"b1"` from the
wire on an empty stack: a Server INVITE transaction in Proceeding holding the
100, Timer Trying scheduled, the INVITE forwarded to the TU. -/
def sampleInviteReceived : SipStack :=
  { TransactionState.emptyStack with
    mTransactionMap := [("b1", 0)]
    mTimers := [{ type := TimerType.TimerTrying, transactionId := "b1", duration := 200 }]
    mTUFifo := [TransactionState.sampleRequest MethodTypes.INVITE "b1" true]
    heap := [some (TransactionState.sampleTransaction Machine.ServerInvite State.Proceeding false
      (some (TransactionState.specMakeResponse
        (TransactionState.sampleRequest MethodTypes.INVITE "b1" true) 100)))] }

/-- The stack `sampleInviteReceived` after the TU has answered with a 486: the
transaction holds the 486 in Completed with machine `Stale`, Timer H and Timer G
are scheduled, and the 486 has been sent. -/
def sampleRejected : SipStack :=
  { sampleInviteReceived with
    mTimers := [{ type := TimerType.TimerTrying, transactionId := "b1", duration := 200 },
                { type := TimerType.TimerH, transactionId := "b1", duration := 32000 },
                { type := TimerType.TimerG, transactionId := "b1", duration := 500 }]
    mTransportSelector :=
      [WireOp.send (TransactionState.sampleResponse 486 MethodTypes.INVITE "b1" false)]
    heap := [some (TransactionState.sampleTransaction Machine.Stale State.Completed false
      (some (TransactionState.sampleResponse 486 MethodTypes.INVITE "b1" false)))] }

/-- The stack after the dispatcher has been given the REGISTER `"b1"` from the
TU on an empty stack: a Client Non-INVITE transaction in Trying holding the
request, Timer F scheduled, the request sent. -/
def sampleRegistering : SipStack :=
  { TransactionState.emptyStack with
    mTransactionMap := [("b1", 0)]
    mTimers := [{ type := TimerType.TimerF, transactionId := "b1", duration := 32000 }]
    mTransportSelector :=
      [WireOp.send (TransactionState.sampleRequest MethodTypes.REGISTER "b1" false)]
    heap := [some (TransactionState.sampleTransaction Machine.ClientNonInvite State.Trying false
      (some (TransactionState.sampleRequest MethodTypes.REGISTER "b1" false)))] }

/-- The stack `sampleRegistering` after a 200 from the wire: the transaction is
in Completed, Timer K is scheduled and the 200 has gone to the TU. -/
def sampleRegistered : SipStack :=
  { sampleRegistering with
    mTimers := [{ type := TimerType.TimerF, transactionId := "b1", duration := 32000 },
                { type := TimerType.TimerK, transactionId := "b1", duration := 5000 }]
    mTUFifo := [TransactionState.sampleResponse 200 MethodTypes.REGISTER "b1" true]
    heap := [some (TransactionState.sampleTransaction Machine.ClientNonInvite State.Completed
      false (some (TransactionState.sampleRequest MethodTypes.REGISTER "b1" false)))] }

end Vocal2

namespace reTurn

/-- The allocated sample client with the peer `5.6.7.8:9000` known to its
channel manager, neither channel confirmed. -/
def sampleWithPeer : TurnAsyncSocket :=
  { sampleAllocated with
    mChannelManager := { peers := [samplePeer TransportType.UDP 0 false false],
                         serverToClientLookup := [], mNextChannelNumber := 16385 } }

end reTurn

/-! ## SIP transactions: theorems -/

namespace Vocal2

open TransactionState

section HeapLemmas

theorem SipStack.lookup_new_self (s : SipStack) (m : Machine) (st : State) :
    (s.new m st).2.lookup (s.new m st).1 =
      some { mMachine := m, mState := st, mIsReliable := false,
             mCancelStateMachine := none, mMsgToRetransmit := none } := by
  simp [SipStack.new, SipStack.lookup]

theorem SipStack.lookup_lt (s : SipStack) (p : Ptr) (t : TransactionState)
    (h : s.lookup p = some t) : p < s.heap.length := by
  unfold SipStack.lookup at h
  by_contra hlt
  have : s.heap[p]? = none := List.getElem?_eq_none (Nat.le_of_not_lt hlt)
  simp [this] at h

theorem SipStack.lookup_store_self (s : SipStack) (p : Ptr) (t u : TransactionState)
    (h : s.lookup p = some t) : (s.store p u).lookup p = some u := by
  have hlt := s.lookup_lt p t h
  simp [SipStack.store, SipStack.lookup, List.getElem?_set, hlt]

theorem TransactionMap.find_remove_self (tid : Data) (m : List (Data × Ptr)) :
    TransactionMap.find tid (TransactionMap.remove tid m) = none := by
  simp only [TransactionMap.find, TransactionMap.remove, Option.map_eq_none', List.find?_eq_none]
  intro e he
  simp only [List.mem_filter, decide_eq_true_eq] at he
  simpa using he.2

theorem TransactionMap.find_add_self (tid : Data) (p : Ptr) (m : List (Data × Ptr)) :
    TransactionMap.find tid (TransactionMap.add tid p m) = some p := by
  simp [TransactionMap.find, TransactionMap.add]

theorem TransactionMap.add_of_find_none (tid : Data) (p : Ptr) (m : List (Data × Ptr))
    (h : TransactionMap.find tid m = none) :
    TransactionMap.add tid p m = (tid, p) :: m := by
  simp only [TransactionMap.find, Option.map_eq_none', List.find?_eq_none] at h
  simp only [TransactionMap.add, TransactionMap.remove, List.cons.injEq, true_and,
    List.filter_eq_self]
  intro e he
  simpa using h e he

end HeapLemmas

/-- C3 (the code at the failing input). A TU-originated `ACK` whose id is not in
the table is sent by the dispatcher and then falls through to the
new-transaction path: a Client Non-INVITE transaction is created and recorded,
Timer F is scheduled, the `ACK` is stored and sent a second time. -/
theorem process_tu_ack_falls_through (env : Env) (stack : SipStack) (ack : SipMessage)
    (rest : List Message)
    (hfifo : stack.mStateMacFifo = Message.sip ack :: rest)
    (hTU : ack.isExternal = false) (hreq : ack.isRequest = true)
    (hmeth : ack.requestMethod = MethodTypes.ACK)
    (hnew : TransactionMap.find ack.transactionId stack.mTransactionMap = none) :
    process env stack = .ok
      { stack with
        mStateMacFifo := rest
        mTransportSelector := stack.mTransportSelector ++ [WireOp.send ack, WireOp.send ack]
        mTimers := stack.mTimers ++
          [{ type := TimerType.TimerF, transactionId := ack.transactionId,
             duration := 64 * env.T1 }]
        mTransactionMap :=
          TransactionMap.add ack.transactionId stack.heap.length stack.mTransactionMap
        heap := stack.heap ++
          [some { mMachine := Machine.ClientNonInvite, mState := State.Trying,
                  mIsReliable := false, mCancelStateMachine := none,
                  mMsgToRetransmit := some ack }] } := by
  simp [process, hfifo, hTU, hreq, hmeth, SipStack.transportSend, hnew, Message.getTransactionId,
    processClientNonInvite, SipStack.new, SipStack.mapAdd, SipStack.lookup, isRequest, isInvite,
    isFromTU, sendToWire, SipStack.store, SipStack.timersAdd]

/-- The failing input of C3 evaluated: the TU's `ACK` with id `"b1"` on an empty
stack is sent twice, and a Client Non-INVITE transaction in Trying storing it
is added to the table with Timer F scheduled at 32000. -/
theorem process_tu_ack_falls_through_witness :
    process specEnv
        { emptyStack with
          mStateMacFifo := [Message.sip (sampleRequest MethodTypes.ACK "b1" false)] } =
      .ok { emptyStack with
            mTransportSelector := [WireOp.send (sampleRequest MethodTypes.ACK "b1" false),
                                   WireOp.send (sampleRequest MethodTypes.ACK "b1" false)]
            mTimers := [{ type := TimerType.TimerF, transactionId := "b1", duration := 32000 }]
            mTransactionMap := [("b1", 0)]
            heap := [some { mMachine := Machine.ClientNonInvite, mState := State.Trying,
                            mIsReliable := false, mCancelStateMachine := none,
                            mMsgToRetransmit := some (sampleRequest MethodTypes.ACK "b1" false) }] } :=
  process_tu_ack_falls_through specEnv
    { emptyStack with mStateMacFifo := [Message.sip (sampleRequest MethodTypes.ACK "b1" false)] }
    (sampleRequest MethodTypes.ACK "b1" false) [] rfl rfl rfl rfl rfl

/-- C4 (the code at the failing input). In `processClientInvite`, a
sent-confirmation for a stored INVITE schedules Timer A at `T1` exactly when it
reports a reliable transport; a sent-unreliable confirmation schedules
nothing. -/
theorem processClientInvite_sent_indication (env : Env) (s : SipStack) (this : Ptr)
    (t : TransactionState) (stored : SipMessage) (ind : SendingMessage)
    (hthis : s.lookup this = some t)
    (hstored : t.mMsgToRetransmit = some stored)
    (hinvite : stored.requestMethod = MethodTypes.INVITE) :
    processClientInvite env this (Message.sending ind) s =
      .ok (if ind.isReliable = true then
             s.timersAdd TimerType.TimerA ind.transactionId env.T1
           else s) := by
  simp [processClientInvite, hthis, hstored, hinvite, isInvite, isSentIndication, isSentReliable,
    Message.getTransactionId]
  split <;> rfl

/-- The failing input of C4 evaluated: for a Client INVITE transaction in
Calling that stores its INVITE, the sent-unreliable confirmation schedules no
timer, and the sent-reliable confirmation schedules Timer A at 500. -/
theorem processClientInvite_sent_indication_witness :
    processClientInvite specEnv 0
        (Message.sending { isReliable := false, transactionId := "b1" })
        (singleStack "b1"
          { mMachine := Machine.ClientInvite, mState := State.Calling, mIsReliable := false,
            mCancelStateMachine := none,
            mMsgToRetransmit := some (sampleRequest MethodTypes.INVITE "b1" false) }) =
      .ok (singleStack "b1"
          { mMachine := Machine.ClientInvite, mState := State.Calling, mIsReliable := false,
            mCancelStateMachine := none,
            mMsgToRetransmit := some (sampleRequest MethodTypes.INVITE "b1" false) }) :=
  processClientInvite_sent_indication specEnv
    (singleStack "b1"
      { mMachine := Machine.ClientInvite, mState := State.Calling, mIsReliable := false,
        mCancelStateMachine := none,
        mMsgToRetransmit := some (sampleRequest MethodTypes.INVITE "b1" false) })
    0
    { mMachine := Machine.ClientInvite, mState := State.Calling, mIsReliable := false,
      mCancelStateMachine := none,
      mMsgToRetransmit := some (sampleRequest MethodTypes.INVITE "b1" false) }
    (sampleRequest MethodTypes.INVITE "b1" false)
    { isReliable := false, transactionId := "b1" } rfl rfl rfl

/-- C5 (the code at the failing input). In `processServerInvite`, a final
response of 300 or more from the TU, received in Trying or Proceeding, moves the
transaction to Completed and assigns `Stale` to its machine. -/
theorem processServerInvite_failure_final (env : Env) (s : SipStack) (this : Ptr)
    (t : TransactionState) (rsp : SipMessage)
    (hthis : s.lookup this = some t)
    (hstate : t.mState = State.Trying ∨ t.mState = State.Proceeding)
    (hrsp : rsp.isResponse = true) (hTU : rsp.isExternal = false)
    (hcseq : rsp.cseqMethod = MethodTypes.INVITE)
    (hlo : 300 ≤ rsp.responseCode) (hhi : rsp.responseCode ≤ 699) :
    processServerInvite env this (Message.sip rsp) s =
      .ok (((if t.mIsReliable = true then
              (s.store this { t with mMsgToRetransmit := some rsp, mMachine := Machine.Stale,
                                     mState := State.Completed }).timersAdd
                TimerType.TimerH rsp.transactionId (64 * env.T1)
            else
              ((s.store this { t with mMsgToRetransmit := some rsp, mMachine := Machine.Stale,
                                      mState := State.Completed }).timersAdd
                TimerType.TimerH rsp.transactionId (64 * env.T1)).timersAdd
                TimerType.TimerG rsp.transactionId env.T1)).transportSend rsp) := by
  have h1 : 100 ≤ rsp.responseCode := by omega
  have h2 : ¬ rsp.responseCode = 100 := by omega
  have h3 : ¬ rsp.responseCode < 200 := by omega
  have h4 : ¬ rsp.responseCode < 300 := by omega
  simp [processServerInvite, hthis, hrsp, hTU, hcseq, hstate, isRequest, isFromTU, isResponse,
    sendToWire, Message.getTransactionId, h1, h2, h3, h4, hlo, hhi]

/-- The failing input of C5 evaluated: a Server INVITE transaction in
Proceeding that is given a 486 by the TU ends with machine `Stale`. -/
theorem processServerInvite_failure_final_witness :
    processServerInvite specEnv 0
        (Message.sip (sampleResponse 486 MethodTypes.INVITE "b1" false))
        (singleStack "b1"
          { mMachine := Machine.ServerInvite, mState := State.Proceeding, mIsReliable := false,
            mCancelStateMachine := none,
            mMsgToRetransmit := some (specMakeResponse (sampleRequest MethodTypes.INVITE "b1" true) 100) }) =
      .ok { singleStack "b1"
              { mMachine := Machine.Stale, mState := State.Completed, mIsReliable := false,
                mCancelStateMachine := none,
                mMsgToRetransmit := some (sampleResponse 486 MethodTypes.INVITE "b1" false) } with
            mTimers := [{ type := TimerType.TimerH, transactionId := "b1", duration := 32000 },
                        { type := TimerType.TimerG, transactionId := "b1", duration := 500 }]
            mTransportSelector := [WireOp.send (sampleResponse 486 MethodTypes.INVITE "b1" false)] } :=
  processServerInvite_failure_final specEnv
    (singleStack "b1"
      { mMachine := Machine.ServerInvite, mState := State.Proceeding, mIsReliable := false,
        mCancelStateMachine := none,
        mMsgToRetransmit := some (specMakeResponse (sampleRequest MethodTypes.INVITE "b1" true) 100) })
    0
    { mMachine := Machine.ServerInvite, mState := State.Proceeding, mIsReliable := false,
      mCancelStateMachine := none,
      mMsgToRetransmit := some (specMakeResponse (sampleRequest MethodTypes.INVITE "b1" true) 100) }
    (sampleResponse 486 MethodTypes.INVITE "b1" false) rfl (Or.inr rfl) rfl rfl rfl
    (by decide) (by decide)

section StaleLemmas

/-- What the dispatcher does with a message whose transaction has machine
`Stale`: besides the hand-over of a TU `ACK` to the transport, nothing. -/
theorem deliver_stale_eq (env : Env) (s : SipStack) (ev : Message) (p : Ptr)
    (t : TransactionState)
    (hfind : TransactionMap.find ev.getTransactionId s.mTransactionMap = some p)
    (hl : s.lookup p = some t) (hm : t.mMachine = Machine.Stale) :
    deliver env ev s =
      .ok (match ev with
           | .sip sip => if isAckFromTU ev = true then s.transportSend sip else s
           | _ => s) := by
  cases ev with
  | sip sip =>
    by_cases hack : isAckFromTU (Message.sip sip) = true
    · have hack2 := hack
      simp only [isAckFromTU] at hack2
      simp [deliver, process, hack, hack2, SipStack.transportSend, SipStack.lookup] at *
      simp [hfind, hl, hm, processStale]
    · have hack2 := hack
      simp only [isAckFromTU] at hack2
      simp [deliver, process, hack, hack2, SipStack.lookup] at *
      simp [hfind, hl, hm, processStale]
  | timer tm =>
    simp [deliver, process, SipStack.lookup] at *
    simp [hfind, hl, hm, processStale]
  | sending sm =>
    simp [deliver, process, SipStack.lookup] at *
    simp [hfind, hl, hm, processStale]
  | other tid =>
    simp [deliver, process, SipStack.lookup] at *
    simp [hfind, hl, hm, processStale]

end StaleLemmas

/-- C6. A 2xx response to the INVITE arriving from the wire for a Client
INVITE transaction (in any state) sets machine `Stale` and state `Terminated`
in that one dispatcher step, schedules Timer Stale at `TS` and forwards the
response to the TU; after that, every sequence of events delivered to the
transaction, none of them the expiry of Timer Stale, runs without fault and
leaves the transaction in the table with machine `Stale` and state
`Terminated`. -/
theorem client_invite_2xx_becomes_stale (env : Env) (s : SipStack) (rsp : SipMessage) (p : Ptr)
    (t : TransactionState) (evs : List Message)
    (hfind : TransactionMap.find rsp.transactionId s.mTransactionMap = some p)
    (hl : s.lookup p = some t) (hmach : t.mMachine = Machine.ClientInvite)
    (hrsp : isResponseDefault env (Message.sip rsp) = true)
    (hwire : rsp.isExternal = true) (hcseq : rsp.cseqMethod = MethodTypes.INVITE)
    (hlo : 200 ≤ rsp.responseCode) (hhi : rsp.responseCode < 300)
    (hevs : ∀ ev ∈ evs, ev.getTransactionId = rsp.transactionId ∧ isTimerStale ev = false) :
    deliver env (Message.sip rsp) s =
        .ok (((s.store p { t with mMachine := Machine.Stale, mState := State.Terminated }).timersAdd
              TimerType.TimerStale rsp.transactionId env.TS).tuFifoAdd rsp) ∧
      ∃ s2, deliverAll env evs
              (((s.store p { t with mMachine := Machine.Stale,
                                    mState := State.Terminated }).timersAdd
                TimerType.TimerStale rsp.transactionId env.TS).tuFifoAdd rsp) = .ok s2 ∧
            TransactionMap.find rsp.transactionId s2.mTransactionMap = some p ∧
            s2.lookup p = some { t with mMachine := Machine.Stale, mState := State.Terminated } := by
  constructor
  · have h1 : ¬ rsp.responseCode < 200 := by omega
    have h2 : (100 : Int) ≤ rsp.responseCode := by omega
    have hl2 := hl
    simp only [SipStack.lookup] at hl2
    simp only [isResponseDefault] at hrsp
    simp [deliver, process, hwire, Message.getTransactionId, hfind, SipStack.lookup, hl2, hmach,
      processClientInvite, isInvite, isFromTU, isSentIndication, isResponseDefault, hrsp, hcseq,
      h1, h2, hlo, hhi, sendToTU]
  · have key : ∀ (evs : List Message) (s1 : SipStack),
        (∀ ev ∈ evs, ev.getTransactionId = rsp.transactionId ∧ isTimerStale ev = false) →
        TransactionMap.find rsp.transactionId s1.mTransactionMap = some p →
        s1.lookup p = some { t with mMachine := Machine.Stale, mState := State.Terminated } →
        ∃ s2, deliverAll env evs s1 = .ok s2 ∧
          TransactionMap.find rsp.transactionId s2.mTransactionMap = some p ∧
          s2.lookup p = some { t with mMachine := Machine.Stale, mState := State.Terminated } := by
      intro evs
      induction evs with
      | nil => intro s1 _ hf hs; exact ⟨s1, rfl, hf, hs⟩
      | cons ev rest ih =>
        intro s1 hall hf hs
        have hev := hall ev (List.mem_cons_self ev rest)
        have hstep := deliver_stale_eq env s1 ev p _ (by rw [hev.1]; exact hf) hs rfl
        simp only [deliverAll, hstep]
        apply ih
        · intro e he; exact hall e (List.mem_cons_of_mem ev he)
        · cases ev <;> simp only [] <;> try exact hf
          split <;> simpa [SipStack.transportSend] using hf
        · cases ev <;> simp only [] <;> try exact hs
          split
          · simpa [SipStack.transportSend, SipStack.lookup] using hs
          · exact hs
    apply key evs _ hevs
    · simpa [SipStack.store, SipStack.timersAdd, SipStack.tuFifoAdd] using hfind
    · have hlt := s.lookup_lt p t hl
      simp [SipStack.store, SipStack.timersAdd, SipStack.tuFifoAdd, SipStack.lookup, hlt]

/-- The scenario of C6 at concrete values: INVITE `"b1"` in Proceeding, a 200
from the wire, then a duplicate 200, a late 180 and an expiry of Timer B. -/
theorem client_invite_2xx_becomes_stale_witness :
    deliver specEnv (Message.sip (sampleResponse 200 MethodTypes.INVITE "b1" true))
        (singleStack "b1" (sampleTransaction Machine.ClientInvite State.Proceeding false
          (some (sampleRequest MethodTypes.INVITE "b1" false)))) =
        .ok { singleStack "b1" (sampleTransaction Machine.Stale State.Terminated false
                (some (sampleRequest MethodTypes.INVITE "b1" false))) with
              mTimers := [{ type := TimerType.TimerStale, transactionId := "b1",
                            duration := 32000 }]
              mTUFifo := [sampleResponse 200 MethodTypes.INVITE "b1" true] } ∧
      ∃ s2, deliverAll specEnv
              [Message.sip (sampleResponse 200 MethodTypes.INVITE "b1" true),
               Message.sip (sampleResponse 180 MethodTypes.INVITE "b1" true),
               Message.timer { type := TimerType.TimerB, duration := 32000,
                               transactionId := "b1" }]
              { singleStack "b1" (sampleTransaction Machine.Stale State.Terminated false
                  (some (sampleRequest MethodTypes.INVITE "b1" false))) with
                mTimers := [{ type := TimerType.TimerStale, transactionId := "b1",
                              duration := 32000 }]
                mTUFifo := [sampleResponse 200 MethodTypes.INVITE "b1" true] } = .ok s2 ∧
            TransactionMap.find "b1" s2.mTransactionMap = some 0 ∧
            s2.lookup 0 = some (sampleTransaction Machine.Stale State.Terminated false
                (some (sampleRequest MethodTypes.INVITE "b1" false))) :=
  client_invite_2xx_becomes_stale specEnv
    (singleStack "b1" (sampleTransaction Machine.ClientInvite State.Proceeding false
      (some (sampleRequest MethodTypes.INVITE "b1" false))))
    (sampleResponse 200 MethodTypes.INVITE "b1" true) 0
    (sampleTransaction Machine.ClientInvite State.Proceeding false
      (some (sampleRequest MethodTypes.INVITE "b1" false)))
    [Message.sip (sampleResponse 200 MethodTypes.INVITE "b1" true),
     Message.sip (sampleResponse 180 MethodTypes.INVITE "b1" true),
     Message.timer { type := TimerType.TimerB, duration := 32000, transactionId := "b1" }]
    rfl rfl rfl (by decide) rfl rfl (by decide) (by decide) (by decide)

/-- C7 (counterexample). The transaction `"b1"` has been promoted to `Stale`; a
duplicate 200 from the wire is dispatched to it, and the TU FIFO, empty before,
is still empty afterwards: the response is not forwarded. -/
theorem stale_duplicate_2xx_not_forwarded :
    deliver specEnv (Message.sip (sampleResponse 200 MethodTypes.INVITE "b1" true))
        (singleStack "b1" (sampleTransaction Machine.Stale State.Terminated false
          (some (sampleRequest MethodTypes.INVITE "b1" false)))) =
      .ok (singleStack "b1" (sampleTransaction Machine.Stale State.Terminated false
          (some (sampleRequest MethodTypes.INVITE "b1" false)))) ∧
    (singleStack "b1" (sampleTransaction Machine.Stale State.Terminated false
          (some (sampleRequest MethodTypes.INVITE "b1" false)))).mTUFifo ≠
      (singleStack "b1" (sampleTransaction Machine.Stale State.Terminated false
          (some (sampleRequest MethodTypes.INVITE "b1" false)))).mTUFifo ++
        [sampleResponse 200 MethodTypes.INVITE "b1" true] := by
  constructor
  · rfl
  · decide

/-- C7 (amended). A duplicate 2xx response from the wire that the dispatcher
delivers to a transaction whose machine is `Stale` has no effect at all: the
stack after the step is the stack before it, so nothing is appended to the TU
FIFO, nothing is sent to the wire, no timer is scheduled and machine and state
are unchanged. -/
theorem stale_duplicate_2xx_no_effect (env : Env) (s : SipStack) (rsp : SipMessage) (p : Ptr)
    (t : TransactionState)
    (hfind : TransactionMap.find rsp.transactionId s.mTransactionMap = some p)
    (hl : s.lookup p = some t) (hmach : t.mMachine = Machine.Stale)
    (_hrsp : rsp.isResponse = true) (hwire : rsp.isExternal = true)
    (_hlo : 200 ≤ rsp.responseCode) (_hhi : rsp.responseCode < 300) :
    deliver env (Message.sip rsp) s = .ok s := by
  have h := deliver_stale_eq env s (Message.sip rsp) p t hfind hl hmach
  simpa [isAckFromTU, hwire] using h

/-- The amended C7 at concrete values: the duplicate 200 for the stale
transaction `"b1"`. -/
theorem stale_duplicate_2xx_no_effect_witness :
    deliver specEnv (Message.sip (sampleResponse 200 MethodTypes.INVITE "b1" true))
        (singleStack "b1" (sampleTransaction Machine.Stale State.Terminated false
          (some (sampleRequest MethodTypes.INVITE "b1" false)))) =
      .ok (singleStack "b1" (sampleTransaction Machine.Stale State.Terminated false
          (some (sampleRequest MethodTypes.INVITE "b1" false)))) :=
  stale_duplicate_2xx_no_effect specEnv
    (singleStack "b1" (sampleTransaction Machine.Stale State.Terminated false
      (some (sampleRequest MethodTypes.INVITE "b1" false))))
    (sampleResponse 200 MethodTypes.INVITE "b1" true) 0
    (sampleTransaction Machine.Stale State.Terminated false
      (some (sampleRequest MethodTypes.INVITE "b1" false)))
    rfl rfl rfl rfl rfl (by decide) (by decide)

/-- C8 (counterexample). Client INVITE `"b1"` is in Completed over an
unreliable transport and stores its failure `ACK`; a further 486 from the wire
makes the handler retransmit the `ACK` and also append the 486 to the TU
FIFO. -/
theorem processClientInvite_completed_failure_forwarded :
    processClientInvite specEnv 0
        (Message.sip (sampleResponse 486 MethodTypes.INVITE "b1" true))
        (singleStack "b1" (sampleTransaction Machine.ClientInvite State.Completed false
          (some (sampleRequest MethodTypes.ACK "b1" false)))) =
      .ok { singleStack "b1" (sampleTransaction Machine.ClientInvite State.Completed false
              (some (sampleRequest MethodTypes.ACK "b1" false))) with
            mTransportSelector :=
              [WireOp.retransmit (some (sampleRequest MethodTypes.ACK "b1" false))]
            mTUFifo := [sampleResponse 486 MethodTypes.INVITE "b1" true] } := by
  rfl

/-- C8 (amended). For a Client INVITE transaction in Completed over an
unreliable transport, every further response of 300 or more to the INVITE from
the wire causes exactly one retransmission of the stored failure `ACK` and is
forwarded to the TU; no timer is scheduled, and the state and the stored `ACK`
are unchanged. -/
theorem processClientInvite_completed_failure (env : Env) (s : SipStack) (this : Ptr)
    (t : TransactionState) (rsp : SipMessage)
    (hthis : s.lookup this = some t)
    (hstate : t.mState = State.Completed) (hunrel : t.mIsReliable = false)
    (hrsp : isResponseDefault env (Message.sip rsp) = true)
    (hwire : rsp.isExternal = true) (hcseq : rsp.cseqMethod = MethodTypes.INVITE)
    (hcode : 300 ≤ rsp.responseCode) :
    processClientInvite env this (Message.sip rsp) s =
      .ok { s with
            mTransportSelector := s.mTransportSelector ++ [WireOp.retransmit t.mMsgToRetransmit]
            mTUFifo := s.mTUFifo ++ [rsp] } := by
  have h1 : ¬ rsp.responseCode < 200 := by omega
  have h2 : ¬ rsp.responseCode < 300 := by omega
  simp only [isResponseDefault] at hrsp
  simp [processClientInvite, hthis, hstate, hunrel, isResponseDefault, hrsp, hwire, hcseq, hcode,
    h1, h2, isInvite, isFromTU, isSentIndication, sendToTU, SipStack.transportRetransmit,
    SipStack.tuFifoAdd]

/-- The amended C8 at concrete values: the duplicate 486 for `"b1"` in
Completed. -/
theorem processClientInvite_completed_failure_witness :
    processClientInvite specEnv 0
        (Message.sip (sampleResponse 486 MethodTypes.INVITE "b1" true))
        (singleStack "b1" (sampleTransaction Machine.ClientInvite State.Completed false
          (some (sampleRequest MethodTypes.ACK "b1" false)))) =
      .ok { singleStack "b1" (sampleTransaction Machine.ClientInvite State.Completed false
              (some (sampleRequest MethodTypes.ACK "b1" false))) with
            mTransportSelector :=
              [WireOp.retransmit (some (sampleRequest MethodTypes.ACK "b1" false))]
            mTUFifo := [sampleResponse 486 MethodTypes.INVITE "b1" true] } :=
  processClientInvite_completed_failure specEnv
    (singleStack "b1" (sampleTransaction Machine.ClientInvite State.Completed false
      (some (sampleRequest MethodTypes.ACK "b1" false))))
    0
    (sampleTransaction Machine.ClientInvite State.Completed false
      (some (sampleRequest MethodTypes.ACK "b1" false)))
    (sampleResponse 486 MethodTypes.INVITE "b1" true)
    rfl rfl rfl (by decide) rfl rfl (by decide)

/-- C9 (counterexample). With `T2 = 4000`, the expiry of Timer E1 with duration
3000 in Trying reschedules Timer E1 with duration 6000, which is not
`min (2 * 3000) 4000`. -/
theorem processClientNonInvite_timerE1_exceeds_T2 :
    processClientNonInvite specEnv 0
        (Message.timer { type := TimerType.TimerE1, duration := 3000, transactionId := "b1" })
        (singleStack "b1" (sampleTransaction Machine.ClientNonInvite State.Trying false
          (some (sampleRequest MethodTypes.REGISTER "b1" false)))) =
      .ok { singleStack "b1" (sampleTransaction Machine.ClientNonInvite State.Trying false
              (some (sampleRequest MethodTypes.REGISTER "b1" false))) with
            mTimers := [{ type := TimerType.TimerE1, transactionId := "b1", duration := 6000 }]
            mTransportSelector :=
              [WireOp.retransmit (some (sampleRequest MethodTypes.REGISTER "b1" false))] } ∧
    (6000 : Nat) ≠ min (2 * 3000) specEnv.T2 := by
  constructor
  · rfl
  · decide

/-- C9 (amended). For every Timer E1 expiry with duration `d` (an `unsigned
long`) delivered to a Client Non-INVITE transaction in Trying, the handler
reschedules Timer E1 with duration `2 * d` (modulo `2 ^ 64`) if `d < T2` and
with `d` otherwise, retransmits the stored request exactly once and stays in
Trying; the new duration is `min (2 * d) T2` whenever `2 * d ≤ T2` or `d = T2`,
with `T2 < 2 ^ 64`. In every other state the expiry schedules nothing and
sends nothing. -/
theorem processClientNonInvite_timerE1 (env : Env) (s : SipStack) (this : Ptr)
    (t : TransactionState) (timer : TimerMessage)
    (hthis : s.lookup this = some t) (htype : timer.type = TimerType.TimerE1) :
    (t.mState = State.Trying →
      processClientNonInvite env this (Message.timer timer) s =
        .ok { s with
              mTimers := s.mTimers ++
                [{ type := TimerType.TimerE1, transactionId := timer.transactionId,
                   duration := if timer.duration < env.T2 then (timer.duration * 2) % 2 ^ 64
                               else timer.duration }]
              mTransportSelector :=
                s.mTransportSelector ++ [WireOp.retransmit t.mMsgToRetransmit] }) ∧
    (env.T2 < 2 ^ 64 → (2 * timer.duration ≤ env.T2 ∨ timer.duration = env.T2) →
      (if timer.duration < env.T2 then (timer.duration * 2) % 2 ^ 64 else timer.duration) =
        min (2 * timer.duration) env.T2) ∧
    (t.mState ≠ State.Trying →
      processClientNonInvite env this (Message.timer timer) s = .ok s) := by
  refine ⟨?_, ?_, ?_⟩
  · intro hst
    simp [processClientNonInvite, hthis, htype, hst, isRequest, isSentReliable, isSentUnreliable,
      isResponseDefault, isResponse, isTimer, Message.getTransactionId, doubleULong, ULONG_BITS,
      SipStack.timersAdd, SipStack.transportRetransmit]
  · intro hT2 hd
    split
    · rw [Nat.mod_eq_of_lt (by omega)]
      omega
    · omega
  · intro hst
    simp [processClientNonInvite, hthis, htype, hst, isRequest, isSentReliable, isSentUnreliable,
      isResponseDefault, isResponse, isTimer]

/-- The amended C9 at concrete values: in Trying the expiry with duration 1000
reschedules Timer E1 with 2000 and retransmits the stored REGISTER. -/
theorem processClientNonInvite_timerE1_witness :
    processClientNonInvite specEnv 0
        (Message.timer { type := TimerType.TimerE1, duration := 1000, transactionId := "b1" })
        (singleStack "b1" (sampleTransaction Machine.ClientNonInvite State.Trying false
          (some (sampleRequest MethodTypes.REGISTER "b1" false)))) =
      .ok { singleStack "b1" (sampleTransaction Machine.ClientNonInvite State.Trying false
              (some (sampleRequest MethodTypes.REGISTER "b1" false))) with
            mTimers := [{ type := TimerType.TimerE1, transactionId := "b1", duration := 2000 }]
            mTransportSelector :=
              [WireOp.retransmit (some (sampleRequest MethodTypes.REGISTER "b1" false))] } :=
  (processClientNonInvite_timerE1 specEnv
    (singleStack "b1" (sampleTransaction Machine.ClientNonInvite State.Trying false
      (some (sampleRequest MethodTypes.REGISTER "b1" false))))
    0
    (sampleTransaction Machine.ClientNonInvite State.Trying false
      (some (sampleRequest MethodTypes.REGISTER "b1" false)))
    { type := TimerType.TimerE1, duration := 1000, transactionId := "b1" }
    rfl rfl).1 rfl

section ClientNonInviteTimeout

/-- Doubling below 4000, starting from 500, follows `min (500 * 2 ^ k) 4000`. -/
theorem e1_duration_step (k : Nat) :
    (if min (500 * 2 ^ k) 4000 < 4000 then doubleULong (min (500 * 2 ^ k) 4000)
     else min (500 * 2 ^ k) 4000) = min (500 * 2 ^ (k + 1)) 4000 := by
  by_cases hk : k < 3
  · interval_cases k <;> decide
  · have h8 : 2 ^ 3 ≤ 2 ^ k := Nat.pow_le_pow_right (by norm_num) (by omega)
    have h9 : 2 ^ k ≤ 2 ^ (k + 1) := Nat.pow_le_pow_right (by norm_num) (by omega)
    have h1 : min (500 * 2 ^ k) 4000 = 4000 := by
      apply Nat.min_eq_right; omega
    have h2 : min (500 * 2 ^ (k + 1)) 4000 = 4000 := by
      apply Nat.min_eq_right; omega
    rw [h1, h2]; simp

/-- The Timer E1 entries of the silent-server run: entry `k` has duration
`min (500 * 2 ^ k) 4000`. -/
theorem fireLast_e1 (env : Env) (hT2 : env.T2 = 4000) (tid : Data) (p : Ptr)
    (t : TransactionState) (ht : t.mMachine = Machine.ClientNonInvite)
    (hst : t.mState = State.Trying) (n : Nat) :
    ∀ (k : Nat) (s : SipStack) (base : List TimerEntry),
      TransactionMap.find tid s.mTransactionMap = some p →
      s.lookup p = some t →
      s.mTimers = base ++ [{ type := TimerType.TimerE1, transactionId := tid,
                             duration := min (500 * 2 ^ k) 4000 }] →
      fireLast env n s = .ok
        { s with
          mTimers := s.mTimers ++ (List.range n).map (fun j =>
            { type := TimerType.TimerE1, transactionId := tid,
              duration := min (500 * 2 ^ (k + 1 + j)) 4000 })
          mTransportSelector := s.mTransportSelector ++
            List.replicate n (WireOp.retransmit t.mMsgToRetransmit) } := by
  induction n with
  | zero => intro k s base _ _ _; simp [fireLast]
  | succ n ih =>
    intro k s base hfind hl htimers
    have hl2 := hl
    simp only [SipStack.lookup] at hl2
    have hstep : deliver env (expiry { type := TimerType.TimerE1, transactionId := tid,
                                       duration := min (500 * 2 ^ k) 4000 }) s =
        .ok { s with
              mTimers := s.mTimers ++ [{ type := TimerType.TimerE1, transactionId := tid,
                                         duration := min (500 * 2 ^ (k + 1)) 4000 }]
              mTransportSelector := s.mTransportSelector ++
                [WireOp.retransmit t.mMsgToRetransmit] } := by
      simp [deliver, process, expiry, Message.getTransactionId, hfind, SipStack.lookup, hl2, ht,
        processClientNonInvite, isRequest, isSentReliable, isSentUnreliable, isResponseDefault,
        isResponse, isTimer, hst, hT2, SipStack.timersAdd, SipStack.transportRetransmit]
      simpa using e1_duration_step k
    have hlast : s.mTimers.getLast? = some { type := TimerType.TimerE1, transactionId := tid,
                                             duration := min (500 * 2 ^ k) 4000 } := by
      rw [htimers]; simp
    simp only [fireLast, hlast, hstep]
    rw [ih (k + 1) _ s.mTimers (by simpa using hfind) (by simpa [SipStack.lookup] using hl2) rfl]
    simp only [List.range_succ_eq_map, List.map_cons, List.map_map, List.replicate_succ,
      List.append_assoc, List.singleton_append]
    congr 2
    simp [Function.comp_def, Nat.add_assoc, Nat.add_comm 1]
    intro a _
    rw [Nat.add_comm 2 a]

end ClientNonInviteTimeout

/-- C10. With `T1 = 500` and `T2 = 4000`, a non-INVITE request from the TU
whose id is not in the table creates a Client Non-INVITE transaction in Trying
and schedules Timer F at 32000; the sent-unreliable confirmation schedules Timer
E1 at 500; while the server is silent, `n` successive expiries of Timer E1
schedule it again at `min (500 * 2 ^ k) 4000` for `k = 1, ..., n` (so the
durations are 500, 1000, 2000, 4000, 4000, ...), each expiry retransmitting the
stored request once; and when Timer F fires, the TU receives the 408 response
built from the stored request and the transaction is removed from the table
and deleted. -/
theorem client_non_invite_silent_server (env : Env) (hT1 : env.T1 = 500) (hT2 : env.T2 = 4000)
    (s : SipStack) (req : SipMessage) (n : Nat)
    (hreq : req.isRequest = true) (hTU : req.isExternal = false)
    (hmeth : req.requestMethod ≠ MethodTypes.INVITE)
    (hnew : TransactionMap.find req.transactionId s.mTransactionMap = none) :
    ∃ s1 s2 s3 s4 : SipStack,
      deliver env (Message.sip req) s = .ok s1 ∧
      deliver env (Message.sending { isReliable := false,
                                     transactionId := req.transactionId }) s1 = .ok s2 ∧
      fireLast env n s2 = .ok s3 ∧
      deliver env (expiry { type := TimerType.TimerF, transactionId := req.transactionId,
                            duration := 32000 }) s3 = .ok s4 ∧
      TransactionMap.find req.transactionId s1.mTransactionMap = some s.heap.length ∧
      s1.lookup s.heap.length =
        some { mMachine := Machine.ClientNonInvite, mState := State.Trying, mIsReliable := false,
               mCancelStateMachine := none, mMsgToRetransmit := some req } ∧
      s1.mTimers = s.mTimers ++
        [{ type := TimerType.TimerF, transactionId := req.transactionId, duration := 32000 }] ∧
      s3.mTimers = s.mTimers ++
        { type := TimerType.TimerF, transactionId := req.transactionId, duration := 32000 } ::
          (List.range (n + 1)).map (fun k =>
            { type := TimerType.TimerE1, transactionId := req.transactionId,
              duration := min (500 * 2 ^ k) 4000 }) ∧
      s3.mTransportSelector =
        s1.mTransportSelector ++ List.replicate n (WireOp.retransmit (some req)) ∧
      s3.lookup s.heap.length = s1.lookup s.heap.length ∧
      s3.mTUFifo = s.mTUFifo ∧
      s4.mTUFifo = s.mTUFifo ++ [env.makeResponse req 408] ∧
      s4.mTimers = s3.mTimers ∧
      s4.mTransportSelector = s3.mTransportSelector ∧
      TransactionMap.find req.transactionId s4.mTransactionMap = none ∧
      s4.lookup s.heap.length = none := by
  -- the transaction the dispatcher creates
  let tx : TransactionState :=
    { mMachine := Machine.ClientNonInvite, mState := State.Trying, mIsReliable := false,
      mCancelStateMachine := none, mMsgToRetransmit := some req }
  let entryF : TimerEntry :=
    { type := TimerType.TimerF, transactionId := req.transactionId, duration := 32000 }
  let S1 : SipStack :=
    { s with
      mTransportSelector :=
        (if req.requestMethod = MethodTypes.ACK then s.mTransportSelector ++ [WireOp.send req]
         else s.mTransportSelector) ++ [WireOp.send req]
      mTimers := s.mTimers ++ [entryF]
      mTransactionMap := TransactionMap.add req.transactionId s.heap.length s.mTransactionMap
      heap := s.heap ++ [some tx] }
  have h1 : deliver env (Message.sip req) s = .ok S1 := by
    by_cases hack : req.requestMethod = MethodTypes.ACK
    · simp [S1, tx, entryF, deliver, process, hTU, hreq, hack, SipStack.transportSend, hnew,
        Message.getTransactionId, processClientNonInvite, SipStack.new, SipStack.mapAdd,
        SipStack.lookup, isRequest, isInvite, isFromTU, sendToWire, SipStack.store,
        SipStack.timersAdd, hT1]
    · simp [S1, tx, entryF, deliver, process, hTU, hreq, hack, hmeth, SipStack.transportSend, hnew,
        Message.getTransactionId, processClientNonInvite, SipStack.new, SipStack.mapAdd,
        SipStack.lookup, isRequest, isInvite, isFromTU, sendToWire, SipStack.store,
        SipStack.timersAdd, hT1]
  have hfind1 : TransactionMap.find req.transactionId S1.mTransactionMap = some s.heap.length :=
    TransactionMap.find_add_self _ _ _
  have hl1 : S1.lookup s.heap.length = some tx := by
    simp [S1, SipStack.lookup]
  let S2 : SipStack :=
    { S1 with mTimers := S1.mTimers ++ [{ type := TimerType.TimerE1,
                                          transactionId := req.transactionId, duration := 500 }] }
  have h2 : deliver env (Message.sending { isReliable := false,
                                           transactionId := req.transactionId }) S1 = .ok S2 := by
    have hl1b := hl1
    simp only [SipStack.lookup] at hl1b
    simp [S2, deliver, process, Message.getTransactionId, hfind1, SipStack.lookup, hl1b, tx,
      processClientNonInvite, isRequest, isSentReliable, isSentUnreliable, SipStack.timersAdd, hT1]
  have h3 := fireLast_e1 env hT2 req.transactionId s.heap.length tx rfl rfl n 0 S2
    (s.mTimers ++ [entryF]) hfind1 (by simp [S2, S1, SipStack.lookup]) (by simp [S2, S1])
  let S3 : SipStack :=
    { S2 with
      mTimers := S2.mTimers ++ (List.range n).map (fun j =>
        { type := TimerType.TimerE1, transactionId := req.transactionId,
          duration := min (500 * 2 ^ (0 + 1 + j)) 4000 })
      mTransportSelector := S2.mTransportSelector ++
        List.replicate n (WireOp.retransmit tx.mMsgToRetransmit) }
  have hl3 : S3.lookup s.heap.length = some tx := by
    simp [S3, S2, S1, SipStack.lookup]
  let S4 : SipStack :=
    { S3 with
      mTUFifo := S3.mTUFifo ++ [env.makeResponse req 408]
      mTransactionMap := TransactionMap.remove req.transactionId S3.mTransactionMap
      heap := S3.heap.set s.heap.length none }
  have h4 : deliver env (expiry entryF) S3 = .ok S4 := by
    have hl3b := hl3
    simp only [SipStack.lookup] at hl3b
    have hfind3 : TransactionMap.find req.transactionId S3.mTransactionMap = some s.heap.length :=
      hfind1
    simp [S4, deliver, process, expiry, entryF, Message.getTransactionId, hfind3, SipStack.lookup,
      hl3b, tx, processClientNonInvite, isRequest, isSentReliable, isSentUnreliable,
      isResponseDefault, isResponse, isTimer, sendToTU, SipStack.tuFifoAdd, delete, destroyAux,
      SipStack.mapRemove, SipStack.free]
  refine ⟨S1, S2, S3, S4, h1, h2, h3, h4, hfind1, hl1, rfl, ?_, ?_, ?_, rfl, rfl, rfl, rfl, ?_, ?_⟩
  · simp only [S3, S2, S1, entryF, List.range_succ_eq_map, List.map_cons, List.map_map,
      List.append_assoc, List.singleton_append, List.cons_append, List.nil_append]
    simp [Function.comp_def, Nat.add_comm 1]
  · simp [S3, S2, tx]
  · rw [hl3, hl1]
  · exact TransactionMap.find_remove_self _ _
  · simp [S4, S3, S2, S1, SipStack.lookup]

/-- The scenario of C10 at concrete values: a REGISTER `"b1"` from the TU on an
empty stack, the sent-unreliable confirmation, five expiries of Timer E1 and
then Timer F. -/
theorem client_non_invite_silent_server_witness :
    ∃ s1 s2 s3 s4 : SipStack,
      deliver specEnv (Message.sip (sampleRequest MethodTypes.REGISTER "b1" false)) emptyStack =
        .ok s1 ∧
      deliver specEnv (Message.sending { isReliable := false, transactionId := "b1" }) s1 =
        .ok s2 ∧
      fireLast specEnv 5 s2 = .ok s3 ∧
      deliver specEnv (expiry { type := TimerType.TimerF, transactionId := "b1",
                                duration := 32000 }) s3 = .ok s4 ∧
      TransactionMap.find "b1" s1.mTransactionMap = some 0 ∧
      s1.lookup 0 =
        some (sampleTransaction Machine.ClientNonInvite State.Trying false
                (some (sampleRequest MethodTypes.REGISTER "b1" false))) ∧
      s1.mTimers = [{ type := TimerType.TimerF, transactionId := "b1", duration := 32000 }] ∧
      s3.mTimers =
        [{ type := TimerType.TimerF, transactionId := "b1", duration := 32000 },
         { type := TimerType.TimerE1, transactionId := "b1", duration := 500 },
         { type := TimerType.TimerE1, transactionId := "b1", duration := 1000 },
         { type := TimerType.TimerE1, transactionId := "b1", duration := 2000 },
         { type := TimerType.TimerE1, transactionId := "b1", duration := 4000 },
         { type := TimerType.TimerE1, transactionId := "b1", duration := 4000 },
         { type := TimerType.TimerE1, transactionId := "b1", duration := 4000 }] ∧
      s3.mTransportSelector =
        s1.mTransportSelector ++
          List.replicate 5 (WireOp.retransmit (some (sampleRequest MethodTypes.REGISTER "b1" false))) ∧
      s3.lookup 0 = s1.lookup 0 ∧
      s3.mTUFifo = [] ∧
      s4.mTUFifo = [specMakeResponse (sampleRequest MethodTypes.REGISTER "b1" false) 408] ∧
      s4.mTimers = s3.mTimers ∧
      s4.mTransportSelector = s3.mTransportSelector ∧
      TransactionMap.find "b1" s4.mTransactionMap = none ∧
      s4.lookup 0 = none :=
  client_non_invite_silent_server specEnv rfl rfl emptyStack
    (sampleRequest MethodTypes.REGISTER "b1" false) 5 rfl rfl (by decide) rfl

/-- The Timer G case of `processServerInvite`, which no dispatcher step
reaches: in Completed it retransmits the stored response once, leaves it as it
is, and reschedules Timer G with `2 * d` (modulo `2 ^ 64`), whatever `T2` is; in
every other state nothing is sent or scheduled. -/
theorem processServerInvite_timerG (env : Env) (s : SipStack) (this : Ptr)
    (t : TransactionState) (timer : TimerMessage)
    (hthis : s.lookup this = some t) (htype : timer.type = TimerType.TimerG) :
    (t.mState = State.Completed →
      processServerInvite env this (Message.timer timer) s =
        .ok { s with
              mTransportSelector :=
                s.mTransportSelector ++ [WireOp.retransmit t.mMsgToRetransmit]
              mTimers := s.mTimers ++
                [{ type := TimerType.TimerG, transactionId := timer.transactionId,
                   duration := (timer.duration * 2) % 2 ^ 64 }] }) ∧
    (t.mState ≠ State.Completed →
      processServerInvite env this (Message.timer timer) s = .ok s) := by
  refine ⟨?_, ?_⟩
  · intro hst
    simp [processServerInvite, hthis, htype, hst, isRequest, isResponse, isFromTU, isTimer,
      Message.getTransactionId, doubleULong, ULONG_BITS, SipStack.timersAdd,
      SipStack.transportRetransmit]
  · intro hst
    simp [processServerInvite, hthis, htype, hst, isRequest, isResponse, isFromTU, isTimer]

/-- C12 (the code at the failing input). In `processServerNonInvite`, a
non-INVITE request from the wire is ignored in Trying, causes one
retransmission of the stored message in Proceeding, and in Completed reaches
`assert(0)`: nothing is retransmitted there. -/
theorem processServerNonInvite_retransmitted_request (env : Env) (s : SipStack) (this : Ptr)
    (t : TransactionState) (req : SipMessage)
    (hthis : s.lookup this = some t)
    (hreq : req.isRequest = true) (hwire : req.isExternal = true)
    (hmeth : req.requestMethod ≠ MethodTypes.INVITE) :
    (t.mState = State.Trying →
      processServerNonInvite env this (Message.sip req) s = .ok s) ∧
    (t.mState = State.Proceeding →
      processServerNonInvite env this (Message.sip req) s =
        .ok { s with mTransportSelector :=
                s.mTransportSelector ++ [WireOp.retransmit t.mMsgToRetransmit] }) ∧
    (t.mState = State.Completed →
      processServerNonInvite env this (Message.sip req) s = .error Fault.assertFailed) := by
  refine ⟨?_, ?_, ?_⟩ <;> intro hst <;>
    simp [processServerNonInvite, hthis, hreq, hwire, hmeth, hst, isRequest, isInvite, isFromTU,
      SipStack.transportRetransmit]

/-- The failing input of C12 evaluated: Server Non-INVITE `"b1"` in Completed
stores its 200; the retransmitted REGISTER from the wire ends in the failed
assertion. -/
theorem processServerNonInvite_retransmitted_request_witness :
    processServerNonInvite specEnv 0
        (Message.sip (sampleRequest MethodTypes.REGISTER "b1" true))
        (singleStack "b1" (sampleTransaction Machine.ServerNonInvite State.Completed false
          (some (sampleResponse 200 MethodTypes.REGISTER "b1" false)))) =
      .error Fault.assertFailed :=
  (processServerNonInvite_retransmitted_request specEnv
    (singleStack "b1" (sampleTransaction Machine.ServerNonInvite State.Completed false
      (some (sampleResponse 200 MethodTypes.REGISTER "b1" false))))
    0
    (sampleTransaction Machine.ServerNonInvite State.Completed false
      (some (sampleResponse 200 MethodTypes.REGISTER "b1" false)))
    (sampleRequest MethodTypes.REGISTER "b1" true)
    rfl rfl rfl (by decide)).2.2 rfl

/-- C14. For every request from the wire whose transaction id is not in the
table, the dispatcher creates one transaction, records it under that id (the
other entries of the table stay) and appends the request to the TU FIFO;
nothing is sent. For INVITE the transaction
is Server INVITE in Proceeding, stores the 100 made from the request, and Timer
Trying is scheduled at `T100`; for any other method it is Server Non-INVITE in
Trying, stores nothing, and no timer is scheduled. -/
theorem process_inbound_request_creates_server_transaction (env : Env) (stack : SipStack)
    (req : SipMessage) (rest : List Message)
    (hfifo : stack.mStateMacFifo = Message.sip req :: rest)
    (hreq : req.isRequest = true) (hwire : req.isExternal = true)
    (hnew : TransactionMap.find req.transactionId stack.mTransactionMap = none) :
    (req.requestMethod = MethodTypes.INVITE →
      process env stack = .ok
        { stack with
          mStateMacFifo := rest
          mTUFifo := stack.mTUFifo ++ [req]
          mTimers := stack.mTimers ++
            [{ type := TimerType.TimerTrying, transactionId := req.transactionId,
               duration := env.T100 }]
          mTransactionMap :=
            TransactionMap.add req.transactionId stack.heap.length stack.mTransactionMap
          heap := stack.heap ++
            [some { mMachine := Machine.ServerInvite, mState := State.Proceeding,
                    mIsReliable := false, mCancelStateMachine := none,
                    mMsgToRetransmit := some (env.makeResponse req 100) }] }) ∧
    (req.requestMethod ≠ MethodTypes.INVITE →
      process env stack = .ok
        { stack with
          mStateMacFifo := rest
          mTUFifo := stack.mTUFifo ++ [req]
          mTransactionMap :=
            TransactionMap.add req.transactionId stack.heap.length stack.mTransactionMap
          heap := stack.heap ++
            [some { mMachine := Machine.ServerNonInvite, mState := State.Trying,
                    mIsReliable := false, mCancelStateMachine := none,
                    mMsgToRetransmit := none }] }) ∧
    TransactionMap.find req.transactionId
        (TransactionMap.add req.transactionId stack.heap.length stack.mTransactionMap) =
      some stack.heap.length ∧
    TransactionMap.add req.transactionId stack.heap.length stack.mTransactionMap =
      (req.transactionId, stack.heap.length) :: stack.mTransactionMap := by
  refine ⟨?_, ?_, TransactionMap.find_add_self _ _ _,
    TransactionMap.add_of_find_none _ _ _ hnew⟩
  · intro hinv
    simp [process, hfifo, hreq, hwire, hinv, hnew, Message.getTransactionId, SipStack.new,
      SipStack.store, SipStack.timersAdd, SipStack.mapAdd, SipStack.tuFifoAdd, make100]
  · intro hother
    simp [process, hfifo, hreq, hwire, hother, hnew, Message.getTransactionId, SipStack.new,
      SipStack.mapAdd, SipStack.tuFifoAdd]

/-- C14 at concrete values: an INVITE `"b1"` from the wire on an empty
stack. -/
theorem process_inbound_request_creates_server_transaction_witness :
    process specEnv
        { emptyStack with
          mStateMacFifo := [Message.sip (sampleRequest MethodTypes.INVITE "b1" true)] } =
      .ok { emptyStack with
            mTUFifo := [sampleRequest MethodTypes.INVITE "b1" true]
            mTimers := [{ type := TimerType.TimerTrying, transactionId := "b1",
                          duration := 200 }]
            mTransactionMap := [("b1", 0)]
            heap := [some (sampleTransaction Machine.ServerInvite State.Proceeding false
                      (some (specMakeResponse (sampleRequest MethodTypes.INVITE "b1" true) 100)))] } :=
  (process_inbound_request_creates_server_transaction specEnv
    { emptyStack with
      mStateMacFifo := [Message.sip (sampleRequest MethodTypes.INVITE "b1" true)] }
    (sampleRequest MethodTypes.INVITE "b1" true) [] rfl rfl rfl rfl).1 rfl

/-! ### The stacks the dispatcher reaches -/

section Invariant

theorem SipStack.mem_of_lookup (s : SipStack) (p : Ptr) (t : TransactionState)
    (h : s.lookup p = some t) : some t ∈ s.heap := by
  unfold SipStack.lookup at h
  split at h
  · next o heq =>
    injection h with h
    subst h
    exact List.getElem?_mem heq
  · cases h

theorem TransactionMap.keys_remove (tid : Data) (m : List (Data × Ptr))
    (h : (m.map Prod.fst).Nodup) : ((TransactionMap.remove tid m).map Prod.fst).Nodup := by
  unfold TransactionMap.remove
  exact (List.Sublist.map _ (List.filter_sublist m)).nodup h

theorem TransactionMap.keys_add (tid : Data) (p : Ptr) (m : List (Data × Ptr))
    (h : (m.map Prod.fst).Nodup) : ((TransactionMap.add tid p m).map Prod.fst).Nodup := by
  unfold TransactionMap.add
  simp only [List.map_cons, List.nodup_cons]
  refine ⟨?_, TransactionMap.keys_remove tid m h⟩
  simp [TransactionMap.remove]

theorem SipStack.Sound.store {s : SipStack} (h : s.Sound) (p : Ptr) (t : TransactionState)
    (ht : t.Sound) : (s.store p t).Sound := by
  refine ⟨?_, h.2⟩
  intro u hu
  simp only [SipStack.store] at hu
  rcases List.mem_or_eq_of_mem_set hu with hu | hu
  · exact h.1 u hu
  · injection hu with hu; subst hu; exact ht

theorem SipStack.Sound.free {s : SipStack} (h : s.Sound) (p : Ptr) : (s.free p).Sound := by
  refine ⟨?_, h.2⟩
  intro u hu
  simp only [SipStack.free] at hu
  rcases List.mem_or_eq_of_mem_set hu with hu | hu
  · exact h.1 u hu
  · cases hu

theorem SipStack.Sound.mapRemove {s : SipStack} (h : s.Sound) (tid : Data) :
    (s.mapRemove tid).Sound :=
  ⟨h.1, TransactionMap.keys_remove tid _ h.2⟩

theorem SipStack.Sound.mapAdd {s : SipStack} (h : s.Sound) (tid : Data) (p : Ptr) :
    (s.mapAdd tid p).Sound :=
  ⟨h.1, TransactionMap.keys_add tid p _ h.2⟩

theorem SipStack.Sound.timersAdd {s : SipStack} (h : s.Sound) (ty : TimerType) (tid : Data)
    (d : Nat) : (s.timersAdd ty tid d).Sound := h

theorem SipStack.Sound.transportSend {s : SipStack} (h : s.Sound) (m : SipMessage) :
    (s.transportSend m).Sound := h

theorem SipStack.Sound.transportRetransmit {s : SipStack} (h : s.Sound)
    (m : Option SipMessage) : (s.transportRetransmit m).Sound := h

theorem SipStack.Sound.tuFifoAdd {s : SipStack} (h : s.Sound) (m : SipMessage) :
    (s.tuFifoAdd m).Sound := h

theorem SipStack.Sound.new {s : SipStack} (h : s.Sound) :
    (s.new Machine.ServerNonInvite State.Trying).2.Sound := by
  refine ⟨?_, h.2⟩
  intro u hu
  simp only [SipStack.new, List.mem_append, List.mem_singleton] at hu
  rcases hu with hu | hu
  · exact h.1 u hu
  · injection hu with hu
    subst hu
    simp [TransactionState.Sound]

/-- What a deletion leaves: the logs are as they were, and the stack is
sound when it was. -/
theorem destroyAux_sound (fuel : Nat) : ∀ (p : Ptr) (s s1 : SipStack),
    destroyAux fuel p s = .ok s1 → s.Sound →
      s1.Sound ∧ s1.mTimers = s.mTimers ∧ s1.mTransportSelector = s.mTransportSelector ∧
        s1.mTUFifo = s.mTUFifo := by
  induction fuel with
  | zero => intro p s s1 h; simp [destroyAux] at h
  | succ n ih =>
    intro p s s1 h hs
    simp only [destroyAux] at h
    split at h
    · cases h
    · next t hl =>
      split at h
      · cases h
      · next m hm =>
        split at h
        · injection h with h
          subst h
          exact ⟨(hs.mapRemove _).free p, rfl, rfl, rfl⟩
        · next c hc =>
          split at h
          · cases h
          · next s2 h2 =>
            injection h with h
            subst h
            obtain ⟨h3, h4, h5, h6⟩ := ih c _ s2 h2 (hs.mapRemove _)
            exact ⟨h3.free p, h4, h5, h6⟩

theorem delete_sound (p : Ptr) (s s1 : SipStack) (h : TransactionState.delete p s = .ok s1)
    (hs : s.Sound) :
    s1.Sound ∧ s1.mTimers = s.mTimers ∧ s1.mTransportSelector = s.mTransportSelector ∧
      s1.mTUFifo = s.mTUFifo :=
  destroyAux_sound _ p s s1 h hs



@[simp] theorem SipStack.sound_timersAdd (s : SipStack) (ty : TimerType) (tid : Data) (d : Nat) :
    (s.timersAdd ty tid d).Sound ↔ s.Sound := Iff.rfl

@[simp] theorem SipStack.sound_transportSend (s : SipStack) (m : SipMessage) :
    (s.transportSend m).Sound ↔ s.Sound := Iff.rfl

@[simp] theorem SipStack.sound_transportRetransmit (s : SipStack) (m : Option SipMessage) :
    (s.transportRetransmit m).Sound ↔ s.Sound := Iff.rfl

@[simp] theorem SipStack.sound_tuFifoAdd (s : SipStack) (m : SipMessage) :
    (s.tuFifoAdd m).Sound ↔ s.Sound := Iff.rfl

@[simp] theorem SipStack.lookup_timersAdd (s : SipStack) (ty : TimerType) (tid : Data) (d : Nat)
    (p : Ptr) : (s.timersAdd ty tid d).lookup p = s.lookup p := rfl

@[simp] theorem SipStack.lookup_transportSend (s : SipStack) (m : SipMessage) (p : Ptr) :
    (s.transportSend m).lookup p = s.lookup p := rfl

@[simp] theorem SipStack.lookup_transportRetransmit (s : SipStack) (m : Option SipMessage)
    (p : Ptr) : (s.transportRetransmit m).lookup p = s.lookup p := rfl

@[simp] theorem SipStack.lookup_tuFifoAdd (s : SipStack) (m : SipMessage) (p : Ptr) :
    (s.tuFifoAdd m).lookup p = s.lookup p := rfl

@[simp] theorem SipStack.mTimers_timersAdd (s : SipStack) (ty : TimerType) (tid : Data)
    (d : Nat) : (s.timersAdd ty tid d).mTimers =
      s.mTimers ++ [{ type := ty, transactionId := tid, duration := d }] := rfl

@[simp] theorem SipStack.mTimers_transportSend (s : SipStack) (m : SipMessage) :
    (s.transportSend m).mTimers = s.mTimers := rfl

@[simp] theorem SipStack.mTimers_transportRetransmit (s : SipStack) (m : Option SipMessage) :
    (s.transportRetransmit m).mTimers = s.mTimers := rfl

@[simp] theorem SipStack.mTimers_tuFifoAdd (s : SipStack) (m : SipMessage) :
    (s.tuFifoAdd m).mTimers = s.mTimers := rfl

@[simp] theorem SipStack.mTimers_store (s : SipStack) (p : Ptr) (t : TransactionState) :
    (s.store p t).mTimers = s.mTimers := rfl

@[simp] theorem SipStack.wire_timersAdd (s : SipStack) (ty : TimerType) (tid : Data)
    (d : Nat) : (s.timersAdd ty tid d).mTransportSelector = s.mTransportSelector := rfl

@[simp] theorem SipStack.wire_transportSend (s : SipStack) (m : SipMessage) :
    (s.transportSend m).mTransportSelector = s.mTransportSelector ++ [WireOp.send m] := rfl

@[simp] theorem SipStack.wire_transportRetransmit (s : SipStack) (m : Option SipMessage) :
    (s.transportRetransmit m).mTransportSelector =
      s.mTransportSelector ++ [WireOp.retransmit m] := rfl

@[simp] theorem SipStack.wire_tuFifoAdd (s : SipStack) (m : SipMessage) :
    (s.tuFifoAdd m).mTransportSelector = s.mTransportSelector := rfl

@[simp] theorem SipStack.wire_store (s : SipStack) (p : Ptr) (t : TransactionState) :
    (s.store p t).mTransportSelector = s.mTransportSelector := rfl

theorem StepOk.of_delete (this : Ptr) (s s0 s1 : SipStack)
    (h : TransactionState.delete this s0 = .ok s1) (hs : s0.Sound)
    (ht : s0.mTimers = s.mTimers) (hw : s0.mTransportSelector = s.mTransportSelector)
    (tid : Data) : StepOk this tid s s1 := by
  obtain ⟨h1, h2, h3, -⟩ := delete_sound this s0 s1 h hs
  refine ⟨h1, ?_, ?_, ?_, ?_⟩
  · rw [h2, ht]
  · rw [h2, ht]; simp
  · rw [h3, hw]
  · rw [h3, hw]; simp

theorem processClientNonInvite_step (env : Env) (this : Ptr) (msg : Message) (s s1 : SipStack)
    (t : TransactionState) (hs : s.Sound) (hl : s.lookup this = some t)
    (hm : t.mMachine = Machine.ClientNonInvite)
    (h : processClientNonInvite env this msg s = .ok s1) : StepOk this msg.getTransactionId s s1 := by
  have ht := hs.1 t (s.mem_of_lookup this t hl)
  obtain ⟨hrel, hsi, hmsg, hchild⟩ := ht
  have hsome : t.mMsgToRetransmit ≠ none := by
    intro hnone
    have := (hmsg hnone).1
    rw [hm] at this
    cases this
  have hchild2 : t.mCancelStateMachine = none := hchild (Or.inr hm)
  cases msg <;>
    simp only [processClientNonInvite, hl, isRequest, isInvite, isFromTU, isSentReliable,
      isSentUnreliable, isResponseDefault, isResponse, isTimer, isTranportError, sendToWire,
      sendToTU, Message.getTransactionId, hrel, Bool.false_eq_true, if_false] at h <;>
    (repeat' split at h) <;>
    (try cases h) <;>
    first
    | exact StepOk.of_delete this s _ s1 h (by simpa using hs) rfl rfl _
    | (refine ⟨?_, ?_, ?_, ?_, ?_⟩
       · first
         | exact hs
         | (try simp only [SipStack.sound_timersAdd, SipStack.sound_transportSend,
              SipStack.sound_transportRetransmit, SipStack.sound_tuFifoAdd]
            first
            | exact hs
            | exact hs.store _ _ (by simp [TransactionState.Sound, hm, hchild2, hsome]))
       · simp
       · simp [TimerType.isRetransmission, s.lookup_store_self this t _ hl, hl, hsome,
           Message.getTransactionId]
       · simp
       · simp [hsome, Ne.symm hsome])


theorem processClientInvite_step (env : Env) (this : Ptr) (msg : Message) (s s1 : SipStack)
    (t : TransactionState) (hs : s.Sound) (hl : s.lookup this = some t)
    (hm : t.mMachine = Machine.ClientInvite)
    (h : processClientInvite env this msg s = .ok s1) : StepOk this msg.getTransactionId s s1 := by
  have ht := hs.1 t (s.mem_of_lookup this t hl)
  obtain ⟨hrel, hsi, hmsg, hchild⟩ := ht
  have hsome : t.mMsgToRetransmit ≠ none := by
    intro hnone
    have := (hmsg hnone).1
    rw [hm] at this
    cases this
  have hchild2 : t.mCancelStateMachine = none := hchild (Or.inl hm)
  cases msg <;>
    simp only [processClientInvite, hl, isRequest, isInvite, isFromTU, isSentReliable,
      isSentUnreliable, isResponseDefault, isResponse, isTimer, isTranportError, sendToWire,
      sendToTU, Message.getTransactionId, hrel, Bool.false_eq_true, if_false, hchild2,
      isSentIndication] at h <;>
    (repeat' split at h) <;>
    (try cases h) <;>
    first
    | exact StepOk.of_delete this s _ s1 h (by simpa using hs) rfl rfl _
    | (refine ⟨?_, ?_, ?_, ?_, ?_⟩
       · first
         | exact hs
         | (try simp only [SipStack.sound_timersAdd, SipStack.sound_transportSend,
              SipStack.sound_transportRetransmit, SipStack.sound_tuFifoAdd]
            first
            | exact hs
            | exact hs.store _ _ (by simp [TransactionState.Sound, hm, hchild2, hsome]))
       · simp
       · simp [TimerType.isRetransmission, s.lookup_store_self this t _ hl, hl, hsome,
           Message.getTransactionId]
       · simp
       · simp [hsome, Ne.symm hsome])
    | (exfalso; simp_all)


theorem StepQuiet.stepOk {s s1 : SipStack} (h : StepQuiet s s1) (this : Ptr) (tid : Data) :
    StepOk this tid s s1 := by
  obtain ⟨h1, h2, h3, h4, h5⟩ := h
  refine ⟨h1, h2, ?_, h4, h5⟩
  intro e he hr
  rw [h3 e he] at hr
  cases hr

theorem StepQuiet.quiet_of_delete (this : Ptr) (s s0 s1 : SipStack)
    (h : TransactionState.delete this s0 = .ok s1) (hs : s0.Sound)
    (ht : s0.mTimers = s.mTimers) (hw : s0.mTransportSelector = s.mTransportSelector) :
    StepQuiet s s1 := by
  obtain ⟨h1, h2, h3, -⟩ := delete_sound this s0 s1 h hs
  refine ⟨h1, ?_, ?_, ?_, ?_⟩
  · rw [h2, ht]
  · rw [h2, ht]; simp
  · rw [h3, hw]
  · rw [h3, hw]; simp

theorem processServerNonInvite_step (env : Env) (this : Ptr) (msg : Message) (s s1 : SipStack)
    (t : TransactionState) (hs : s.Sound) (hl : s.lookup this = some t)
    (hm : t.mMachine = Machine.ServerNonInvite)
    (h : processServerNonInvite env this msg s = .ok s1) : StepQuiet s s1 := by
  have ht := hs.1 t (s.mem_of_lookup this t hl)
  obtain ⟨hrel, hsi, hmsg, hchild⟩ := ht
  cases msg <;>
    simp only [processServerNonInvite, hl, isRequest, isInvite, isFromTU, isSentReliable,
      isSentUnreliable, isResponseDefault, isResponse, isTimer, isTranportError, sendToWire,
      sendToTU, Message.getTransactionId, hrel, Bool.false_eq_true, if_false,
      isSentIndication] at h <;>
    (repeat' split at h) <;>
    (try cases h) <;>
    first
    | exact StepQuiet.quiet_of_delete this s _ s1 h (by simpa using hs) rfl rfl
    | (refine ⟨?_, ?_, ?_, ?_, ?_⟩
       · first
         | exact hs
         | (try simp only [SipStack.sound_timersAdd, SipStack.sound_transportSend,
              SipStack.sound_transportRetransmit, SipStack.sound_tuFifoAdd]
            first
            | exact hs
            | exact hs.store _ _ (by simp [TransactionState.Sound, hm]))
       · simp
       · simp [TimerType.isRetransmission]
       · simp
       · first
         | (simp; done)
         | (simp only [SipStack.wire_transportRetransmit, List.drop_left, List.mem_singleton]
            intro hn
            injection hn with hn
            have := hmsg hn.symm
            simp_all))

/-- The CANCEL blocks of `processServerInvite`: the child is created and
recorded, and runs as a Server Non-INVITE transaction. -/
theorem serverInviteCancel_step (env : Env) (this : Ptr) (msg : Message) (s s1 : SipStack)
    (t : TransactionState) (hs : s.Sound) (hl : s.lookup this = some t)
    (hm : t.mMachine = Machine.ServerInvite)
    (h : serverInviteCancel env this t msg s = .ok s1) : StepQuiet s s1 := by
  have ht := hs.1 t (s.mem_of_lookup this t hl)
  obtain ⟨hrel, hsi, hmsg, hchild⟩ := ht
  have hs2 : (((s.new Machine.ServerNonInvite State.Trying).2.store this
      { t with mCancelStateMachine :=
          (some (s.new Machine.ServerNonInvite State.Trying).1) }).mapAdd
      msg.getTransactionId (s.new Machine.ServerNonInvite State.Trying).1).Sound := by
    refine ((SipStack.Sound.new hs).store this _ ?_).mapAdd _ _
    refine ⟨hrel, hsi, hmsg, ?_⟩
    intro hc
    rw [hm] at hc
    rcases hc with hc | hc <;> cases hc
  have hchildlookup : (((s.new Machine.ServerNonInvite State.Trying).2.store this
      { t with mCancelStateMachine :=
          (some (s.new Machine.ServerNonInvite State.Trying).1) }).mapAdd
      msg.getTransactionId (s.new Machine.ServerNonInvite State.Trying).1).lookup
        (s.new Machine.ServerNonInvite State.Trying).1 =
      some { mMachine := Machine.ServerNonInvite, mState := State.Trying,
             mIsReliable := false, mCancelStateMachine := none,
             mMsgToRetransmit := none } := by
    have hlt := s.lookup_lt this t hl
    have hne : this ≠ s.heap.length := Nat.ne_of_lt hlt
    simp [SipStack.new, SipStack.store, SipStack.mapAdd, SipStack.lookup, List.getElem?_set,
      hne]
  simp only [serverInviteCancel, hchildlookup] at h
  split at h
  · cases h
  · next s3 h3 =>
    obtain ⟨q1, q2, q3, q4, q5⟩ :=
      processServerNonInvite_step env _ msg _ s3 _ hs2 hchildlookup rfl h3
    split at h
    · cases h
    · cases msg with
      | sip m =>
        simp only [sendToTU] at h
        injection h with h
        subst h
        exact ⟨q1, q2, q3, q4, q5⟩
      | timer tm => simp [sendToTU] at h
      | sending sm => simp [sendToTU] at h
      | other tid => simp [sendToTU] at h


theorem processServerInvite_step (env : Env) (this : Ptr) (msg : Message) (s s1 : SipStack)
    (t : TransactionState) (hs : s.Sound) (hl : s.lookup this = some t)
    (hm : t.mMachine = Machine.ServerInvite)
    (h : processServerInvite env this msg s = .ok s1) : StepOk this msg.getTransactionId s s1 := by
  have ht := hs.1 t (s.mem_of_lookup this t hl)
  obtain ⟨hrel, hsi, hmsg, hchild⟩ := ht
  have hsome : t.mMsgToRetransmit ≠ none := by
    intro hnone
    have := (hmsg hnone).1
    rw [hm] at this
    cases this
  have hproc : t.mState = State.Proceeding := hsi hm
  cases msg <;>
    simp only [processServerInvite, hl, isRequest, isInvite, isFromTU, isSentReliable,
      isSentUnreliable, isResponseDefault, isResponse, isTimer, isTranportError, sendToWire,
      sendToTU, Message.getTransactionId, hrel, Bool.false_eq_true, if_false,
      isSentIndication] at h <;>
    (repeat' split at h) <;>
    (try cases h) <;>
    first
    | (exfalso; rename_i hc; rw [hproc] at hc; cases hc; done)
    | exact StepOk.of_delete this s _ s1 h (by simpa using hs) rfl rfl _
    | exact (serverInviteCancel_step env this _ s s1 t hs hl hm h).stepOk this _
    | (refine ⟨?_, ?_, ?_, ?_, ?_⟩
       · first
         | exact hs
         | (try simp only [SipStack.sound_timersAdd, SipStack.sound_transportSend,
              SipStack.sound_transportRetransmit, SipStack.sound_tuFifoAdd]
            first
            | exact hs
            | exact hs.store _ _ (by simp [TransactionState.Sound, hm, hsome, hproc, hrel]))
       · simp
       · simp [TimerType.isRetransmission, s.lookup_store_self this t _ hl, hl, hsome,
           Message.getTransactionId]
       · simp
       · simp [hsome, Ne.symm hsome])


/-- The dispatcher's step on `msg` in terms of the stack it is run on: the
message leaves the FIFO it was put in, and the rest of `process` follows. -/
theorem deliver_unfold (env : Env) (msg : Message) (s : SipStack) :
    deliver env msg s =
      (let s1 :=
        match msg with
        | .sip sip =>
          if !sip.isExternal && sip.isRequest && decide (sip.requestMethod = MethodTypes.ACK) then
            s.transportSend sip
          else s
        | _ => s
      let tid := msg.getTransactionId
      match TransactionMap.find tid s1.mTransactionMap with
      | some state =>
        match s1.lookup state with
        | none => .error Fault.danglingPointer
        | some t =>
          match t.mMachine with
          | Machine.ClientNonInvite => processClientNonInvite env state msg s1
          | Machine.ClientInvite => processClientInvite env state msg s1
          | Machine.ServerNonInvite => processServerNonInvite env state msg s1
          | Machine.ServerInvite => processServerInvite env state msg s1
          | Machine.Stale => processStale state msg s1
      | none =>
        match msg with
        | .sip sip =>
          if sip.isRequest then
            if sip.isExternal then
              let s2 :=
                if sip.requestMethod = MethodTypes.INVITE then
                  let new := s1.new Machine.ServerInvite State.Proceeding
                  let s3 := new.2.store new.1
                              { mMachine := Machine.ServerInvite, mState := State.Proceeding,
                                mIsReliable := false, mCancelStateMachine := none,
                                mMsgToRetransmit := some (make100 env sip) }
                  (s3.timersAdd TimerType.TimerTrying tid env.T100).mapAdd tid new.1
                else
                  let new := s1.new Machine.ServerNonInvite State.Trying
                  new.2.mapAdd tid new.1
              .ok (s2.tuFifoAdd sip)
            else
              if sip.requestMethod = MethodTypes.INVITE then
                let new := s1.new Machine.ClientInvite State.Calling
                processClientInvite env new.1 msg (new.2.mapAdd tid new.1)
              else
                let new := s1.new Machine.ClientNonInvite State.Trying
                processClientNonInvite env new.1 msg (new.2.mapAdd tid new.1)
          else if sip.isResponse then
            if s.mDiscardStrayResponses then
              .ok s1
            else
              .error Fault.assertFailed
          else
            .ok s1
        | _ => .ok s1) := by
  cases s
  rfl

theorem SipStack.sound_store_last (s s0 : SipStack) (x : Option TransactionState)
    (t : TransactionState) (hs : s.Sound) (hh : s0.heap = s.heap ++ [x])
    (hmap : (s0.mTransactionMap.map Prod.fst).Nodup) (ht : t.Sound) :
    (s0.store s.heap.length t).Sound := by
  refine ⟨?_, hmap⟩
  intro u hu
  have hset : (s.heap ++ [x]).set s.heap.length (some t) = s.heap ++ [some t] := by
    apply List.ext_getElem?
    intro i
    by_cases hi : i = s.heap.length
    · subst hi
      simp
    · rcases Nat.lt_or_gt_of_ne hi with hi2 | hi2
      · simp [List.getElem?_set, Ne.symm hi, List.getElem?_append_left hi2]
      · have h1 : (s.heap ++ [x]).length ≤ i := by simp; omega
        have h2 : (s.heap ++ [some t]).length ≤ i := by simp; omega
        simp [List.getElem?_set, Ne.symm hi, List.getElem?_eq_none h1,
          List.getElem?_eq_none h2]
  simp only [SipStack.store, hh, hset] at hu
  rcases List.mem_append.1 hu with hu3 | hu3
  · exact hs.1 u hu3
  · simp only [List.mem_singleton] at hu3
    injection hu3 with hu3
    subst hu3
    exact ht

/-- The dispatch of `msg` to the transaction the table gave. -/
theorem dispatch_found_step (env : Env) (state : Ptr) (msg : Message) (s s1 : SipStack)
    (hs : s.Sound)
    (h : (match s.lookup state with
          | none => Except.error Fault.danglingPointer
          | some t =>
            match t.mMachine with
            | Machine.ClientNonInvite => processClientNonInvite env state msg s
            | Machine.ClientInvite => processClientInvite env state msg s
            | Machine.ServerNonInvite => processServerNonInvite env state msg s
            | Machine.ServerInvite => processServerInvite env state msg s
            | Machine.Stale => processStale state msg s) = .ok s1) :
    StepOk state msg.getTransactionId s s1 := by
  rcases hl : s.lookup state with _ | t
  · rw [hl] at h
    cases h
  · rw [hl] at h
    rcases hm : t.mMachine with _ | _ | _ | _ | _ <;> simp only [hm] at h
    · exact processClientNonInvite_step env state msg s s1 t hs hl hm h
    · exact processClientInvite_step env state msg s s1 t hs hl hm h
    · exact (processServerNonInvite_step env state msg s s1 t hs hl hm h).stepOk _ _
    · exact processServerInvite_step env state msg s s1 t hs hl hm h
    · simp only [processStale] at h
      injection h with h
      subst h
      exact ⟨hs, List.prefix_refl _, by simp, List.prefix_refl _, by simp⟩

theorem StepOk.deliverOk {this : Ptr} {tid : Data} {s0 s1 : SipStack} (h : StepOk this tid s0 s1)
    (s : SipStack) (hfind : TransactionMap.find tid s.mTransactionMap = some this)
    (ht : s0.mTimers = s.mTimers)
    (hw : WireOp.retransmit none ∉ s.mTransportSelector →
      WireOp.retransmit none ∉ s0.mTransportSelector) : DeliverOk s s1 := by
  obtain ⟨h1, h2, h3, h4, h5⟩ := h
  refine ⟨h1, ht ▸ h2, ?_, ?_⟩
  · intro e he hr
    rw [← ht] at he
    obtain ⟨q1, t1, q2, q3⟩ := h3 e he hr
    exact ⟨this, t1, by rw [q1]; exact hfind, q2, q3⟩
  · intro hn hmem
    rw [← List.prefix_iff_eq_append.1 h4] at hmem
    rcases List.mem_append.1 hmem with hmem | hmem
    · exact hw hn hmem
    · exact h5 hmem

@[simp] theorem SipStack.map_transportSend (s : SipStack) (m : SipMessage) :
    (s.transportSend m).mTransactionMap = s.mTransactionMap := rfl

@[simp] theorem SipStack.map_timersAdd (s : SipStack) (ty : TimerType) (tid : Data) (d : Nat) :
    (s.timersAdd ty tid d).mTransactionMap = s.mTransactionMap := rfl

@[simp] theorem SipStack.map_tuFifoAdd (s : SipStack) (m : SipMessage) :
    (s.tuFifoAdd m).mTransactionMap = s.mTransactionMap := rfl

@[simp] theorem SipStack.map_store (s : SipStack) (p : Ptr) (t : TransactionState) :
    (s.store p t).mTransactionMap = s.mTransactionMap := rfl

@[simp] theorem SipStack.heap_transportSend (s : SipStack) (m : SipMessage) :
    (s.transportSend m).heap = s.heap := rfl

@[simp] theorem SipStack.lookup_mapAdd (s : SipStack) (tid : Data) (p q : Ptr) :
    (s.mapAdd tid p).lookup q = s.lookup q := rfl

/-- The part of `process` that follows the forwarding of an `ACK` from the TU,
run on the stack `s0` that step left. -/
theorem dispatch_step (env : Env) (msg : Message) (discard : Bool) (s s0 s1 : SipStack)
    (hs0 : s0.Sound) (hmap : s0.mTransactionMap = s.mTransactionMap)
    (ht : s0.mTimers = s.mTimers)
    (hw : WireOp.retransmit none ∉ s.mTransportSelector →
      WireOp.retransmit none ∉ s0.mTransportSelector)
    (h : (match TransactionMap.find msg.getTransactionId s0.mTransactionMap with
      | some state =>
        match s0.lookup state with
        | none => Except.error Fault.danglingPointer
        | some t =>
          match t.mMachine with
          | Machine.ClientNonInvite => processClientNonInvite env state msg s0
          | Machine.ClientInvite => processClientInvite env state msg s0
          | Machine.ServerNonInvite => processServerNonInvite env state msg s0
          | Machine.ServerInvite => processServerInvite env state msg s0
          | Machine.Stale => processStale state msg s0
      | none =>
        match msg with
        | .sip sip =>
          if sip.isRequest then
            if sip.isExternal then
              let s2 :=
                if sip.requestMethod = MethodTypes.INVITE then
                  let new := s0.new Machine.ServerInvite State.Proceeding
                  let s3 := new.2.store new.1
                              { mMachine := Machine.ServerInvite, mState := State.Proceeding,
                                mIsReliable := false, mCancelStateMachine := none,
                                mMsgToRetransmit := some (make100 env sip) }
                  (s3.timersAdd TimerType.TimerTrying msg.getTransactionId env.T100).mapAdd
                    msg.getTransactionId new.1
                else
                  let new := s0.new Machine.ServerNonInvite State.Trying
                  new.2.mapAdd msg.getTransactionId new.1
              .ok (s2.tuFifoAdd sip)
            else
              if sip.requestMethod = MethodTypes.INVITE then
                let new := s0.new Machine.ClientInvite State.Calling
                processClientInvite env new.1 msg (new.2.mapAdd msg.getTransactionId new.1)
              else
                let new := s0.new Machine.ClientNonInvite State.Trying
                processClientNonInvite env new.1 msg (new.2.mapAdd msg.getTransactionId new.1)
          else if sip.isResponse then
            if discard then
              .ok s0
            else
              .error Fault.assertFailed
          else
            .ok s0
        | _ => .ok s0) = .ok s1) : DeliverOk s s1 := by
  have hquiet : DeliverOk s s0 := by
    refine ⟨hs0, by rw [ht], ?_, hw⟩
    rw [ht]
    simp
  have hwire : ∀ (s2 : SipStack) (m : SipMessage),
      s2.mTransportSelector = s0.mTransportSelector ++ [WireOp.send m] →
      WireOp.retransmit none ∉ s.mTransportSelector →
      WireOp.retransmit none ∉ s2.mTransportSelector := by
    intro s2 m h2 hn
    rw [h2]
    simp [hw hn]
  rcases hf : TransactionMap.find msg.getTransactionId s0.mTransactionMap with _ | state
  · rw [hf] at h
    cases msg with
    | sip sip =>
      simp only [Message.getTransactionId] at h
      by_cases hreq : sip.isRequest = true
      · by_cases hext : sip.isExternal = true
        · by_cases hinv : sip.requestMethod = MethodTypes.INVITE
          · simp only [hreq, hext, hinv, if_true] at h
            injection h with h
            subst h
            refine ⟨?_, ?_, ?_, ?_⟩
            · refine SipStack.Sound.tuFifoAdd (SipStack.Sound.mapAdd
                (SipStack.Sound.timersAdd ?_ _ _ _) _ _) _
              exact SipStack.sound_store_last s0 _ _ _ hs0 rfl hs0.2
                (by simp [TransactionState.Sound])
            · simp [SipStack.mapAdd, SipStack.store, SipStack.new, ht]
            · simp [SipStack.mapAdd, SipStack.store, SipStack.new, ht,
                TimerType.isRetransmission]
            · intro hn
              exact hw hn
          · simp only [hreq, hext, hinv, if_true, if_false] at h
            injection h with h
            subst h
            refine ⟨((SipStack.Sound.new hs0).mapAdd _ _).tuFifoAdd _, ?_, ?_, ?_⟩
            · simp [SipStack.mapAdd, SipStack.new, ht]
            · simp [SipStack.mapAdd, SipStack.new, ht]
            · intro hn
              exact hw hn
        · have hext2 : sip.isExternal = false := by simpa using hext
          by_cases hinv : sip.requestMethod = MethodTypes.INVITE
          · simp only [hreq, hext2, hinv, if_true, if_false, processClientInvite,
              SipStack.lookup_mapAdd, SipStack.lookup_new_self, isInvite, isFromTU, sendToWire,
              Bool.not_eq_true, decide_True, Bool.and_self, Bool.not_false, Bool.true_and,
              Bool.and_true, Bool.false_eq_true, Message.getTransactionId] at h
            injection h with h
            subst h
            refine ⟨?_, ?_, ?_, ?_⟩
            · refine SipStack.Sound.transportSend (SipStack.Sound.timersAdd ?_ _ _ _) _
              exact SipStack.sound_store_last s0 _ _ _ hs0 rfl
                (TransactionMap.keys_add _ _ _ hs0.2) (by simp [TransactionState.Sound])
            · simp [SipStack.mapAdd, SipStack.store, SipStack.new, ht]
            · simp [SipStack.mapAdd, SipStack.store, SipStack.new, ht,
                TimerType.isRetransmission]
            · exact hwire _ sip rfl
          · simp only [hreq, hext2, hinv, if_true, if_false, processClientNonInvite,
              SipStack.lookup_mapAdd, SipStack.lookup_new_self, isInvite, isFromTU, isRequest,
              sendToWire, Bool.not_eq_true, decide_False, Bool.and_self, Bool.not_false,
              Bool.true_and, Bool.and_true, Bool.and_false, Bool.false_eq_true,
              Message.getTransactionId] at h
            injection h with h
            subst h
            refine ⟨?_, ?_, ?_, ?_⟩
            · refine SipStack.Sound.transportSend (SipStack.Sound.timersAdd ?_ _ _ _) _
              exact SipStack.sound_store_last s0 _ _ _ hs0 rfl
                (TransactionMap.keys_add _ _ _ hs0.2) (by simp [TransactionState.Sound])
            · simp [SipStack.mapAdd, SipStack.store, SipStack.new, ht]
            · simp [SipStack.mapAdd, SipStack.store, SipStack.new, ht,
                TimerType.isRetransmission]
            · exact hwire _ sip rfl
      · have hreq2 : sip.isRequest = false := by simpa using hreq
        simp only [hreq2, Bool.false_eq_true, if_false] at h
        split at h
        · split at h
          · injection h with h
            subst h
            exact hquiet
          · cases h
        · injection h with h
          subst h
          exact hquiet
    | timer tm =>
      injection h with h
      subst h
      exact hquiet
    | sending sm =>
      injection h with h
      subst h
      exact hquiet
    | other tid =>
      injection h with h
      subst h
      exact hquiet
  · rw [hf] at h
    have hstep := dispatch_found_step env state msg s0 s1 hs0 h
    exact hstep.deliverOk s (hmap ▸ hf) ht hw

/-- One step of the dispatcher keeps the stack sound. -/
theorem deliver_step (env : Env) (msg : Message) (s s1 : SipStack) (hs : s.Sound)
    (h : deliver env msg s = .ok s1) : DeliverOk s s1 := by
  rw [deliver_unfold] at h
  cases msg with
  | sip sip =>
    by_cases hc : (!sip.isExternal && sip.isRequest &&
        decide (sip.requestMethod = MethodTypes.ACK)) = true
    · simp only [hc, if_true] at h
      exact dispatch_step env (Message.sip sip) s.mDiscardStrayResponses s (s.transportSend sip)
        s1 (hs.transportSend sip) rfl rfl (by intro hn; simp [hn]) h
    · simp only [hc, if_false] at h
      exact dispatch_step env (Message.sip sip) s.mDiscardStrayResponses s s s1 hs rfl rfl
        (fun hn => hn) h
  | timer tm =>
    exact dispatch_step env (Message.timer tm) s.mDiscardStrayResponses s s s1 hs rfl rfl
      (fun hn => hn) h
  | sending sm =>
    exact dispatch_step env (Message.sending sm) s.mDiscardStrayResponses s s s1 hs rfl rfl
      (fun hn => hn) h
  | other tid =>
    exact dispatch_step env (Message.other tid) s.mDiscardStrayResponses s s s1 hs rfl rfl
      (fun hn => hn) h

/-- Every stack the dispatcher reaches is sound, and no null pointer has been
handed to `retransmit`. -/
theorem Reachable.sound {env : Env} {s : SipStack} (h : Reachable env s) :
    s.Sound ∧ WireOp.retransmit none ∉ s.mTransportSelector := by
  induction h with
  | start discard =>
    refine ⟨⟨?_, ?_⟩, ?_⟩
    · intro t ht
      simp [emptyStack] at ht
    · simp [emptyStack]
    · simp [emptyStack]
  | step msg s s1 _ hd ih =>
    obtain ⟨h1, -, -, h4⟩ := deliver_step env msg s s1 ih.1 hd
    exact ⟨h1, h4 ih.2⟩

/-- The stacks `deliverAll` yields from a reachable stack are reachable. -/
theorem Reachable.deliverAll {env : Env} (msgs : List Message) :
    ∀ {s s1 : SipStack}, Reachable env s → TransactionState.deliverAll env msgs s = .ok s1 →
      Reachable env s1 := by
  induction msgs with
  | nil =>
    intro s s1 hr h
    simp only [TransactionState.deliverAll] at h
    injection h with h
    subst h
    exact hr
  | cons m ms ih =>
    intro s s1 hr h
    simp only [TransactionState.deliverAll] at h
    split at h
    · cases h
    · next s2 h2 => exact ih (Reachable.step m s s2 hr h2) h

end Invariant

section ReachableClaims

theorem sampleInviteReceived_reachable : Reachable specEnv sampleInviteReceived :=
  Reachable.step (Message.sip (sampleRequest MethodTypes.INVITE "b1" true)) emptyStack _
    (Reachable.start true) rfl

theorem sampleRegistering_reachable : Reachable specEnv sampleRegistering :=
  Reachable.step (Message.sip (sampleRequest MethodTypes.REGISTER "b1" false)) emptyStack _
    (Reachable.start true) rfl

theorem sampleRegistered_reachable : Reachable specEnv sampleRegistered :=
  Reachable.step (Message.sip (sampleResponse 200 MethodTypes.REGISTER "b1" true))
    sampleRegistering _ sampleRegistering_reachable rfl

/-- C32 (failing input). A CANCEL request from the TU fails the test
`isInvite(msg) && isFromTU(msg)` that guards the `case CANCEL:` block of
`processClientInvite`, because `isInvite` holds of INVITE requests only. The
message falls through every later test and the handler returns with the stack as
it was: no child transaction is created, nothing is recorded in the table, no
timer is scheduled and nothing is sent. The dispatcher step on the message
leaves the stack unchanged as well. -/
theorem processClientInvite_cancel_from_tu (env : Env) (s : SipStack) (this : Ptr)
    (t : TransactionState) (cancel : SipMessage)
    (hfind : TransactionMap.find cancel.transactionId s.mTransactionMap = some this)
    (hl : s.lookup this = some t) (hmach : t.mMachine = Machine.ClientInvite)
    (hmeth : cancel.requestMethod = MethodTypes.CANCEL) (htu : cancel.isExternal = false) :
    isInvite (Message.sip cancel) = false ∧
      processClientInvite env this (Message.sip cancel) s = .ok s ∧
      deliver env (Message.sip cancel) s = .ok s := by
  have h1 : isInvite (Message.sip cancel) = false := by
    simp [isInvite, hmeth]
  have h2 : processClientInvite env this (Message.sip cancel) s = .ok s := by
    simp [processClientInvite, hl, h1, isSentIndication, isResponseDefault, isFromTU, htu,
      isTimer, isTranportError]
  refine ⟨h1, h2, ?_⟩
  rw [deliver_unfold]
  simp [hmeth, Message.getTransactionId, hfind, hl, hmach, h2]

/-- The scenario of C32 at concrete values: the INVITE `"b1"` is in Calling and
the TU cancels it. -/
theorem processClientInvite_cancel_from_tu_witness :
    isInvite (Message.sip (sampleRequest MethodTypes.CANCEL "b1" false)) = false ∧
      processClientInvite specEnv 0 (Message.sip (sampleRequest MethodTypes.CANCEL "b1" false))
          (singleStack "b1" (sampleTransaction Machine.ClientInvite State.Calling false
            (some (sampleRequest MethodTypes.INVITE "b1" false)))) =
        .ok (singleStack "b1" (sampleTransaction Machine.ClientInvite State.Calling false
            (some (sampleRequest MethodTypes.INVITE "b1" false)))) ∧
      deliver specEnv (Message.sip (sampleRequest MethodTypes.CANCEL "b1" false))
          (singleStack "b1" (sampleTransaction Machine.ClientInvite State.Calling false
            (some (sampleRequest MethodTypes.INVITE "b1" false)))) =
        .ok (singleStack "b1" (sampleTransaction Machine.ClientInvite State.Calling false
            (some (sampleRequest MethodTypes.INVITE "b1" false)))) :=
  processClientInvite_cancel_from_tu specEnv
    (singleStack "b1" (sampleTransaction Machine.ClientInvite State.Calling false
      (some (sampleRequest MethodTypes.INVITE "b1" false)))) 0
    (sampleTransaction Machine.ClientInvite State.Calling false
      (some (sampleRequest MethodTypes.INVITE "b1" false)))
    (sampleRequest MethodTypes.CANCEL "b1" false) rfl rfl rfl rfl rfl

/-- C34. Every step of the dispatcher from a reachable stack appends to the
timer log, and each retransmission timer (A, E1, E2 or G) it schedules carries
the id of a transaction of the table that holds a message to retransmit once
the step is done; after the step no call of `retransmit` has been handed a null
pointer, so every retransmission an expiry triggers sends a stored message. -/
theorem retransmission_timer_has_stored_message (env : Env) (s s1 : SipStack) (msg : Message)
    (hr : Reachable env s) (h : deliver env msg s = .ok s1) :
    s.mTimers <+: s1.mTimers ∧
    (∀ e ∈ s1.mTimers.drop s.mTimers.length, e.type.isRetransmission = true →
      ∃ p t1, TransactionMap.find e.transactionId s.mTransactionMap = some p ∧
        s1.lookup p = some t1 ∧ t1.mMsgToRetransmit ≠ none) ∧
    WireOp.retransmit none ∉ s1.mTransportSelector := by
  obtain ⟨hs, hw⟩ := hr.sound
  obtain ⟨-, h2, h3, h4⟩ := deliver_step env msg s s1 hs h
  exact ⟨h2, h3, h4 hw⟩

/-- The scenario of C34 at concrete values: the REGISTER `"b1"` has been sent,
and the transport confirms an unreliable send, which schedules Timer E1. -/
theorem retransmission_timer_has_stored_message_witness :
    deliver specEnv (Message.sending { isReliable := false, transactionId := "b1" })
        sampleRegistering = .ok (sampleRegistering.timersAdd TimerType.TimerE1 "b1" 500) ∧
    sampleRegistering.mTimers <+: (sampleRegistering.timersAdd TimerType.TimerE1 "b1" 500).mTimers ∧
    (∀ e ∈ (sampleRegistering.timersAdd TimerType.TimerE1 "b1" 500).mTimers.drop
        sampleRegistering.mTimers.length, e.type.isRetransmission = true →
      ∃ p t1, TransactionMap.find e.transactionId sampleRegistering.mTransactionMap = some p ∧
        (sampleRegistering.timersAdd TimerType.TimerE1 "b1" 500).lookup p = some t1 ∧
        t1.mMsgToRetransmit ≠ none) ∧
    WireOp.retransmit none ∉
      (sampleRegistering.timersAdd TimerType.TimerE1 "b1" 500).mTransportSelector :=
  ⟨rfl, retransmission_timer_has_stored_message specEnv sampleRegistering _
    (Message.sending { isReliable := false, transactionId := "b1" })
    sampleRegistering_reachable rfl⟩

/-- C35 (the code at the failing input). In every reachable stack the table
holds at most one entry per transaction id. A CANCEL request from the wire whose
id is that of a Server INVITE transaction is dispatched to that transaction; its
handler creates the child, adds it under the message's id and hands it the
message; the child, in Trying, ignores the request and runs `delete msg`, and the
`sendToTU(msg)` that follows in `processServerInvite` uses the deleted message.
The handler and the dispatcher step leave defined behaviour there: the step does
not end in a stack in which the CANCEL child is an entry of the table. -/
theorem cancel_from_wire_uses_deleted_message (env : Env) (s : SipStack) (this : Ptr)
    (t : TransactionState) (cancel : SipMessage) (hr : Reachable env s)
    (hfind : TransactionMap.find cancel.transactionId s.mTransactionMap = some this)
    (hl : s.lookup this = some t) (hmach : t.mMachine = Machine.ServerInvite)
    (hreq : cancel.isRequest = true) (hext : cancel.isExternal = true)
    (hmeth : cancel.requestMethod = MethodTypes.CANCEL) :
    (s.mTransactionMap.map Prod.fst).Nodup ∧
    (∀ tid p q, (tid, p) ∈ s.mTransactionMap → (tid, q) ∈ s.mTransactionMap → p = q) ∧
    processServerNonInviteDeletesMsg env
        { mMachine := Machine.ServerNonInvite, mState := State.Trying, mIsReliable := false,
          mCancelStateMachine := none, mMsgToRetransmit := none }
        (Message.sip cancel) = true ∧
    processServerInvite env this (Message.sip cancel) s = .error Fault.useAfterDelete ∧
    deliver env (Message.sip cancel) s = .error Fault.useAfterDelete := by
  have hs := hr.sound.1
  have hlt := s.lookup_lt this t hl
  have hne : this ≠ s.heap.length := Nat.ne_of_lt hlt
  have hchildlookup : ∀ t2 : TransactionState,
      (((s.new Machine.ServerNonInvite State.Trying).2.store this t2).mapAdd
        cancel.transactionId (s.new Machine.ServerNonInvite State.Trying).1).lookup
          (s.new Machine.ServerNonInvite State.Trying).1 =
        some { mMachine := Machine.ServerNonInvite, mState := State.Trying,
               mIsReliable := false, mCancelStateMachine := none,
               mMsgToRetransmit := none } := by
    intro t2
    simp [SipStack.new, SipStack.store, SipStack.mapAdd, SipStack.lookup, List.getElem?_set,
      hne]
  have hdel : processServerNonInviteDeletesMsg env
      { mMachine := Machine.ServerNonInvite, mState := State.Trying, mIsReliable := false,
        mCancelStateMachine := none, mMsgToRetransmit := none }
      (Message.sip cancel) = true := by
    simp [processServerNonInviteDeletesMsg, isRequest, isInvite, isFromTU, hreq, hext, hmeth]
  have hhandler : processServerInvite env this (Message.sip cancel) s =
      .error Fault.useAfterDelete := by
    simp only [hmeth, hext, hreq, Message.getTransactionId, hl,
      processServerInvite, isRequest, isFromTU, serverInviteCancel, processServerNonInvite,
      hchildlookup, hdel, isInvite, Bool.not_true, Bool.false_and, Bool.and_self,
      Bool.false_eq_true, if_false, if_true, Bool.not_false, Bool.and_true, Bool.true_and,
      decide_False, decide_True]
    simp [hdel]
  refine ⟨hs.2, ?_, hdel, hhandler, ?_⟩
  · intro tid p q hp hq
    have := List.inj_on_of_nodup_map hs.2 hp hq rfl
    exact congrArg Prod.snd this
  · rw [deliver_unfold]
    simp only [hmeth, hext, Message.getTransactionId, hfind, hl, hmach, Bool.not_true,
      Bool.false_and, Bool.false_eq_true, if_false]
    exact hhandler

/-- The failing input of C35 evaluated: the INVITE `"b1"` has come from the
wire, and a CANCEL with the same id follows. -/
theorem cancel_from_wire_uses_deleted_message_witness :
    deliver specEnv (Message.sip (sampleRequest MethodTypes.INVITE "b1" true)) emptyStack =
      .ok sampleInviteReceived ∧
    processServerInvite specEnv 0 (Message.sip (sampleRequest MethodTypes.CANCEL "b1" true))
        sampleInviteReceived = .error Fault.useAfterDelete ∧
    deliver specEnv (Message.sip (sampleRequest MethodTypes.CANCEL "b1" true))
        sampleInviteReceived = .error Fault.useAfterDelete :=
  ⟨rfl,
   (cancel_from_wire_uses_deleted_message specEnv sampleInviteReceived 0
     (sampleTransaction Machine.ServerInvite State.Proceeding false
       (some (specMakeResponse (sampleRequest MethodTypes.INVITE "b1" true) 100)))
     (sampleRequest MethodTypes.CANCEL "b1" true) sampleInviteReceived_reachable
     rfl rfl rfl rfl rfl rfl).2.2.2⟩

/-- C38. In a reachable stack a transaction whose machine is Server INVITE is
in Proceeding, the state the dispatcher creates it in, so it is never in Trying.
The test `mState == Trying` that guards the handling of a 100 in `case INVITE:`
therefore fails: a 100 from the TU is ignored by `processServerInvite`, which
returns the stack as it was (nothing stored, nothing sent, state unchanged), and
so does the dispatcher step. This holds for every CSeq method but CANCEL, which
the switch handles outside `case INVITE:`. -/
theorem server_invite_never_trying (env : Env) (s : SipStack) (this : Ptr)
    (t : TransactionState) (hr : Reachable env s) (hl : s.lookup this = some t)
    (hmach : t.mMachine = Machine.ServerInvite) :
    t.mState = State.Proceeding ∧ t.mState ≠ State.Trying ∧
    ∀ rsp : SipMessage, rsp.isExternal = false → rsp.responseCode = 100 →
      rsp.cseqMethod ≠ MethodTypes.CANCEL →
      processServerInvite env this (Message.sip rsp) s = .ok s ∧
      (rsp.isRequest = false →
        TransactionMap.find rsp.transactionId s.mTransactionMap = some this →
        deliver env (Message.sip rsp) s = .ok s) := by
  have hs := hr.sound.1
  obtain ⟨hrel, hsi, hmsg, hchild⟩ := hs.1 t (s.mem_of_lookup this t hl)
  have hproc : t.mState = State.Proceeding := hsi hmach
  have hst : t.mState ≠ State.Trying := by
    rw [hproc]
    decide
  refine ⟨hproc, hst, ?_⟩
  intro rsp htu hcode hcseq
  have hhandler : processServerInvite env this (Message.sip rsp) s = .ok s := by
    simp only [processServerInvite, hl, isRequest, isFromTU, htu, isResponse, hcode, isTimer,
      isTranportError]
    rcases hc : rsp.cseqMethod with _ | _ | _ | _ | _ | _ | _ <;>
      first
      | exact absurd hc hcseq
      | (rcases hb : rsp.isResponse with _ | _ <;> simp [hst])
  refine ⟨hhandler, ?_⟩
  intro hreq hfind
  rw [deliver_unfold]
  simp [hreq, Message.getTransactionId, hfind, hl, hmach, hhandler]

/-- The scenario of C38 at concrete values: the INVITE `"b1"` has come from the
wire, and the TU hands down a 100 for the INVITE. -/
theorem server_invite_never_trying_witness :
    deliver specEnv (Message.sip (sampleRequest MethodTypes.INVITE "b1" true)) emptyStack =
      .ok sampleInviteReceived ∧
    processServerInvite specEnv 0 (Message.sip (sampleResponse 100 MethodTypes.INVITE "b1" false))
        sampleInviteReceived = .ok sampleInviteReceived ∧
    deliver specEnv (Message.sip (sampleResponse 100 MethodTypes.INVITE "b1" false))
        sampleInviteReceived = .ok sampleInviteReceived :=
  ⟨rfl,
   ((server_invite_never_trying specEnv sampleInviteReceived 0
      (sampleTransaction Machine.ServerInvite State.Proceeding false
        (some (specMakeResponse (sampleRequest MethodTypes.INVITE "b1" true) 100)))
      sampleInviteReceived_reachable rfl rfl).2.2
      (sampleResponse 100 MethodTypes.INVITE "b1" false) rfl rfl (by decide)).1,
   ((server_invite_never_trying specEnv sampleInviteReceived 0
      (sampleTransaction Machine.ServerInvite State.Proceeding false
        (some (specMakeResponse (sampleRequest MethodTypes.INVITE "b1" true) 100)))
      sampleInviteReceived_reachable rfl rfl).2.2
      (sampleResponse 100 MethodTypes.INVITE "b1" false) rfl rfl (by decide)).2 rfl rfl⟩

/-- A final response of 300 or more from the TU, dispatched to a Server INVITE
transaction in Proceeding that is not reliable: the response is stored, Timer H
and Timer G are scheduled, the response is sent, and the transaction is left in
Completed with machine `Stale`. -/
theorem deliver_failure_final (env : Env) (s : SipStack) (this : Ptr) (t : TransactionState)
    (rsp : SipMessage)
    (hfind : TransactionMap.find rsp.transactionId s.mTransactionMap = some this)
    (hl : s.lookup this = some t) (hmach : t.mMachine = Machine.ServerInvite)
    (hst : t.mState = State.Proceeding) (hrel : t.mIsReliable = false)
    (hrsp : rsp.isResponse = true) (hreq : rsp.isRequest = false)
    (hTU : rsp.isExternal = false) (hcseq : rsp.cseqMethod = MethodTypes.INVITE)
    (hlo : 300 ≤ rsp.responseCode) (hhi : rsp.responseCode ≤ 699) :
    deliver env (Message.sip rsp) s =
      .ok ((((s.store this { t with mMsgToRetransmit := some rsp, mMachine := Machine.Stale,
                                    mState := State.Completed }).timersAdd
                TimerType.TimerH rsp.transactionId (64 * env.T1)).timersAdd
              TimerType.TimerG rsp.transactionId env.T1).transportSend rsp) := by
  have h1 : 100 ≤ rsp.responseCode := by omega
  have h2 : ¬ rsp.responseCode = 100 := by omega
  have h3 : ¬ rsp.responseCode < 200 := by omega
  have h4 : ¬ rsp.responseCode < 300 := by omega
  rw [deliver_unfold]
  simp [hreq, Message.getTransactionId, hfind, hl, hmach, processServerInvite, hrsp, hTU, hcseq,
    hst, hrel, isRequest, isFromTU, isResponse, sendToWire, h1, h2, h3, h4, hlo, hhi]

/-- After that step every message with the id of the response, other than an
`ACK` from the TU, is dispatched to the empty `processStale`: the dispatcher step
changes nothing. -/
theorem deliver_after_failure_final (env : Env) (s : SipStack) (this : Ptr)
    (t : TransactionState) (rsp : SipMessage) (ev : Message)
    (hfind : TransactionMap.find rsp.transactionId s.mTransactionMap = some this)
    (hl : s.lookup this = some t) (hid : ev.getTransactionId = rsp.transactionId)
    (hack : isAckFromTU ev = false) :
    deliver env ev
        ((((s.store this { t with mMsgToRetransmit := some rsp, mMachine := Machine.Stale,
                                  mState := State.Completed }).timersAdd
              TimerType.TimerH rsp.transactionId (64 * env.T1)).timersAdd
            TimerType.TimerG rsp.transactionId env.T1).transportSend rsp) =
      .ok ((((s.store this { t with mMsgToRetransmit := some rsp, mMachine := Machine.Stale,
                                    mState := State.Completed }).timersAdd
                TimerType.TimerH rsp.transactionId (64 * env.T1)).timersAdd
              TimerType.TimerG rsp.transactionId env.T1).transportSend rsp) := by
  have hstep := deliver_stale_eq env
    ((((s.store this { t with mMsgToRetransmit := some rsp, mMachine := Machine.Stale,
                              mState := State.Completed }).timersAdd
          TimerType.TimerH rsp.transactionId (64 * env.T1)).timersAdd
        TimerType.TimerG rsp.transactionId env.T1).transportSend rsp) ev this
    { t with mMsgToRetransmit := some rsp, mMachine := Machine.Stale, mState := State.Completed }
    (by rw [hid]; exact hfind)
    (by
      simp only [SipStack.lookup_transportSend, SipStack.lookup_timersAdd]
      exact s.lookup_store_self this t _ hl)
    rfl
  rw [hstep]
  cases ev with
  | sip sip => simp [hack]
  | timer tm => rfl
  | sending sm => rfl
  | other tid => rfl

/-- C11 (the code at the failing input). In a reachable stack a transaction
whose machine is Server INVITE is in Proceeding. The final response of 300 or
more from the TU that moves it to Completed, storing the response and scheduling
Timer H and Timer G, also assigns `Stale` to its machine; the expiry of Timer G,
with whatever duration, is then dispatched to the empty `processStale`: nothing
is retransmitted and Timer G is not rescheduled. -/
theorem timer_g_after_failure_reaches_stale (env : Env) (s : SipStack) (this : Ptr)
    (t : TransactionState) (rsp : SipMessage) (hr : Reachable env s)
    (hfind : TransactionMap.find rsp.transactionId s.mTransactionMap = some this)
    (hl : s.lookup this = some t) (hmach : t.mMachine = Machine.ServerInvite)
    (hrsp : rsp.isResponse = true) (hreq : rsp.isRequest = false)
    (hTU : rsp.isExternal = false) (hcseq : rsp.cseqMethod = MethodTypes.INVITE)
    (hlo : 300 ≤ rsp.responseCode) (hhi : rsp.responseCode ≤ 699) :
    t.mState = State.Proceeding ∧
    ∃ s1, deliver env (Message.sip rsp) s = .ok s1 ∧
      s1.lookup this =
        some { t with mMsgToRetransmit := some rsp, mMachine := Machine.Stale,
                      mState := State.Completed } ∧
      s1.mTimers = s.mTimers ++
        [{ type := TimerType.TimerH, transactionId := rsp.transactionId,
           duration := 64 * env.T1 },
         { type := TimerType.TimerG, transactionId := rsp.transactionId,
           duration := env.T1 }] ∧
      s1.mTransportSelector = s.mTransportSelector ++ [WireOp.send rsp] ∧
      ∀ d : Nat,
        deliver env (Message.timer { type := TimerType.TimerG, duration := d,
                                     transactionId := rsp.transactionId }) s1 = .ok s1 := by
  have hs := hr.sound.1
  obtain ⟨hrel, hsi, -, -⟩ := hs.1 t (s.mem_of_lookup this t hl)
  have hproc : t.mState = State.Proceeding := hsi hmach
  refine ⟨hproc, _, deliver_failure_final env s this t rsp hfind hl hmach hproc hrel hrsp hreq hTU
    hcseq hlo hhi, ?_, ?_, rfl, ?_⟩
  · simp only [SipStack.lookup_transportSend, SipStack.lookup_timersAdd]
    exact s.lookup_store_self this t _ hl
  · simp [SipStack.timersAdd, SipStack.transportSend, SipStack.store]
  · intro d
    exact deliver_after_failure_final env s this t rsp _ hfind hl rfl rfl

/-- The failing input of C11 evaluated: the INVITE `"b1"` has come from the
wire, the TU answers with a 486, and Timer G, scheduled with 500, expires. -/
theorem timer_g_after_failure_reaches_stale_witness :
    deliver specEnv (Message.sip (sampleRequest MethodTypes.INVITE "b1" true)) emptyStack =
      .ok sampleInviteReceived ∧
    deliver specEnv (Message.sip (sampleResponse 486 MethodTypes.INVITE "b1" false))
        sampleInviteReceived = .ok sampleRejected ∧
    deliver specEnv (Message.timer { type := TimerType.TimerG, duration := 500,
                                     transactionId := "b1" }) sampleRejected =
      .ok sampleRejected :=
  have h := timer_g_after_failure_reaches_stale specEnv sampleInviteReceived 0
    (sampleTransaction Machine.ServerInvite State.Proceeding false
      (some (specMakeResponse (sampleRequest MethodTypes.INVITE "b1" true) 100)))
    (sampleResponse 486 MethodTypes.INVITE "b1" false) sampleInviteReceived_reachable
    rfl rfl rfl rfl rfl rfl rfl (by decide) (by decide)
  ⟨rfl, rfl, by
    obtain ⟨-, s1, h1, -, -, -, h5⟩ := h
    have hs1 : s1 = sampleRejected := by
      have h2 : deliver specEnv (Message.sip (sampleResponse 486 MethodTypes.INVITE "b1" false))
          sampleInviteReceived = .ok sampleRejected := rfl
      rw [h2] at h1
      injection h1 with h1
      exact h1.symm
    rw [← hs1]
    exact h5 500⟩

/-- A SIP message given to a Client Non-INVITE transaction that is not
reliable leaves the transaction live. -/
theorem processClientNonInvite_sip_keeps (env : Env) (this : Ptr) (m : SipMessage)
    (s s1 : SipStack) (t : TransactionState) (hl : s.lookup this = some t)
    (hrel : t.mIsReliable = false)
    (h : processClientNonInvite env this (Message.sip m) s = .ok s1) :
    ∃ t1, s1.lookup this = some t1 := by
  simp only [processClientNonInvite, hl, isRequest, isInvite, isFromTU, isSentReliable,
    isSentUnreliable, isResponseDefault, isResponse, isTimer, isTranportError, sendToWire,
    sendToTU, Message.getTransactionId, hrel, Bool.false_eq_true, if_false] at h
  (repeat' split at h) <;> (try cases h) <;>
    first
    | exact ⟨t, hl⟩
    | simp [s.lookup_store_self this t _ hl]

/-- A SIP message given to a Client INVITE transaction that is not reliable
and has no CANCEL child leaves the transaction live. -/
theorem processClientInvite_sip_keeps (env : Env) (this : Ptr) (m : SipMessage)
    (s s1 : SipStack) (t : TransactionState) (hl : s.lookup this = some t)
    (hrel : t.mIsReliable = false) (hchild : t.mCancelStateMachine = none)
    (h : processClientInvite env this (Message.sip m) s = .ok s1) :
    ∃ t1, s1.lookup this = some t1 := by
  simp only [processClientInvite, hl, isRequest, isInvite, isFromTU, isSentReliable,
    isSentUnreliable, isResponseDefault, isResponse, isTimer, isTranportError, sendToWire,
    sendToTU, Message.getTransactionId, hrel, Bool.false_eq_true, if_false, hchild,
    isSentIndication] at h
  (repeat' split at h) <;> (try cases h) <;>
    first
    | exact ⟨t, hl⟩
    | (simp [s.lookup_store_self this t _ hl]; done)
    | (exfalso; simp_all)

/-- A SIP message given to a Server Non-INVITE transaction that is not
reliable leaves the transaction live. -/
theorem processServerNonInvite_sip_keeps (env : Env) (this : Ptr) (m : SipMessage)
    (s s1 : SipStack) (t : TransactionState) (hl : s.lookup this = some t)
    (hrel : t.mIsReliable = false)
    (h : processServerNonInvite env this (Message.sip m) s = .ok s1) :
    ∃ t1, s1.lookup this = some t1 := by
  simp only [processServerNonInvite, hl, isRequest, isInvite, isFromTU, isSentReliable,
    isSentUnreliable, isResponseDefault, isResponse, isTimer, isTranportError, sendToWire,
    sendToTU, Message.getTransactionId, hrel, Bool.false_eq_true, if_false] at h
  (repeat' split at h) <;> (try cases h) <;>
    first
    | exact ⟨t, hl⟩
    | simp [s.lookup_store_self this t _ hl]

/-- C39 (the code at the failing input). Every live transaction of a reachable
stack has `mIsReliable` false (the constructor clears it and no handler assigns
it), so the branches for a reliable transport are not taken: no SIP message, so
no final response, given to a Client Non-INVITE, Client INVITE or Server
Non-INVITE transaction destroys it (the transaction is still live when the
handler returns). A transaction whose machine is Server INVITE is in Proceeding,
and the final response of 300 or more from the TU that moves it to Completed
also assigns `Stale` to its machine: the ACK from the wire that follows is
dispatched to the empty `processStale`, the transaction stays in Completed, and
no Timer I is scheduled. -/
theorem ack_after_failure_reaches_stale (env : Env) (s : SipStack) (this : Ptr)
    (t : TransactionState) (hr : Reachable env s) (hl : s.lookup this = some t) :
    t.mIsReliable = false ∧
    (∀ (rsp : SipMessage) (s1 : SipStack), t.mMachine = Machine.ClientNonInvite →
      processClientNonInvite env this (Message.sip rsp) s = .ok s1 →
      ∃ t1, s1.lookup this = some t1) ∧
    (∀ (rsp : SipMessage) (s1 : SipStack), t.mMachine = Machine.ClientInvite →
      processClientInvite env this (Message.sip rsp) s = .ok s1 →
      ∃ t1, s1.lookup this = some t1) ∧
    (∀ (rsp : SipMessage) (s1 : SipStack), t.mMachine = Machine.ServerNonInvite →
      processServerNonInvite env this (Message.sip rsp) s = .ok s1 →
      ∃ t1, s1.lookup this = some t1) ∧
    (t.mMachine = Machine.ServerInvite →
      t.mState = State.Proceeding ∧
      ∀ rsp ack : SipMessage,
        TransactionMap.find rsp.transactionId s.mTransactionMap = some this →
        rsp.isResponse = true → rsp.isRequest = false → rsp.isExternal = false →
        rsp.cseqMethod = MethodTypes.INVITE → 300 ≤ rsp.responseCode →
        rsp.responseCode ≤ 699 →
        ack.isRequest = true → ack.isExternal = true →
        ack.requestMethod = MethodTypes.ACK → ack.transactionId = rsp.transactionId →
        ∃ s1, deliver env (Message.sip rsp) s = .ok s1 ∧
          s1.lookup this =
            some { t with mMsgToRetransmit := some rsp, mMachine := Machine.Stale,
                          mState := State.Completed } ∧
          deliver env (Message.sip ack) s1 = .ok s1) := by
  have hs := hr.sound.1
  obtain ⟨hrel, hsi, hmsg, hchild⟩ := hs.1 t (s.mem_of_lookup this t hl)
  refine ⟨hrel, ?_, ?_, ?_, ?_⟩
  · intro rsp s1 _ h
    exact processClientNonInvite_sip_keeps env this rsp s s1 t hl hrel h
  · intro rsp s1 hmach h
    exact processClientInvite_sip_keeps env this rsp s s1 t hl hrel (hchild (Or.inl hmach)) h
  · intro rsp s1 _ h
    exact processServerNonInvite_sip_keeps env this rsp s s1 t hl hrel h
  · intro hmach
    have hproc : t.mState = State.Proceeding := hsi hmach
    refine ⟨hproc, ?_⟩
    intro rsp ack hfind hrsp hreq hTU hcseq hlo hhi _ hext _ hid
    refine ⟨_, deliver_failure_final env s this t rsp hfind hl hmach hproc hrel hrsp hreq hTU
      hcseq hlo hhi, ?_, ?_⟩
    · simp only [SipStack.lookup_transportSend, SipStack.lookup_timersAdd]
      exact s.lookup_store_self this t _ hl
    · exact deliver_after_failure_final env s this t rsp (Message.sip ack) hfind hl hid
        (by simp [isAckFromTU, hext])

/-- The failing input of C39 evaluated: the INVITE `"b1"` has come from the
wire, the TU answers with a 486, and the ACK comes from the wire: the
transaction stays in Completed with machine `Stale`, and the timers are those
the 486 scheduled. -/
theorem ack_after_failure_reaches_stale_witness :
    deliver specEnv (Message.sip (sampleRequest MethodTypes.INVITE "b1" true)) emptyStack =
      .ok sampleInviteReceived ∧
    deliver specEnv (Message.sip (sampleResponse 486 MethodTypes.INVITE "b1" false))
        sampleInviteReceived = .ok sampleRejected ∧
    sampleRejected.lookup 0 =
      some (sampleTransaction Machine.Stale State.Completed false
        (some (sampleResponse 486 MethodTypes.INVITE "b1" false))) ∧
    deliver specEnv (Message.sip (sampleRequest MethodTypes.ACK "b1" true)) sampleRejected =
      .ok sampleRejected :=
  have h := (ack_after_failure_reaches_stale specEnv sampleInviteReceived 0
    (sampleTransaction Machine.ServerInvite State.Proceeding false
      (some (specMakeResponse (sampleRequest MethodTypes.INVITE "b1" true) 100)))
    sampleInviteReceived_reachable rfl).2.2.2.2 rfl
  ⟨rfl, rfl, rfl, by
    obtain ⟨s1, h1, -, h3⟩ := h.2 (sampleResponse 486 MethodTypes.INVITE "b1" false)
      (sampleRequest MethodTypes.ACK "b1" true) rfl rfl rfl rfl rfl (by decide) (by decide)
      rfl rfl rfl rfl
    have hs1 : s1 = sampleRejected := by
      have h2 : deliver specEnv (Message.sip (sampleResponse 486 MethodTypes.INVITE "b1" false))
          sampleInviteReceived = .ok sampleRejected := rfl
      rw [h2] at h1
      injection h1 with h1
      exact h1.symm
    rw [← hs1]
    exact h3⟩

/-- C40. Timer F given to a Client Non-INVITE transaction that holds its
request and has no child: whatever the state (no hypothesis names it), the 408
made from the stored request is added to the TU FIFO and the transaction is
destroyed, its id removed from the table and its storage released. -/
theorem timer_f_in_any_state (env : Env) (s : SipStack) (this : Ptr) (t : TransactionState)
    (m : SipMessage) (tm : TimerMessage) (hl : s.lookup this = some t)
    (hmsg : t.mMsgToRetransmit = some m) (hchild : t.mCancelStateMachine = none)
    (hty : tm.type = TimerType.TimerF) :
    processClientNonInvite env this (Message.timer tm) s =
      .ok (((s.tuFifoAdd (env.makeResponse m 408)).mapRemove m.transactionId).free this) := by
  simp [processClientNonInvite, hl, isRequest, isSentReliable, isSentUnreliable,
    isResponseDefault, isResponse, isTimer, hty, hmsg, sendToTU, delete, destroyAux,
    SipStack.lookup_tuFifoAdd, hchild]

/-- The scenario of C40 at concrete values: the REGISTER `"b1"` has been
answered with a 200, which went to the TU, and the transaction is in Completed;
Timer F then puts a 408 behind the 200 in the TU FIFO and destroys the
transaction. -/
theorem timer_f_in_any_state_witness :
    deliverAll specEnv
        [Message.sip (sampleRequest MethodTypes.REGISTER "b1" false),
         Message.sip (sampleResponse 200 MethodTypes.REGISTER "b1" true)] emptyStack =
      .ok sampleRegistered ∧
    processClientNonInvite specEnv 0
        (Message.timer { type := TimerType.TimerF, duration := 32000, transactionId := "b1" })
        sampleRegistered =
      .ok { sampleRegistered with
            mTransactionMap := []
            mTUFifo := [sampleResponse 200 MethodTypes.REGISTER "b1" true,
                        specMakeResponse (sampleRequest MethodTypes.REGISTER "b1" false) 408]
            heap := [none] } :=
  ⟨rfl, timer_f_in_any_state specEnv sampleRegistered 0
    (sampleTransaction Machine.ClientNonInvite State.Completed false
      (some (sampleRequest MethodTypes.REGISTER "b1" false)))
    (sampleRequest MethodTypes.REGISTER "b1" false)
    { type := TimerType.TimerF, duration := 32000, transactionId := "b1" } rfl rfl rfl rfl⟩

end ReachableClaims

end Vocal2

/-! ## The TURN/STUN client engine: theorems -/

namespace reTurn

open TurnAsyncSocket

section RequestMapLemmas

theorem RequestMap.find_insert_self (tid : UInt128) (e : RequestEntry)
    (m : List (UInt128 × RequestEntry)) :
    RequestMap.find tid (RequestMap.insert tid e m) = some e := by
  simp [RequestMap.find, RequestMap.insert]

theorem RequestMap.find_erase_self (tid : UInt128) (m : List (UInt128 × RequestEntry)) :
    RequestMap.find tid (RequestMap.erase tid m) = none := by
  simp only [RequestMap.find, RequestMap.erase, Option.map_eq_none', List.find?_eq_none]
  intro e he
  simp only [List.mem_filter, decide_eq_true_eq] at he
  simpa using he.2

theorem RequestMap.map_erase_self (tid : UInt128) (x : RequestEntry)
    (m : List (UInt128 × RequestEntry)) :
    (RequestMap.erase tid m).map (fun e => if e.1 = tid then (tid, x) else e) =
      RequestMap.erase tid m := by
  have h : ∀ e ∈ RequestMap.erase tid m, (if e.1 = tid then (tid, x) else e) = e := by
    intro e he
    simp only [RequestMap.erase, List.mem_filter, decide_eq_true_eq] at he
    simp [he.2]
  calc (RequestMap.erase tid m).map (fun e => if e.1 = tid then (tid, x) else e)
      = (RequestMap.erase tid m).map id := List.map_congr_left h
    _ = RequestMap.erase tid m := List.map_id _

theorem RequestMap.map_insert_self (tid : UInt128) (e x : RequestEntry)
    (m : List (UInt128 × RequestEntry)) :
    (RequestMap.insert tid e m).map (fun kv => if kv.1 = tid then (tid, x) else kv) =
      RequestMap.insert tid x m := by
  simp [RequestMap.insert, RequestMap.map_erase_self]

theorem RequestMap.erase_erase (tid : UInt128) (m : List (UInt128 × RequestEntry)) :
    RequestMap.erase tid (RequestMap.erase tid m) = RequestMap.erase tid m := by
  simp [RequestMap.erase]

theorem RequestMap.erase_insert_self (tid : UInt128) (e : RequestEntry)
    (m : List (UInt128 × RequestEntry)) :
    RequestMap.erase tid (RequestMap.insert tid e m) = RequestMap.erase tid m := by
  simp [RequestMap.insert, RequestMap.erase]

end RequestMapLemmas

section UdpRetransmission

/-- One expiry over UDP before the last transmission: the entry counts one more
request, its timeout is doubled (or set to the final time after the sixth
transmission), the request is sent again and the timer is armed again. -/
theorem requestTimerFires_retransmits (env : StunEnv) (sock : TurnAsyncSocket)
    (msg : StunMessage) (sent timeout : Nat) (rest : List (UInt128 × RequestEntry))
    (hudp : sock.mLocalBinding.mTransport = TransportType.UDP)
    (hmap : sock.mActiveRequestMap =
      RequestMap.insert msg.magicCookieAndTid
        { mRequestMessage := some msg, mRequestsSent := sent, mTimeout := timeout } rest)
    (hsent : sent ≠ 7) :
    requestTimerFires env msg.magicCookieAndTid sock = .ok
      { sock with
        mActiveRequestMap := RequestMap.insert msg.magicCookieAndTid
          { mRequestMessage := some msg, mRequestsSent := sent + 1,
            mTimeout := if sent = 6 then 1600 else timeout * 2 } rest
        socketOps := sock.socketOps ++ [SocketOp.send (serverTuple sock) (encoded env sock msg)]
        timerOps := sock.timerOps ++
          [TimerOp.requestStart msg.magicCookieAndTid (if sent = 6 then 1600 else timeout * 2)] } := by
  simp only [requestTimerFires, hmap, RequestMap.find_insert_self, requestTimerExpired, hudp,
    UDP_MAX_RETRANSMITS, UDP_FINAL_REQUEST_TIME, UDP_RT0]
  simp [hsent, sendStunMessage, send, startTimer, serverTuple, encoded, hudp, hmap,
    RequestMap.map_insert_self]

theorem callback_socketOps (sock : TurnAsyncSocket) (c : Callback) :
    (sock.callback c).socketOps = sock.socketOps := by
  unfold callback; split <;> rfl

theorem callback_timerOps (sock : TurnAsyncSocket) (c : Callback) :
    (sock.callback c).timerOps = sock.timerOps := by
  unfold callback; split <;> rfl

theorem callback_mActiveRequestMap (sock : TurnAsyncSocket) (c : Callback) :
    (sock.callback c).mActiveRequestMap = sock.mActiveRequestMap := by
  unfold callback; split <;> rfl

theorem callback_tidsDrawn (sock : TurnAsyncSocket) (c : Callback) :
    (sock.callback c).tidsDrawn = sock.tidsDrawn := by
  unfold callback; split <;> rfl

theorem callback_mCloseAfter (sock : TurnAsyncSocket) (c : Callback) :
    (sock.callback c).mCloseAfterDestroyAllocationFinishes =
      sock.mCloseAfterDestroyAllocationFinishes := by
  unfold callback; split <;> rfl

theorem callback_mHaveAllocation (sock : TurnAsyncSocket) (c : Callback) :
    (sock.callback c).mHaveAllocation = sock.mHaveAllocation := by
  unfold callback; split <;> rfl

theorem callback_callbacks (sock : TurnAsyncSocket) (c : Callback)
    (h : sock.mTurnAsyncSocketHandler = true) :
    (sock.callback c).callbacks = sock.callbacks ++ [c] := by
  simp [callback, h]

/-- What `requestTimeout` leaves when it returns: nothing was sent, no timer
was armed and no entry is registered under the id. -/
theorem requestTimeout_ok (tid : UInt128) (sock sock1 : TurnAsyncSocket)
    (h : requestTimeout tid sock = .ok sock1) :
    sock1.socketOps = sock.socketOps ∧ sock1.timerOps = sock.timerOps ∧
      sock1.mActiveRequestMap = RequestMap.erase tid sock.mActiveRequestMap ∨
    RequestMap.find tid sock.mActiveRequestMap = none ∧ sock1 = sock := by
  unfold requestTimeout at h
  cases hf : RequestMap.find tid sock.mActiveRequestMap with
  | none =>
    simp only [hf] at h
    injection h with h
    exact Or.inr ⟨rfl, h.symm⟩
  | some entry =>
    left
    simp only [hf] at h
    cases hm : entry.mRequestMessage with
    | none => simp [hm] at h
    | some request =>
      simp only [hm] at h
      cases hmeth : request.mMethod <;> simp only [hmeth] at h
      case Bind =>
        injection h with h; subst h
        simp [callback_socketOps, callback_timerOps, callback_mActiveRequestMap]
      case SharedSecret =>
        injection h with h; subst h
        simp [callback_socketOps, callback_timerOps, callback_mActiveRequestMap]
      case TurnAllocate =>
        injection h with h; subst h
        simp [callback_socketOps, callback_timerOps, callback_mActiveRequestMap]
      case TurnRefresh =>
        split at h
        · cases h
        · injection h with h; subst h
          simp [callback_socketOps, callback_timerOps, callback_mActiveRequestMap]
      all_goals cases h

/-- The expiry after the seventh transmission over UDP is `requestTimeout`. -/
theorem requestTimerFires_times_out (env : StunEnv) (sock : TurnAsyncSocket)
    (msg : StunMessage) (timeout : Nat) (rest : List (UInt128 × RequestEntry))
    (hmap : sock.mActiveRequestMap =
      RequestMap.insert msg.magicCookieAndTid
        { mRequestMessage := some msg, mRequestsSent := 7, mTimeout := timeout } rest) :
    requestTimerFires env msg.magicCookieAndTid sock =
      requestTimeout msg.magicCookieAndTid sock := by
  have hfind : RequestMap.find msg.magicCookieAndTid sock.mActiveRequestMap =
      some { mRequestMessage := some msg, mRequestsSent := 7, mTimeout := timeout } := by
    rw [hmap]; exact RequestMap.find_insert_self _ _ _
  simp only [requestTimerFires, hfind, requestTimerExpired, UDP_MAX_RETRANSMITS]
  simp only [or_true, if_true, Bool.false_eq_true, if_false]
  cases hto : requestTimeout msg.magicCookieAndTid sock with
  | error f => rfl
  | ok sock1 =>
    simp only []
    rcases requestTimeout_ok _ _ _ hto with h | h
    · congr 1
      have h3 := h.2.2
      cases sock1
      simp only at h3
      subst h3
      simp [RequestMap.map_erase_self]
    · rw [hfind] at h
      cases h.1

/-- C1. For every STUN request sent over a UDP local transport that receives no
response, the request timer is armed with the successive durations 100, 200,
400, 800, 1600, 3200, 1600 ms; the request is handed to the socket exactly 7
times (the original and 6 retransmissions); the 7th expiry is
`requestTimeout`, which sends nothing, arms no timer and leaves no entry under
the id; and the durations sum to 7900 ms. -/
theorem udp_request_retransmission_schedule (env : StunEnv) (sock : TurnAsyncSocket)
    (msg : StunMessage)
    (hudp : sock.mLocalBinding.mTransport = TransportType.UDP)
    (hreq : msg.mClass = StunClass.Request) :
    ∃ s6 : TurnAsyncSocket,
      requestTimerFiresN env msg.magicCookieAndTid 6 (sendStunMessage env msg false sock) =
        .ok s6 ∧
      s6.timerOps = sock.timerOps ++
        [100, 200, 400, 800, 1600, 3200, 1600].map
          (TimerOp.requestStart msg.magicCookieAndTid) ∧
      s6.socketOps = sock.socketOps ++
        List.replicate 7 (SocketOp.send (serverTuple sock) (encoded env sock msg)) ∧
      requestTimerFires env msg.magicCookieAndTid s6 =
        requestTimeout msg.magicCookieAndTid s6 ∧
      (∀ s7, requestTimerFires env msg.magicCookieAndTid s6 = .ok s7 →
        s7.socketOps = s6.socketOps ∧ s7.timerOps = s6.timerOps ∧
        RequestMap.find msg.magicCookieAndTid s7.mActiveRequestMap = none) ∧
      [100, 200, 400, 800, 1600, 3200, 1600].sum = 7900 := by
  have h0 : sendStunMessage env msg false sock =
      { sock with
        mActiveRequestMap := RequestMap.insert msg.magicCookieAndTid
          { mRequestMessage := some msg, mRequestsSent := 1, mTimeout := 100 }
          sock.mActiveRequestMap
        socketOps := sock.socketOps ++ [SocketOp.send (serverTuple sock) (encoded env sock msg)]
        timerOps := sock.timerOps ++ [TimerOp.requestStart msg.magicCookieAndTid 100] } := by
    simp [sendStunMessage, hreq, newRequestEntry, hudp, UDP_RT0, startTimer, send, serverTuple,
      encoded]
  let S6 : TurnAsyncSocket :=
    { sock with
      mActiveRequestMap := RequestMap.insert msg.magicCookieAndTid
        { mRequestMessage := some msg, mRequestsSent := 7, mTimeout := 1600 }
        sock.mActiveRequestMap
      socketOps := sock.socketOps ++
        List.replicate 7 (SocketOp.send (serverTuple sock) (encoded env sock msg))
      timerOps := sock.timerOps ++
        [100, 200, 400, 800, 1600, 3200, 1600].map
          (TimerOp.requestStart msg.magicCookieAndTid) }
  have hrun : requestTimerFiresN env msg.magicCookieAndTid 6
      (sendStunMessage env msg false sock) = .ok S6 := by
    rw [h0]
    simp only [requestTimerFiresN]
    rw [requestTimerFires_retransmits env _ msg 1 100 sock.mActiveRequestMap]
    rotate_left
    · exact hudp
    · rfl
    · decide
    simp only []
    rw [requestTimerFires_retransmits env _ msg 2 200 sock.mActiveRequestMap]
    rotate_left
    · exact hudp
    · rfl
    · decide
    simp only []
    rw [requestTimerFires_retransmits env _ msg 3 400 sock.mActiveRequestMap]
    rotate_left
    · exact hudp
    · rfl
    · decide
    simp only []
    rw [requestTimerFires_retransmits env _ msg 4 800 sock.mActiveRequestMap]
    rotate_left
    · exact hudp
    · rfl
    · decide
    simp only []
    rw [requestTimerFires_retransmits env _ msg 5 1600 sock.mActiveRequestMap]
    rotate_left
    · exact hudp
    · rfl
    · decide
    simp only []
    rw [requestTimerFires_retransmits env _ msg 6 3200 sock.mActiveRequestMap]
    rotate_left
    · exact hudp
    · rfl
    · decide
    simp [S6, serverTuple, encoded, List.replicate]
  refine ⟨S6, hrun, rfl, rfl, ?_, ?_, by decide⟩
  · exact requestTimerFires_times_out env S6 msg 1600 sock.mActiveRequestMap rfl
  · intro s7 h7
    rw [requestTimerFires_times_out env S6 msg 1600 sock.mActiveRequestMap rfl] at h7
    rcases requestTimeout_ok _ _ _ h7 with h | h
    · refine ⟨h.1, h.2.1, ?_⟩
      rw [h.2.2]
      exact RequestMap.find_erase_self _ _
    · have hf := h.1
      simp only [S6, RequestMap.find_insert_self] at hf
      cases hf

/-- C1 at concrete values: the Bind request 42 of the sample client over UDP,
unframed, to the server `10.0.0.2:3478`. -/
theorem udp_request_retransmission_schedule_witness :
    ∃ s6 : TurnAsyncSocket,
      requestTimerFiresN sampleStunEnv 42 6
          (sendStunMessage sampleStunEnv (sampleStunRequest StunMethod.Bind 42) false
            sampleUdpSocket) = .ok s6 ∧
      s6.timerOps =
        [TimerOp.requestStart 42 100, TimerOp.requestStart 42 200, TimerOp.requestStart 42 400,
         TimerOp.requestStart 42 800, TimerOp.requestStart 42 1600,
         TimerOp.requestStart 42 3200, TimerOp.requestStart 42 1600] ∧
      s6.socketOps =
        List.replicate 7
          (SocketOp.send { mTransport := TransportType.UDP, mAddress := "10.0.0.2",
                           mPort := 3478 } [42]) ∧
      requestTimerFires sampleStunEnv 42 s6 = requestTimeout 42 s6 ∧
      (∀ s7, requestTimerFires sampleStunEnv 42 s6 = .ok s7 →
        s7.socketOps = s6.socketOps ∧ s7.timerOps = s6.timerOps ∧
        RequestMap.find 42 s7.mActiveRequestMap = none) ∧
      [100, 200, 400, 800, 1600, 3200, 1600].sum = 7900 :=
  udp_request_retransmission_schedule sampleStunEnv sampleUdpSocket
    (sampleStunRequest StunMethod.Bind 42) rfl rfl

end UdpRetransmission

section AuthRetry

end AuthRetry

section CreateAllocation

/-- After `createNewStunMessage` one more id has been drawn, and nothing else
has changed. -/
theorem createNewStunMessage_snd (env : StunEnv) (stunclass : StunClass) (method : StunMethod)
    (addAuthInfo : Bool) (sock : TurnAsyncSocket) :
    (createNewStunMessage env stunclass method addAuthInfo sock).2 =
      { sock with tidsDrawn := sock.tidsDrawn + 1 } := by
  simp only [createNewStunMessage, createHeader]
  split <;> rfl

/-- What `createNewStunMessage` yields: a message of the class and method asked
for, under the next id drawn, without any TURN attribute. -/
theorem createNewStunMessage_fst (env : StunEnv) (stunclass : StunClass) (method : StunMethod)
    (addAuthInfo : Bool) (sock : TurnAsyncSocket) :
    (createNewStunMessage env stunclass method addAuthInfo sock).1.mClass = stunclass ∧
    (createNewStunMessage env stunclass method addAuthInfo sock).1.mMethod = method ∧
    (createNewStunMessage env stunclass method addAuthInfo sock).1.magicCookieAndTid =
      env.randomTid sock.tidsDrawn ∧
    (createNewStunMessage env stunclass method addAuthInfo sock).1.mTurnLifetime = none ∧
    (createNewStunMessage env stunclass method addAuthInfo sock).1.mTurnBandwidth = none ∧
    (createNewStunMessage env stunclass method addAuthInfo sock).1.mTurnRequestedTransport =
      none ∧
    (createNewStunMessage env stunclass method addAuthInfo sock).1.mTurnRequestedIp = none ∧
    (createNewStunMessage env stunclass method addAuthInfo sock).1.mTurnRequestedPortProps =
      none := by
  simp only [createNewStunMessage, createHeader]
  split
  · split <;> split <;> simp [StunMessage.empty]
  · simp [StunMessage.empty]

/-- C16. A create_allocation call that requests a TCP relay while the local
transport is UDP (socket connected, no allocation held) reports
`onAllocationFailure` with `InvalidRequestedTransport` (to the handler, when one
is set), hands nothing to the socket, adds no entry to the outstanding-request
map, starts no timer and leaves `mHaveAllocation` false. -/
theorem doCreateAllocation_tcp_over_udp (env : StunEnv) (decls : Decls)
    (lifetime bandwidth requestedPortProps requestedPort : Nat) (requestedIpAddress : String)
    (sock : TurnAsyncSocket)
    (hconn : sock.connected = true) (hno : sock.mHaveAllocation = false)
    (hudp : sock.mLocalBinding.mTransport = TransportType.UDP) :
    doCreateAllocation env decls lifetime bandwidth requestedPortProps requestedPort
        TransportType.TCP requestedIpAddress sock =
      callback
        { sock with mRequestedTransportType := TransportType.TCP,
                    mRelayTransportType := TransportType.TCP,
                    tidsDrawn := sock.tidsDrawn + 1 }
        (Callback.onAllocationFailure ErrorCode.InvalidRequestedTransport) ∧
    (doCreateAllocation env decls lifetime bandwidth requestedPortProps requestedPort
        TransportType.TCP requestedIpAddress sock).socketOps = sock.socketOps ∧
    (doCreateAllocation env decls lifetime bandwidth requestedPortProps requestedPort
        TransportType.TCP requestedIpAddress sock).mActiveRequestMap = sock.mActiveRequestMap ∧
    (doCreateAllocation env decls lifetime bandwidth requestedPortProps requestedPort
        TransportType.TCP requestedIpAddress sock).timerOps = sock.timerOps ∧
    (doCreateAllocation env decls lifetime bandwidth requestedPortProps requestedPort
        TransportType.TCP requestedIpAddress sock).mHaveAllocation = false ∧
    (sock.mTurnAsyncSocketHandler = true →
      (doCreateAllocation env decls lifetime bandwidth requestedPortProps requestedPort
          TransportType.TCP requestedIpAddress sock).callbacks =
        sock.callbacks ++ [Callback.onAllocationFailure ErrorCode.InvalidRequestedTransport]) := by
  have hres : doCreateAllocation env decls lifetime bandwidth requestedPortProps requestedPort
        TransportType.TCP requestedIpAddress sock =
      callback
        { sock with mRequestedTransportType := TransportType.TCP,
                    mRelayTransportType := TransportType.TCP,
                    tidsDrawn := sock.tidsDrawn + 1 }
        (Callback.onAllocationFailure ErrorCode.InvalidRequestedTransport) := by
    simp [doCreateAllocation, hconn, hno, hudp, createNewStunMessage_snd]
  rw [hres]
  refine ⟨rfl, ?_, ?_, ?_, ?_, ?_⟩
  · rw [callback_socketOps]
  · rw [callback_mActiveRequestMap]
  · rw [callback_timerOps]
  · unfold callback; split <;> simpa using hno
  · intro hh
    rw [callback_callbacks _ _ (by simpa using hh)]

/-- C16 at concrete values: the sample client over UDP asks for a TCP relay. -/
theorem doCreateAllocation_tcp_over_udp_witness :
    doCreateAllocation sampleStunEnv sampleDecls 600 UnspecifiedBandwidth 0 0
        TransportType.TCP "0.0.0.0" sampleUdpSocket =
      { sampleUdpSocket with
        mRequestedTransportType := TransportType.TCP,
        mRelayTransportType := TransportType.TCP,
        tidsDrawn := 1,
        callbacks := [Callback.onAllocationFailure ErrorCode.InvalidRequestedTransport] } :=
  (doCreateAllocation_tcp_over_udp sampleStunEnv sampleDecls 600 UnspecifiedBandwidth 0 0
    "0.0.0.0" sampleUdpSocket rfl rfl rfl).1

/-- C18 (amended). For every create_allocation call that sends an Allocate
request (socket connected, no allocation held, not a TCP relay over a UDP local
transport), the request carries the lifetime attribute iff the lifetime is not
`0xFFFFFFFF`, the bandwidth attribute iff the bandwidth is not `0xFFFFFFFF`,
the requested-ip attribute iff the address is not `0.0.0.0`, the
requested-transport attribute iff the transport is UDP or TCP (not for `None`
and not for TLS), and the requested-port-props attribute iff the port
properties are not `PortPropsNone` or the port is not 0; every attribute that
is present carries the argument's value. -/
theorem doCreateAllocation_request_attributes (env : StunEnv) (decls : Decls)
    (lifetime bandwidth requestedPortProps requestedPort : Nat)
    (requestedTransportType : TransportType) (requestedIpAddress : String)
    (sock : TurnAsyncSocket)
    (hconn : sock.connected = true) (hno : sock.mHaveAllocation = false)
    (hallowed : ¬ (requestedTransportType = TransportType.TCP ∧
                   sock.mLocalBinding.mTransport = TransportType.UDP)) :
    ∃ request : StunMessage,
      doCreateAllocation env decls lifetime bandwidth requestedPortProps requestedPort
          requestedTransportType requestedIpAddress sock =
        sendStunMessage env request false
          { sock with
            mRequestedTransportType := requestedTransportType,
            mRelayTransportType :=
              if requestedTransportType ≠ TransportType.None then requestedTransportType
              else sock.mLocalBinding.mTransport,
            tidsDrawn := sock.tidsDrawn + 1 } ∧
      request.mClass = StunClass.Request ∧ request.mMethod = StunMethod.TurnAllocate ∧
      request.magicCookieAndTid = env.randomTid sock.tidsDrawn ∧
      request.mTurnLifetime = (if lifetime ≠ 0xFFFFFFFF then some lifetime else none) ∧
      request.mTurnBandwidth = (if bandwidth ≠ 0xFFFFFFFF then some bandwidth else none) ∧
      request.mTurnRequestedIp =
        (if requestedIpAddress ≠ "0.0.0.0" then
           some { addr := requestedIpAddress, port := 0 }
         else none) ∧
      request.mTurnRequestedTransport =
        (match requestedTransportType with
         | TransportType.UDP => some RequestedTransport.RequestedTransportUdp
         | TransportType.TCP => some RequestedTransport.RequestedTransportTcp
         | _ => none) ∧
      request.mTurnRequestedPortProps =
        (if requestedPortProps ≠ decls.PortPropsNone ∨ requestedPort ≠ 0 then
           some { props := requestedPortProps, port := requestedPort }
         else none) := by
  obtain ⟨h1, h2, h3, h4, h5, h6, h7, h8⟩ :=
    createNewStunMessage_fst env StunClass.Request StunMethod.TurnAllocate decls.addAuthInfo
      { sock with
        mRequestedTransportType := requestedTransportType,
        mRelayTransportType :=
          if requestedTransportType ≠ TransportType.None then requestedTransportType
          else sock.mLocalBinding.mTransport }
  cases requestedTransportType
  case TCP =>
    have hl : ¬ sock.mLocalBinding.mTransport = TransportType.UDP := by simpa using hallowed
    simp only [doCreateAllocation, hconn, hno, hl, createNewStunMessage_snd]
    simp only [ne_eq, reduceCtorEq, not_false_eq_true, Bool.not_true, Bool.false_eq_true,
      if_false, if_true, and_self, and_true, not_true_eq_false, true_and, hl]
    refine ⟨_, rfl, ?_⟩
    simp only [UnspecifiedLifetime, UnspecifiedBandwidth, UnspecifiedIpAddress, UnspecifiedPort,
      setStunAtrAddressFromTuple]
    split_ifs <;> simp_all
  all_goals
    simp only [doCreateAllocation, hconn, hno, createNewStunMessage_snd]
    simp only [ne_eq, reduceCtorEq, not_false_eq_true, Bool.not_true, Bool.false_eq_true,
      if_false, if_true, and_self, and_true, not_true_eq_false, and_false, false_and]
    refine ⟨_, rfl, ?_⟩
    simp only [UnspecifiedLifetime, UnspecifiedBandwidth, UnspecifiedIpAddress, UnspecifiedPort,
      setStunAtrAddressFromTuple]
    split_ifs <;> simp_all

/-- The amended C18 at concrete values: the sample client over UDP asks for a
UDP relay with lifetime 600 and nothing else specified. -/
theorem doCreateAllocation_request_attributes_witness :
    ∃ request : StunMessage,
      doCreateAllocation sampleStunEnv sampleDecls 600 UnspecifiedBandwidth 0 0
          TransportType.UDP "0.0.0.0" sampleUdpSocket =
        sendStunMessage sampleStunEnv request false
          { sampleUdpSocket with
            mRequestedTransportType := TransportType.UDP,
            mRelayTransportType := TransportType.UDP,
            tidsDrawn := 1 } ∧
      request.mClass = StunClass.Request ∧ request.mMethod = StunMethod.TurnAllocate ∧
      request.magicCookieAndTid = 1000 ∧
      request.mTurnLifetime = some 600 ∧
      request.mTurnBandwidth = none ∧
      request.mTurnRequestedIp = none ∧
      request.mTurnRequestedTransport = some RequestedTransport.RequestedTransportUdp ∧
      request.mTurnRequestedPortProps = none :=
  doCreateAllocation_request_attributes sampleStunEnv sampleDecls 600 UnspecifiedBandwidth 0 0
    TransportType.UDP "0.0.0.0" sampleUdpSocket rfl rfl (by decide)

/-- C18 (counterexample). The sample client sends an Allocate request in both
calls. With port properties 1 and port 0 the request carries the
requested-port-props attribute although the port is 0; with TLS as requested
transport the request carries no requested-transport attribute although the
transport is not `None`. -/
theorem doCreateAllocation_attributes_differ :
    (RequestMap.find 1000
        (doCreateAllocation sampleStunEnv sampleDecls UnspecifiedLifetime UnspecifiedBandwidth
          1 0 TransportType.None "0.0.0.0" sampleUdpSocket).mActiveRequestMap).map
        (fun e => e.mRequestMessage.map (fun r => (r.mMethod, r.mTurnRequestedPortProps))) =
      some (some (StunMethod.TurnAllocate, some { props := 1, port := 0 })) ∧
    (RequestMap.find 1000
        (doCreateAllocation sampleStunEnv sampleDecls UnspecifiedLifetime UnspecifiedBandwidth
          0 0 TransportType.TLS "0.0.0.0" sampleUdpSocket).mActiveRequestMap).map
        (fun e => e.mRequestMessage.map (fun r => (r.mMethod, r.mTurnRequestedTransport))) =
      some (some (StunMethod.TurnAllocate, none)) := by
  constructor <;> rfl

/-- What `sendStunMessage` does with a request: the entry is registered under
the request's id, its timer is started, and the encoding goes to the socket. -/
theorem sendStunMessage_request (env : StunEnv) (request : StunMessage) (sock : TurnAsyncSocket)
    (hclass : request.mClass = StunClass.Request) :
    sendStunMessage env request false sock =
      { sock with
        mActiveRequestMap :=
          RequestMap.insert request.magicCookieAndTid (newRequestEntry sock request)
            sock.mActiveRequestMap
        timerOps := sock.timerOps ++
          [TimerOp.requestStart request.magicCookieAndTid (newRequestEntry sock request).mTimeout]
        socketOps := sock.socketOps ++
          [SocketOp.send (serverTuple sock) (encoded env sock request)] } := by
  simp [sendStunMessage, hclass, startTimer, send, serverTuple, encoded, newRequestEntry]

/-- C15 (counterexample). The sample client, connected and without allocation,
asks for a TLS relay: no failure is reported, and the Allocate request 1000 is
registered and handed to the socket. -/
theorem doCreateAllocation_tls_is_sent :
    doCreateAllocation sampleStunEnv sampleDecls UnspecifiedLifetime UnspecifiedBandwidth 0 0
        TransportType.TLS "0.0.0.0" sampleUdpSocket =
      { sampleUdpSocket with
        mRequestedTransportType := TransportType.TLS,
        mRelayTransportType := TransportType.TLS,
        tidsDrawn := 1,
        mActiveRequestMap :=
          [(1000, { mRequestMessage := some (sampleStunRequest StunMethod.TurnAllocate 1000),
                    mRequestsSent := 1, mTimeout := 100 })],
        timerOps := [TimerOp.requestStart 1000 100],
        socketOps :=
          [SocketOp.send { mTransport := TransportType.UDP, mAddress := "10.0.0.2",
                           mPort := 3478 } [1000]],
        callbacks := [] } := by
  rfl

/-- C15 (amended). For every create_allocation call whose requested relay
transport is TLS (socket connected, no allocation held), the engine sends an
Allocate request that carries no requested-transport attribute, registers it in
the outstanding-request map, and reports no failure. -/
theorem doCreateAllocation_tls (env : StunEnv) (decls : Decls)
    (lifetime bandwidth requestedPortProps requestedPort : Nat) (requestedIpAddress : String)
    (sock : TurnAsyncSocket)
    (hconn : sock.connected = true) (hno : sock.mHaveAllocation = false) :
    ∃ request : StunMessage,
      request.mClass = StunClass.Request ∧ request.mMethod = StunMethod.TurnAllocate ∧
      request.magicCookieAndTid = env.randomTid sock.tidsDrawn ∧
      request.mTurnRequestedTransport = none ∧
      doCreateAllocation env decls lifetime bandwidth requestedPortProps requestedPort
          TransportType.TLS requestedIpAddress sock =
        { sock with
          mRequestedTransportType := TransportType.TLS,
          mRelayTransportType := TransportType.TLS,
          tidsDrawn := sock.tidsDrawn + 1,
          mActiveRequestMap :=
            RequestMap.insert request.magicCookieAndTid (newRequestEntry sock request)
              sock.mActiveRequestMap,
          timerOps := sock.timerOps ++
            [TimerOp.requestStart request.magicCookieAndTid
              (newRequestEntry sock request).mTimeout],
          socketOps := sock.socketOps ++
            [SocketOp.send (serverTuple sock) (encoded env sock request)] } := by
  obtain ⟨h1, h2, h3, -, -, h6, -, -⟩ :=
    createNewStunMessage_fst env StunClass.Request StunMethod.TurnAllocate decls.addAuthInfo
      { sock with
        mRequestedTransportType := TransportType.TLS,
        mRelayTransportType :=
          if TransportType.TLS ≠ TransportType.None then TransportType.TLS
          else sock.mLocalBinding.mTransport }
  simp only [doCreateAllocation, hconn, hno, createNewStunMessage_snd]
  simp only [ne_eq, reduceCtorEq, not_false_eq_true, Bool.not_true, Bool.false_eq_true,
    if_false, if_true, and_self, and_true, not_true_eq_false, and_false, false_and]
  simp only [ne_eq, reduceCtorEq, not_false_eq_true, if_true] at h1 h2 h3 h6
  refine ⟨_, ?_, ?_, ?_, ?_, sendStunMessage_request env _ _ ?_⟩
  all_goals
    simp only [UnspecifiedLifetime, UnspecifiedBandwidth, UnspecifiedIpAddress, UnspecifiedPort,
      setStunAtrAddressFromTuple]
    split_ifs <;> simp_all

/-- The amended C15 at concrete values: the sample client asks for a TLS relay
with lifetime 600. -/
theorem doCreateAllocation_tls_witness :
    ∃ request : StunMessage,
      request.mClass = StunClass.Request ∧ request.mMethod = StunMethod.TurnAllocate ∧
      request.magicCookieAndTid = 1000 ∧
      request.mTurnRequestedTransport = none ∧
      doCreateAllocation sampleStunEnv sampleDecls 600 UnspecifiedBandwidth 0 0
          TransportType.TLS "0.0.0.0" sampleUdpSocket =
        { sampleUdpSocket with
          mRequestedTransportType := TransportType.TLS,
          mRelayTransportType := TransportType.TLS,
          tidsDrawn := 1,
          mActiveRequestMap :=
            RequestMap.insert request.magicCookieAndTid
              (newRequestEntry sampleUdpSocket request) [],
          timerOps :=
            [TimerOp.requestStart request.magicCookieAndTid
              (newRequestEntry sampleUdpSocket request).mTimeout],
          socketOps :=
            [SocketOp.send (serverTuple sampleUdpSocket)
              (encoded sampleStunEnv sampleUdpSocket request)] } :=
  doCreateAllocation_tls sampleStunEnv sampleDecls 600 UnspecifiedBandwidth 0 0 "0.0.0.0"
    sampleUdpSocket rfl rfl

/-- C17 (counterexample). The sample client holds an allocation and its socket
is not connected: create_allocation reports `NotConnected`, not
`AlreadyAllocated`. -/
theorem doCreateAllocation_not_connected_first :
    doCreateAllocation sampleStunEnv sampleDecls 600 UnspecifiedBandwidth 0 0
        TransportType.None "0.0.0.0"
        { sampleUdpSocket with mHaveAllocation := true, connected := false } =
      { sampleUdpSocket with
        mHaveAllocation := true, connected := false,
        mRequestedTransportType := TransportType.None,
        mRelayTransportType := TransportType.UDP,
        callbacks := [Callback.onAllocationFailure ErrorCode.NotConnected] } := by
  rfl

/-- C17 (amended). For every call of create_allocation made while the socket is
connected and `mHaveAllocation` is true, the engine reports
`onAllocationFailure` with `AlreadyAllocated` (to the handler, when one is
set), creates and sends no Allocate request, and leaves `mHaveAllocation`
true. -/
theorem doCreateAllocation_already_allocated (env : StunEnv) (decls : Decls)
    (lifetime bandwidth requestedPortProps requestedPort : Nat)
    (requestedTransportType : TransportType) (requestedIpAddress : String)
    (sock : TurnAsyncSocket)
    (hconn : sock.connected = true) (hhave : sock.mHaveAllocation = true) :
    doCreateAllocation env decls lifetime bandwidth requestedPortProps requestedPort
        requestedTransportType requestedIpAddress sock =
      callback
        { sock with
          mRequestedTransportType := requestedTransportType,
          mRelayTransportType :=
            if requestedTransportType ≠ TransportType.None then requestedTransportType
            else sock.mLocalBinding.mTransport }
        (Callback.onAllocationFailure ErrorCode.AlreadyAllocated) ∧
    (doCreateAllocation env decls lifetime bandwidth requestedPortProps requestedPort
        requestedTransportType requestedIpAddress sock).socketOps = sock.socketOps ∧
    (doCreateAllocation env decls lifetime bandwidth requestedPortProps requestedPort
        requestedTransportType requestedIpAddress sock).mActiveRequestMap =
      sock.mActiveRequestMap ∧
    (doCreateAllocation env decls lifetime bandwidth requestedPortProps requestedPort
        requestedTransportType requestedIpAddress sock).tidsDrawn = sock.tidsDrawn ∧
    (doCreateAllocation env decls lifetime bandwidth requestedPortProps requestedPort
        requestedTransportType requestedIpAddress sock).mHaveAllocation = true ∧
    (sock.mTurnAsyncSocketHandler = true →
      (doCreateAllocation env decls lifetime bandwidth requestedPortProps requestedPort
          requestedTransportType requestedIpAddress sock).callbacks =
        sock.callbacks ++ [Callback.onAllocationFailure ErrorCode.AlreadyAllocated]) := by
  have hres : doCreateAllocation env decls lifetime bandwidth requestedPortProps requestedPort
        requestedTransportType requestedIpAddress sock =
      callback
        { sock with
          mRequestedTransportType := requestedTransportType,
          mRelayTransportType :=
            if requestedTransportType ≠ TransportType.None then requestedTransportType
            else sock.mLocalBinding.mTransport }
        (Callback.onAllocationFailure ErrorCode.AlreadyAllocated) := by
    simp [doCreateAllocation, hconn, hhave]
  rw [hres]
  refine ⟨rfl, ?_, ?_, ?_, ?_, ?_⟩
  · rw [callback_socketOps]
  · rw [callback_mActiveRequestMap]
  · rw [callback_tidsDrawn]
  · rw [callback_mHaveAllocation]; exact hhave
  · intro hh
    rw [callback_callbacks _ _ (by simpa using hh)]

/-- The amended C17 at concrete values: the sample client, connected and
holding an allocation, asks for another one. -/
theorem doCreateAllocation_already_allocated_witness :
    doCreateAllocation sampleStunEnv sampleDecls 600 UnspecifiedBandwidth 0 0
        TransportType.None "0.0.0.0" { sampleUdpSocket with mHaveAllocation := true } =
      { sampleUdpSocket with
        mHaveAllocation := true,
        mRequestedTransportType := TransportType.None,
        mRelayTransportType := TransportType.UDP,
        callbacks := [Callback.onAllocationFailure ErrorCode.AlreadyAllocated] } :=
  (doCreateAllocation_already_allocated sampleStunEnv sampleDecls 600 UnspecifiedBandwidth 0 0
    TransportType.None "0.0.0.0" { sampleUdpSocket with mHaveAllocation := true } rfl rfl).1

end CreateAllocation

section AllocationLifecycle

/-- C19 (the code at the failing input). After a successful Allocate response
and after a successful Refresh response carrying a non-zero lifetime `L`, the
allocation timer is started with `((L * 5) mod 2 ^ 32) / 8` seconds, the
product being taken in 32-bit unsigned arithmetic; this is `5 * L / 8` when
`L * 5 < 2 ^ 32`, and less otherwise. -/
theorem allocation_timer_after_response (rsp : StunMessage) (sock : TurnAsyncSocket) (L : Nat)
    (hclass : rsp.mClass = StunClass.SuccessResponse)
    (hL : rsp.mTurnLifetime = some L) (hnz : L ≠ 0) :
    (handleAllocateResponse rsp sock).2.timerOps =
      sock.timerOps ++ [TimerOp.allocationStart ((L * 5) % 2 ^ 32 / 8)] ∧
    (∃ rest, (handleRefreshResponse rsp sock).2.timerOps =
      sock.timerOps ++ TimerOp.allocationStart ((L * 5) % 2 ^ 32 / 8) :: rest) ∧
    (L * 5 < 2 ^ 32 → (L * 5) % 2 ^ 32 / 8 = 5 * L / 8) ∧
    (2 ^ 32 ≤ L * 5 → (L * 5) % 2 ^ 32 / 8 < 5 * L / 8) := by
  refine ⟨?_, ?_, ?_, ?_⟩
  · simp [handleAllocateResponse, hclass, hL, hnz, startAllocationTimer, callback_timerOps]
  · by_cases hclose : sock.mCloseAfterDestroyAllocationFinishes = true
    · refine ⟨sock.mActiveRequestMap.map (fun e => TimerOp.requestStop e.1) ++
        [TimerOp.allocationCancel], ?_⟩
      simp [handleRefreshResponse, hclass, hL, hnz, startAllocationTimer, closeIfRequested,
        callback_mCloseAfter, hclose, actualClose, cancelAllocationTimer, clearActiveRequestMap,
        callback_timerOps, callback_mActiveRequestMap]
    · refine ⟨[], ?_⟩
      simp [handleRefreshResponse, hclass, hL, hnz, startAllocationTimer, closeIfRequested,
        callback_mCloseAfter, hclose, callback_timerOps]
  · intro hlt
    rw [Nat.mod_eq_of_lt hlt, Nat.mul_comm]
  · intro hge
    have h1 : (L * 5) % 2 ^ 32 < 2 ^ 32 := Nat.mod_lt _ (by norm_num)
    omega

/-- The failing input of C19 evaluated: a successful Allocate response with
lifetime 858993460 starts the allocation timer with 0 seconds, not with
`5 * 858993460 / 8 = 536870912`; with lifetime 600 it is started with 375. -/
theorem allocation_timer_after_response_witness :
    (handleAllocateResponse (sampleAllocateSuccess 7 858993460) sampleUdpSocket).2.timerOps =
      [TimerOp.allocationStart 0] ∧
    5 * 858993460 / 8 = 536870912 ∧
    (handleAllocateResponse (sampleAllocateSuccess 7 600) sampleUdpSocket).2.timerOps =
      [TimerOp.allocationStart 375] :=
  ⟨(allocation_timer_after_response (sampleAllocateSuccess 7 858993460) sampleUdpSocket
      858993460 rfl rfl (by decide)).1,
   by decide,
   (allocation_timer_after_response (sampleAllocateSuccess 7 600) sampleUdpSocket
      600 rfl rfl (by decide)).1⟩

/-- What `actualClose` leaves: no outstanding request, the timers of the
outstanding requests stopped and the allocation timer cancelled, the socket
closed, and `mHaveAllocation` as it was. -/
theorem actualClose_effect (s : TurnAsyncSocket) :
    (actualClose s).mActiveRequestMap = [] ∧
    (actualClose s).timerOps =
      s.timerOps ++ s.mActiveRequestMap.map (fun e => TimerOp.requestStop e.1) ++
        [TimerOp.allocationCancel] ∧
    (actualClose s).socketOps = s.socketOps ++ [SocketOp.close] ∧
    (actualClose s).mHaveAllocation = s.mHaveAllocation := by
  simp [actualClose, cancelAllocationTimer, clearActiveRequestMap]

/-- C20 (the code at the failing input). With
`mCloseAfterDestroyAllocationFinishes` set, the immediate `NoAllocation` failure
of refresh(0) and every Refresh response (success with or without lifetime,
error with or without error code) end in `actualClose` with `mHaveAllocation`
false; the timeout of the Refresh request does not: `requestTimeout` reaches
`erase(it)` after `actualClose` has cleared the map. With the flag not set, a
success response with zero or missing lifetime sets `mHaveAllocation` false and
cancels the allocation timer. -/
theorem refresh_completion_close_after_destroy (env : StunEnv) (decls : Decls)
    (sock : TurnAsyncSocket)
    (hclose : sock.mCloseAfterDestroyAllocationFinishes = true) :
    (sock.mHaveAllocation = false →
      ∃ s1, s1.mHaveAllocation = false ∧ s1.socketOps = sock.socketOps ∧
        doRefreshAllocation env decls 0 sock = actualClose s1) ∧
    (∀ rsp : StunMessage,
      ∃ s1, s1.mHaveAllocation = false ∧ s1.socketOps = sock.socketOps ∧
        (handleRefreshResponse rsp sock).2 = actualClose s1) ∧
    (∀ s1 : TurnAsyncSocket,
      (actualClose s1).mHaveAllocation = s1.mHaveAllocation ∧
      (actualClose s1).mActiveRequestMap = [] ∧
      (actualClose s1).socketOps = s1.socketOps ++ [SocketOp.close] ∧
      (actualClose s1).timerOps =
        s1.timerOps ++ s1.mActiveRequestMap.map (fun e => TimerOp.requestStop e.1) ++
          [TimerOp.allocationCancel]) ∧
    (∀ (tid : UInt128) (entry : RequestEntry) (request : StunMessage),
      RequestMap.find tid sock.mActiveRequestMap = some entry →
      entry.mRequestMessage = some request →
      request.mMethod = StunMethod.TurnRefresh →
      requestTimeout tid sock = .error Fault.invalidIterator) ∧
    (∀ (sock0 : TurnAsyncSocket) (rsp : StunMessage),
      sock0.mCloseAfterDestroyAllocationFinishes = false →
      rsp.mClass = StunClass.SuccessResponse →
      (rsp.mTurnLifetime = none ∨ rsp.mTurnLifetime = some 0) →
      (handleRefreshResponse rsp sock0).2.mHaveAllocation = false ∧
      (handleRefreshResponse rsp sock0).2.timerOps =
        sock0.timerOps ++ [TimerOp.allocationCancel]) := by
  refine ⟨?_, ?_, ?_, ?_, ?_⟩
  · intro hno
    refine ⟨{ callback sock (Callback.onRefreshFailure ErrorCode.NoAllocation) with
              mHaveAllocation := false }, rfl, ?_, ?_⟩
    · simp [callback_socketOps]
    · simp [doRefreshAllocation, hno, callback_mCloseAfter, hclose]
  · intro rsp
    by_cases hclass : rsp.mClass = StunClass.SuccessResponse
    · by_cases hlife : (match rsp.mTurnLifetime with
                        | some l => l
                        | none => 0) = 0
      · refine ⟨callback
            { cancelAllocationTimer
                { sock with mLifetime := match rsp.mTurnLifetime with
                                         | some l => l
                                         | none => 0 } with mHaveAllocation := false }
            (Callback.onRefreshSuccess 0), ?_, ?_, ?_⟩
        · rw [callback_mHaveAllocation]
        · rw [callback_socketOps]; rfl
        · simp [handleRefreshResponse, hclass, hlife, callback_mCloseAfter, hclose,
            cancelAllocationTimer]
      · refine ⟨{ callback
            (startAllocationTimer
              { sock with mLifetime := (match rsp.mTurnLifetime with
                                        | some l => l
                                        | none => 0),
                          mHaveAllocation := true })
            (Callback.onRefreshSuccess (match rsp.mTurnLifetime with
                                        | some l => l
                                        | none => 0)) with mHaveAllocation := false },
          rfl, ?_, ?_⟩
        · simp [callback_socketOps, startAllocationTimer]
        · simp [handleRefreshResponse, hclass, hlife, closeIfRequested, callback_mCloseAfter,
            hclose, startAllocationTimer]
    · cases hcode : rsp.mErrorCode with
      | none =>
        refine ⟨{ callback sock (Callback.onRefreshFailure ErrorCode.MissingAttributes) with
                  mHaveAllocation := false }, rfl, ?_, ?_⟩
        · simp [callback_socketOps]
        · simp [handleRefreshResponse, hclass, hcode, closeIfRequested, callback_mCloseAfter,
            hclose]
      | some ec =>
        refine ⟨{ callback sock (Callback.onRefreshFailure
                    (ErrorCode.Stun (ec.errorClass * 100 + ec.number))) with
                  mHaveAllocation := false }, rfl, ?_, ?_⟩
        · simp [callback_socketOps]
        · simp [handleRefreshResponse, hclass, hcode, closeIfRequested, callback_mCloseAfter,
            hclose]
  · intro s1
    obtain ⟨h1, h2, h3, h4⟩ := actualClose_effect s1
    exact ⟨h4, h1, h3, h2⟩
  · intro tid entry request hfind hreq hmeth
    simp [requestTimeout, hfind, hreq, hmeth, callback_mCloseAfter, hclose]
  · intro sock0 rsp hflag hclass hlife
    have hzero : (match rsp.mTurnLifetime with
                  | some l => l
                  | none => 0) = 0 := by
      rcases hlife with h | h <;> simp [h]
    constructor
    · simp [handleRefreshResponse, hclass, hzero, callback_mCloseAfter, hflag,
        callback_mHaveAllocation, cancelAllocationTimer]
    · simp [handleRefreshResponse, hclass, hzero, callback_mCloseAfter, hflag,
        callback_timerOps, cancelAllocationTimer]

/-- The failing input of C20 evaluated: the sample client is closing, its
Refresh request with lifetime 0 is outstanding under id 1000 and is never
answered; `requestTimeout` ends in the use of the invalidated iterator. -/
theorem refresh_completion_close_after_destroy_witness :
    requestTimeout 1000 sampleClosing = .error Fault.invalidIterator :=
  (refresh_completion_close_after_destroy sampleStunEnv sampleDecls sampleClosing rfl).2.2.2.1
    1000
    { mRequestMessage := some { sampleStunRequest StunMethod.TurnRefresh 1000 with
                                mTurnLifetime := some 0 },
      mRequestsSent := 1, mTimeout := 100 }
    { sampleStunRequest StunMethod.TurnRefresh 1000 with mTurnLifetime := some 0 }
    rfl rfl rfl

end AllocationLifecycle

/-! ### Peers and channels -/

section ChannelLemmas

theorem findIdx_append_new {α : Type} (p : α → Bool) (l : List α) (a : α)
    (h : ∀ x ∈ l, p x = false) (ha : p a = true) : (l ++ [a]).findIdx p = l.length := by
  rw [List.findIdx_append]
  have h1 : l.findIdx p = l.length := List.findIdx_eq_length.2 h
  simp [h1, List.findIdx_cons, ha]

theorem set_append_last {α : Type} (l : List α) (a b : α) :
    (l ++ [a]).set l.length b = l ++ [b] := by
  induction l with
  | nil => rfl
  | cons x xs ih => simp [List.set, ih]

theorem findIdx_set_self {α : Type} (p : α → Bool) (l : List α) (a : α)
    (hlt : l.findIdx p < l.length) (ha : p a = true) :
    (l.set (l.findIdx p) a).findIdx p = l.findIdx p := by
  induction l with
  | nil => simp at hlt
  | cons x xs ih =>
    by_cases hx : p x = true
    · simp [List.findIdx_cons, hx, ha]
    · have hx2 : p x = false := by simpa using hx
      have hlt2 : xs.findIdx p < xs.length := by
        simpa [List.findIdx_cons, hx2] using hlt
      simp [List.findIdx_cons, hx2, ih hlt2]

/-- A peer found by its address is a peer of the manager and has that address. -/
theorem ChannelManager.findRemotePeerByPeerAddress_some (cm : ChannelManager) (tuple : StunTuple)
    (i : Nat) (h : cm.findRemotePeerByPeerAddress tuple = some i) :
    ∃ p, cm.peers[i]? = some p ∧ p.mPeerTuple = tuple := by
  unfold ChannelManager.findRemotePeerByPeerAddress at h
  simp only at h
  split at h
  · next hlt =>
    injection h with h
    subst h
    refine ⟨cm.peers[cm.peers.findIdx (fun p => decide (p.mPeerTuple = tuple))], ?_, ?_⟩
    · exact List.getElem?_eq_getElem hlt
    · have := @List.findIdx_getElem _ (fun p => decide (p.mPeerTuple = tuple)) cm.peers hlt
      simpa using this
  · cases h

/-- When no peer is found by an address, no peer of the manager has it. -/
theorem ChannelManager.findRemotePeerByPeerAddress_none (cm : ChannelManager) (tuple : StunTuple)
    (h : cm.findRemotePeerByPeerAddress tuple = none) :
    ∀ p ∈ cm.peers, decide (p.mPeerTuple = tuple) = false := by
  unfold ChannelManager.findRemotePeerByPeerAddress at h
  simp only at h
  split at h
  · cases h
  · next hlt =>
    have hle := @List.findIdx_le_length _ (fun p => decide (p.mPeerTuple = tuple)) cm.peers
    exact List.findIdx_eq_length.1 (Nat.le_antisymm hle (Nat.le_of_not_lt hlt))

/-- Assigning to the members of a peer other than its address leaves it found
by that address. -/
theorem ChannelManager.findRemotePeerByPeerAddress_setPeer (cm : ChannelManager)
    (tuple : StunTuple) (peer : Nat) (p : RemotePeer)
    (hfind : cm.findRemotePeerByPeerAddress tuple = some peer) (hp : p.mPeerTuple = tuple) :
    (cm.setPeer peer p).findRemotePeerByPeerAddress tuple = some peer := by
  unfold ChannelManager.findRemotePeerByPeerAddress at hfind ⊢
  simp only at hfind ⊢
  split at hfind
  · next hlt =>
    injection hfind with hfind
    subst hfind
    simp only [ChannelManager.setPeer]
    rw [findIdx_set_self _ _ _ hlt (by simp [hp])]
    simp [hlt]
  · cases hfind

theorem ChannelManager.addRemotePeerServerToClientChannelLookup_peers (cm : ChannelManager)
    (peer : Nat) : (cm.addRemotePeerServerToClientChannelLookup peer).peers = cm.peers := by
  unfold ChannelManager.addRemotePeerServerToClientChannelLookup
  split <;> rfl

theorem ChannelManager.findRemotePeerByPeerAddress_congr (cm cm2 : ChannelManager)
    (tuple : StunTuple) (h : cm2.peers = cm.peers) :
    cm2.findRemotePeerByPeerAddress tuple = cm.findRemotePeerByPeerAddress tuple := by
  simp [ChannelManager.findRemotePeerByPeerAddress, h]

theorem callback_mChannelManager (sock : TurnAsyncSocket) (c : Callback) :
    (sock.callback c).mChannelManager = sock.mChannelManager := by
  unfold callback; split <;> rfl

theorem callback_mRelayTransportType (sock : TurnAsyncSocket) (c : Callback) :
    (sock.callback c).mRelayTransportType = sock.mRelayTransportType := by
  unfold callback; split <;> rfl

/-- An indication made by `createNewStunMessage` carries the class, the method
and the next id drawn, and nothing else. -/
theorem createNewStunMessage_indication (env : StunEnv) (method : StunMethod)
    (sock : TurnAsyncSocket) :
    createNewStunMessage env StunClass.Indication method false sock =
      ({ StunMessage.empty with mClass := StunClass.Indication, mMethod := method,
                                magicCookieAndTid := env.randomTid sock.tidsDrawn },
       { sock with tidsDrawn := sock.tidsDrawn + 1 }) := by
  simp [createNewStunMessage, createHeader]

/-- Towards a peer whose client-to-server channel is confirmed, `sendTo` hands
the payload to the socket framed on that channel, and does nothing else. -/
theorem sendTo_confirmed (env : StunEnv) (peer : Nat) (remotePeer : RemotePeer)
    (data : List Nat) (sock : TurnAsyncSocket)
    (h : remotePeer.mClientToServerChannelConfirmed = true) :
    sendTo env peer remotePeer data sock =
      { sock with socketOps := sock.socketOps ++
          [SocketOp.sendFramed (serverTuple sock) remotePeer.mClientToServerChannel data] } := by
  simp [sendTo, h, sendChannel, serverTuple]

/-- Towards a peer whose client-to-server channel is not confirmed, `sendTo`
hands the encoded Send indication to the socket, draws one id, and over a
transport other than UDP marks the channel confirmed. -/
theorem sendTo_unconfirmed (env : StunEnv) (peer : Nat) (remotePeer : RemotePeer)
    (data : List Nat) (sock : TurnAsyncSocket)
    (h : remotePeer.mClientToServerChannelConfirmed = false) :
    sendTo env peer remotePeer data sock =
      { sock with
        tidsDrawn := sock.tidsDrawn + 1,
        mChannelManager :=
          if sock.mLocalBinding.mTransport = TransportType.UDP then sock.mChannelManager
          else sock.mChannelManager.setPeer peer
                 { remotePeer with mClientToServerChannelConfirmed := true },
        socketOps := sock.socketOps ++
          [SocketOp.send (serverTuple sock)
            (encoded env sock (sendIndication env sock remotePeer data))] } := by
  simp only [sendTo, h, createNewStunMessage_indication, sendStunMessage, send, serverTuple,
    encoded, sendIndication, setStunAtrAddressFromTuple]
  by_cases hu : sock.mLocalBinding.mTransport = TransportType.UDP
  · by_cases hd : data.length > 0 <;> simp [hu, hd, StunMessage.empty]
  · by_cases hd : data.length > 0 <;> simp [hu, hd, StunMessage.empty]

/-- With an allocation and an active destination, `doSend` is `sendTo` towards
the peer the active destination points to. -/
theorem doSend_to_peer (env : StunEnv) (data : List Nat) (sock : TurnAsyncSocket) (peer : Nat)
    (remotePeer : RemotePeer) (hhave : sock.mHaveAllocation = true)
    (hactive : sock.mActiveDestination = some peer)
    (hpeer : sock.mChannelManager.peers[peer]? = some remotePeer) :
    doSend env data sock = .ok (sendTo env peer remotePeer data sock) := by
  simp [doSend, hhave, hactive, hpeer]

/-- For an address no peer has yet, `doSetActiveDestination` creates the peer
with the next channel number, neither channel confirmed, makes it the active
destination and reports success. -/
theorem doSetActiveDestination_new (address : String) (port : Nat) (sock : TurnAsyncSocket)
    (hnew : sock.mChannelManager.findRemotePeerByPeerAddress
      { mTransport := sock.mRelayTransportType, mAddress := address, mPort := port } = none) :
    doSetActiveDestination address port sock =
      callback
        { sock with
          mActiveDestination := some sock.mChannelManager.peers.length,
          mChannelManager :=
            { sock.mChannelManager with
              peers := sock.mChannelManager.peers ++
                [{ mPeerTuple := { mTransport := sock.mRelayTransportType, mAddress := address,
                                   mPort := port },
                   mClientToServerChannel := sock.mChannelManager.mNextChannelNumber,
                   mServerToClientChannel := 0,
                   mClientToServerChannelConfirmed := false,
                   mServerToClientChannelConfirmed := false }],
              mNextChannelNumber := sock.mChannelManager.mNextChannelNumber + 1 } }
        Callback.onSetActiveDestinationSuccess := by
  simp [doSetActiveDestination, hnew, ChannelManager.getNextChannelNumber,
    ChannelManager.createRemotePeer]

/-- What `handleDataInd` does with an indication it accepts: the
server-to-client channel is learned when it was not confirmed, over UDP the
ChannelConfirmation indication is handed to the socket, and the payload, when
there is one, goes to the handler. -/
theorem handleDataInd_accepted (env : StunEnv) (stunMessage : StunMessage)
    (sock : TurnAsyncSocket) (peerAddress : StunAtrAddress) (channelNumber peer : Nat)
    (remotePeer : RemotePeer)
    (haddr : stunMessage.mTurnPeerAddress = some peerAddress)
    (hch : stunMessage.mTurnChannelNumber = some channelNumber)
    (hfind : sock.mChannelManager.findRemotePeerByPeerAddress
      { mTransport := sock.mRelayTransportType, mAddress := peerAddress.addr,
        mPort := peerAddress.port } = some peer)
    (hpeer : sock.mChannelManager.peers[peer]? = some remotePeer)
    (hok : remotePeer.mServerToClientChannel = 0 ∨
      remotePeer.mServerToClientChannel = channelNumber) :
    handleDataInd env stunMessage sock =
      (ErrorCode.Success,
       let sock1 : TurnAsyncSocket :=
         if remotePeer.mServerToClientChannelConfirmed then sock
         else { sock with mChannelManager :=
                  (sock.mChannelManager.setPeer peer
                    { remotePeer with mServerToClientChannel := channelNumber,
                                      mServerToClientChannelConfirmed := true
                    }).addRemotePeerServerToClientChannelLookup peer }
       let sock2 : TurnAsyncSocket :=
         if sock.mLocalBinding.mTransport = TransportType.UDP then
           { sock1 with
             tidsDrawn := sock.tidsDrawn + 1,
             socketOps := sock.socketOps ++
               [SocketOp.send (serverTuple sock)
                 (encoded env sock
                   (channelConfirmationIndication env sock peerAddress channelNumber))] }
         else sock1
       match stunMessage.mTurnData with
       | some data =>
         sock2.callback (Callback.onReceiveSuccess peerAddress.addr peerAddress.port data)
       | none => sock2) := by
  have hcond : ¬ (remotePeer.mServerToClientChannel ≠ 0 ∧
      remotePeer.mServerToClientChannel ≠ channelNumber) := by
    rcases hok with h | h <;> simp [h]
  simp only [handleDataInd, haddr, hch, setTupleFromStunAtrAddress, StunTuple.unset, hfind,
    Option.bind, hpeer, hcond, if_false]
  cases hconf : remotePeer.mServerToClientChannelConfirmed <;>
    by_cases hudp : sock.mLocalBinding.mTransport = TransportType.UDP <;>
    cases hdata : stunMessage.mTurnData <;>
    simp [hudp, createNewStunMessage_indication, sendStunMessage, send, serverTuple,
      encoded, channelConfirmationIndication, StunMessage.empty]

/-- What `handleChannelConfirmation` does with an indication it accepts: the
client-to-server channel of the peer is marked confirmed, and nothing else
changes. -/
theorem handleChannelConfirmation_accepted (stunMessage : StunMessage) (sock : TurnAsyncSocket)
    (peerAddress : StunAtrAddress) (channelNumber peer : Nat) (remotePeer : RemotePeer)
    (haddr : stunMessage.mTurnPeerAddress = some peerAddress)
    (hch : stunMessage.mTurnChannelNumber = some channelNumber)
    (hfind : sock.mChannelManager.findRemotePeerByClientToServerChannel channelNumber = some peer)
    (hpeer : sock.mChannelManager.peers[peer]? = some remotePeer)
    (htuple : remotePeer.mPeerTuple =
      { mTransport := sock.mRelayTransportType, mAddress := peerAddress.addr,
        mPort := peerAddress.port }) :
    handleChannelConfirmation stunMessage sock =
      (ErrorCode.Success,
       { sock with mChannelManager :=
           (sock.mChannelManager.setPeer peer
             { remotePeer with mClientToServerChannelConfirmed := true }) }) := by
  simp [handleChannelConfirmation, haddr, hch, hfind, hpeer, htuple, setTupleFromStunAtrAddress,
    StunTuple.unset]

end ChannelLemmas

/-! ### Sending application data -/

section ApplicationData

/-- C21 (counterexample). The sample client has no allocation and is connected
to the server `10.0.0.2:3478`. `send_to("5.6.7.8", 9000, data)` hands the data
to the socket for `5.6.7.8:9000`, the address of the call, and not for the
connected server tuple. -/
theorem doSendTo_raw_goes_to_argument_address :
    doSendTo sampleStunEnv "5.6.7.8" 9000 [104, 105] sampleUdpSocket =
      .ok { sampleUdpSocket with socketOps :=
              [SocketOp.send { mTransport := TransportType.UDP, mAddress := "5.6.7.8",
                               mPort := 9000 } [104, 105]] } ∧
    serverTuple sampleUdpSocket = sampleServer TransportType.UDP ∧
    (sampleServer TransportType.UDP).mPort ≠ 9000 := by
  refine ⟨rfl, rfl, ?_⟩
  decide

/-- C21 (amended). When `mHaveAllocation` is false, `doSend` hands the data
unmodified to the socket for the connected server tuple, and `doSendTo` hands
the data unmodified to the socket for the address and port of the call over the
local transport; in both cases that is the only effect: no framing, no Send
indication, no peer created and no channel number taken. -/
theorem raw_send_without_allocation (env : StunEnv) (sock : TurnAsyncSocket)
    (address : String) (port : Nat) (data : List Nat) (hhave : sock.mHaveAllocation = false) :
    doSend env data sock = .ok
      { sock with socketOps := sock.socketOps ++ [SocketOp.send (serverTuple sock) data] } ∧
    doSendTo env address port data sock = .ok
      { sock with socketOps := sock.socketOps ++
          [SocketOp.send { mTransport := sock.mLocalBinding.mTransport, mAddress := address,
                           mPort := port } data] } := by
  constructor
  · -- `doSend`: the branch `if(!mHaveAllocation) { send(data); return; }`
    simp only [doSend, hhave, Bool.not_false, if_true, send, serverTuple]
  · -- `doSendTo`: the destination is built from the arguments of the call
    simp only [doSendTo, hhave, Bool.not_false, if_true]

/-- The amended C21 at concrete values: the sample client without allocation
sends two bytes with `send` and with `send_to`. -/
theorem raw_send_without_allocation_witness :
    doSend sampleStunEnv [104, 105] sampleUdpSocket = .ok
      { sampleUdpSocket with
        socketOps := [SocketOp.send (sampleServer TransportType.UDP) [104, 105]] } ∧
    doSendTo sampleStunEnv "5.6.7.8" 9000 [104, 105] sampleUdpSocket = .ok
      { sampleUdpSocket with
        socketOps := [SocketOp.send { mTransport := TransportType.UDP, mAddress := "5.6.7.8",
                                      mPort := 9000 } [104, 105]] } :=
  raw_send_without_allocation sampleStunEnv sampleUdpSocket "5.6.7.8" 9000 [104, 105] rfl

/-- C22. When `mHaveAllocation` is true, `doSendTo` looks up the peer for
(relay transport, address, port); when there is none it creates the peer with
the next channel number as client-to-server channel, neither channel
confirmed, and advances the counter. Then, if the peer's client-to-server
channel is confirmed, the only effect is one framed send of the payload on that
channel; otherwise the only send is the encoded Send indication, which carries
the peer's address and port, its client-to-server channel number and the
payload (the data attribute is set when the payload is not empty), no framed
send is made and nothing is registered in the request map. -/
theorem doSendTo_with_allocation (env : StunEnv) (sock : TurnAsyncSocket)
    (address : String) (port : Nat) (data : List Nat) (hhave : sock.mHaveAllocation = true) :
    ∃ peer remotePeer cm,
      (sock.mChannelManager.findRemotePeerByPeerAddress
          { mTransport := sock.mRelayTransportType, mAddress := address, mPort := port } =
            some peer ∧ cm = sock.mChannelManager ∨
       sock.mChannelManager.findRemotePeerByPeerAddress
          { mTransport := sock.mRelayTransportType, mAddress := address, mPort := port } = none ∧
         peer = sock.mChannelManager.peers.length ∧
         remotePeer =
           { mPeerTuple :=
               { mTransport := sock.mRelayTransportType, mAddress := address, mPort := port },
             mClientToServerChannel := sock.mChannelManager.mNextChannelNumber,
             mServerToClientChannel := 0,
             mClientToServerChannelConfirmed := false,
             mServerToClientChannelConfirmed := false } ∧
         cm = { sock.mChannelManager with
                peers := sock.mChannelManager.peers ++ [remotePeer],
                mNextChannelNumber := sock.mChannelManager.mNextChannelNumber + 1 }) ∧
      cm.peers[peer]? = some remotePeer ∧
      remotePeer.mPeerTuple =
        { mTransport := sock.mRelayTransportType, mAddress := address, mPort := port } ∧
      doSendTo env address port data sock = .ok
        (if remotePeer.mClientToServerChannelConfirmed then
          { sock with
            mChannelManager := cm,
            socketOps := sock.socketOps ++
              [SocketOp.sendFramed (serverTuple sock) remotePeer.mClientToServerChannel data] }
         else
          { sock with
            tidsDrawn := sock.tidsDrawn + 1,
            mChannelManager :=
              if sock.mLocalBinding.mTransport = TransportType.UDP then cm
              else cm.setPeer peer { remotePeer with mClientToServerChannelConfirmed := true },
            socketOps := sock.socketOps ++
              [SocketOp.send (serverTuple sock)
                (encoded env sock (sendIndication env sock remotePeer data))] }) := by
  cases hf : sock.mChannelManager.findRemotePeerByPeerAddress
      { mTransport := sock.mRelayTransportType, mAddress := address, mPort := port } with
  | some peer =>
    obtain ⟨p, hp, htuple⟩ := ChannelManager.findRemotePeerByPeerAddress_some _ _ _ hf
    refine ⟨peer, p, sock.mChannelManager, Or.inl ⟨rfl, rfl⟩, hp, htuple, ?_⟩
    simp only [doSendTo, hhave, hf, hp]
    by_cases hc : p.mClientToServerChannelConfirmed = true
    · simp [hc, sendTo_confirmed, hhave]
    · have hc2 : p.mClientToServerChannelConfirmed = false := by simpa using hc
      simp [hc2, sendTo_unconfirmed, hhave]
  | none =>
    refine ⟨sock.mChannelManager.peers.length, _, _, Or.inr ⟨rfl, rfl, rfl, rfl⟩, ?_, rfl, ?_⟩
    · simp
    · simp only [doSendTo, hhave, hf, ChannelManager.getNextChannelNumber,
        ChannelManager.createRemotePeer]
      simp [sendTo_unconfirmed, serverTuple, encoded, sendIndication, hhave]

/-- C22 at concrete values: the sample client holds an allocation and knows no
peer; `send_to("5.6.7.8", 9000, data)` creates the peer with channel 16384 and
hands one encoded Send indication to the socket. -/
theorem doSendTo_with_allocation_witness :
    ∃ s, doSendTo sampleStunEnv "5.6.7.8" 9000 [104, 105] sampleAllocated = .ok s ∧
      s.mChannelManager.peers = [samplePeer TransportType.UDP 0 false false] ∧
      s.mChannelManager.mNextChannelNumber = 16385 ∧
      s.socketOps =
        [SocketOp.send (sampleServer TransportType.UDP)
          (sampleStunEnv.stunEncodeMessage
            (sendIndication sampleStunEnv sampleAllocated
              (samplePeer TransportType.UDP 0 false false) [104, 105]))] ∧
      s.mActiveRequestMap = [] := by
  obtain ⟨peer, remotePeer, cm, hcase, -, -, hsend⟩ :=
    doSendTo_with_allocation sampleStunEnv sampleAllocated "5.6.7.8" 9000 [104, 105] rfl
  rcases hcase with ⟨hfound, -⟩ | ⟨-, hpeer, hremote, hcm⟩
  · cases hfound
  · subst hpeer hremote hcm
    exact ⟨_, hsend, rfl, rfl, rfl, rfl⟩

end ApplicationData

section ChannelConfirmation

/-- C23 (counterexample). The sample client holds an allocation over UDP.
`set_active_destination("5.6.7.8", 9000)` creates the peer with channel 16384
and the first `send` goes out as a Send indication. The Data indication of the
peer on channel 32768 is accepted: the server-to-client channel is learned and
confirmed, the ChannelConfirmation indication is sent and the payload is
delivered. The client-to-server channel is still unconfirmed, and the next
`send` goes out as a Send indication again: the socket has been handed three
unframed messages and no framed one. -/
theorem data_indication_leaves_send_unframed :
    ∃ s2 s3 s4,
      doSend sampleStunEnv [104, 105] (doSetActiveDestination "5.6.7.8" 9000 sampleAllocated) =
        .ok s2 ∧
      s2.mChannelManager.peers = [samplePeer TransportType.UDP 0 false false] ∧
      handleStunMessage sampleStunEnv (sampleDataInd 32768 [104, 105, 45, 98, 97, 99, 107]) s2 =
        .ok (ErrorCode.Success, s3) ∧
      s3.mChannelManager.peers = [samplePeer TransportType.UDP 32768 false true] ∧
      s3.callbacks = [Callback.onSetActiveDestinationSuccess,
        Callback.onReceiveSuccess "5.6.7.8" 9000 [104, 105, 45, 98, 97, 99, 107]] ∧
      doSend sampleStunEnv [98, 121, 101] s3 = .ok s4 ∧
      s4.socketOps =
        [SocketOp.send (sampleServer TransportType.UDP) (sampleStunEnv.stunEncodeMessage
           (sendIndication sampleStunEnv sampleAllocated
             (samplePeer TransportType.UDP 0 false false) [104, 105])),
         SocketOp.send (sampleServer TransportType.UDP) (sampleStunEnv.stunEncodeMessage
           (channelConfirmationIndication sampleStunEnv s2
             { addr := "5.6.7.8", port := 9000 } 32768)),
         SocketOp.send (sampleServer TransportType.UDP) (sampleStunEnv.stunEncodeMessage
           (sendIndication sampleStunEnv s3
             (samplePeer TransportType.UDP 32768 false true) [98, 121, 101]))] := by
  exact ⟨_, _, _, rfl, rfl, rfl, rfl, rfl, rfl, rfl⟩

/-- C23 (amended). Over UDP with an allocation (handler set):
`doSetActiveDestination` to a new peer creates it with the next channel number
`c`, and a first `doSend` hands a Send indication to the socket. A Data
indication from that peer is then accepted: the server-to-client channel is
learned and confirmed, the ChannelConfirmation indication is handed to the
socket and the payload goes to the handler. The next `doSend` is again a Send
indication on channel `c`, since the Data indication confirms the
server-to-client channel only. Once `handleChannelConfirmation` has accepted a
ChannelConfirmation indication for that peer and channel `c`, `doSend` hands
the payload to the socket framed on channel `c`. -/
theorem udp_channel_round_trip (env : StunEnv) (sock : TurnAsyncSocket) (address : String)
    (port ch : Nat) (first second third payload : List Nat)
    (dataInd confirmation : StunMessage)
    (hudp : sock.mLocalBinding.mTransport = TransportType.UDP)
    (hhave : sock.mHaveAllocation = true)
    (hhandler : sock.mTurnAsyncSocketHandler = true)
    (hnew : sock.mChannelManager.findRemotePeerByPeerAddress
      { mTransport := sock.mRelayTransportType, mAddress := address, mPort := port } = none)
    (hfresh : ∀ p ∈ sock.mChannelManager.peers,
      p.mClientToServerChannel ≠ sock.mChannelManager.mNextChannelNumber)
    (hpeer : dataInd.mTurnPeerAddress = some { addr := address, port := port })
    (hch : dataInd.mTurnChannelNumber = some ch)
    (hdata : dataInd.mTurnData = some payload)
    (hcpeer : confirmation.mTurnPeerAddress = some { addr := address, port := port })
    (hcch : confirmation.mTurnChannelNumber = some sock.mChannelManager.mNextChannelNumber) :
    ∃ s2 s3 s4 s5 s6 p0 p1,
      p0 = { mPeerTuple := { mTransport := sock.mRelayTransportType, mAddress := address,
                             mPort := port },
             mClientToServerChannel := sock.mChannelManager.mNextChannelNumber,
             mServerToClientChannel := 0,
             mClientToServerChannelConfirmed := false,
             mServerToClientChannelConfirmed := false } ∧
      p1 = { p0 with mServerToClientChannel := ch, mServerToClientChannelConfirmed := true } ∧
      doSend env first (doSetActiveDestination address port sock) = .ok s2 ∧
      s2.socketOps = sock.socketOps ++
        [SocketOp.send (serverTuple sock) (encoded env sock (sendIndication env sock p0 first))] ∧
      handleDataInd env dataInd s2 = (ErrorCode.Success, s3) ∧
      s3.mChannelManager.peers[sock.mChannelManager.peers.length]? = some p1 ∧
      s3.socketOps = s2.socketOps ++
        [SocketOp.send (serverTuple sock)
          (encoded env sock (channelConfirmationIndication env s2
            { addr := address, port := port } ch))] ∧
      s3.callbacks = s2.callbacks ++ [Callback.onReceiveSuccess address port payload] ∧
      doSend env second s3 = .ok s4 ∧
      s4.socketOps = s3.socketOps ++
        [SocketOp.send (serverTuple sock) (encoded env sock (sendIndication env s3 p1 second))] ∧
      handleChannelConfirmation confirmation s4 = (ErrorCode.Success, s5) ∧
      doSend env third s5 = .ok s6 ∧
      s6.socketOps = s4.socketOps ++
        [SocketOp.sendFramed (serverTuple sock) sock.mChannelManager.mNextChannelNumber third] := by
  have hnone := ChannelManager.findRemotePeerByPeerAddress_none _ _ hnew
  -- the peer created by `doSetActiveDestination`
  set p0 : RemotePeer :=
    { mPeerTuple := { mTransport := sock.mRelayTransportType, mAddress := address, mPort := port },
      mClientToServerChannel := sock.mChannelManager.mNextChannelNumber,
      mServerToClientChannel := 0,
      mClientToServerChannelConfirmed := false,
      mServerToClientChannelConfirmed := false } with hp0
  set n := sock.mChannelManager.peers.length with hn
  set s1 := doSetActiveDestination address port sock with hs1
  have e1 := doSetActiveDestination_new address port sock hnew
  rw [← hs1, ← hp0, ← hn] at e1
  have s1_peers : s1.mChannelManager.peers = sock.mChannelManager.peers ++ [p0] := by
    rw [e1]; simp [callback, hhandler]
  have s1_at : s1.mChannelManager.peers[n]? = some p0 := by
    rw [s1_peers, hn]; exact List.getElem?_concat_length _ _
  have s1_act : s1.mActiveDestination = some n := by rw [e1]; simp [callback, hhandler]
  have s1_have : s1.mHaveAllocation = true := by rw [e1]; simp [callback, hhandler, hhave]
  have s1_udp : s1.mLocalBinding.mTransport = TransportType.UDP := by
    rw [e1]; simp [callback, hhandler, hudp]
  have s1_ops : s1.socketOps = sock.socketOps := by rw [e1]; simp [callback, hhandler]
  have s1_tids : s1.tidsDrawn = sock.tidsDrawn := by rw [e1]; simp [callback, hhandler]
  have s1_framing : s1.mTurnFraming = sock.mTurnFraming := by rw [e1]; simp [callback, hhandler]
  have s1_server : serverTuple s1 = serverTuple sock := by
    rw [e1]; simp [callback, hhandler, serverTuple]
  have s1_relay : s1.mRelayTransportType = sock.mRelayTransportType := by
    rw [e1]; simp [callback, hhandler]
  have s1_handler : s1.mTurnAsyncSocketHandler = true := by
    rw [e1]; simp [callback, hhandler]
  -- the first send
  have e2 := doSend_to_peer env first s1 n p0 s1_have s1_act s1_at
  rw [sendTo_unconfirmed env n p0 first s1 rfl] at e2
  simp only [s1_udp, if_true] at e2
  obtain ⟨s2, hs2⟩ : ∃ s2 : TurnAsyncSocket, s2 =
      { s1 with
        tidsDrawn := s1.tidsDrawn + 1,
        mChannelManager := s1.mChannelManager,
        socketOps := s1.socketOps ++
          [SocketOp.send (serverTuple s1) (encoded env s1 (sendIndication env s1 p0 first))] } :=
    ⟨_, rfl⟩
  rw [← hs2] at e2
  have s2_at : s2.mChannelManager.peers[n]? = some p0 := by rw [hs2]; exact s1_at
  have s2_find : s2.mChannelManager.findRemotePeerByPeerAddress
      { mTransport := s2.mRelayTransportType, mAddress := address, mPort := port } = some n := by
    rw [hs2]
    simp only [ChannelManager.findRemotePeerByPeerAddress, s1_peers, s1_relay]
    rw [findIdx_append_new _ _ _ hnone (by simp [hp0])]
    simp [hn]
  have s2_act : s2.mActiveDestination = some n := by rw [hs2]; exact s1_act
  have s2_relay : s2.mRelayTransportType = sock.mRelayTransportType := by rw [hs2]; exact s1_relay
  have s2_have : s2.mHaveAllocation = true := by rw [hs2]; exact s1_have
  have s2_udp : s2.mLocalBinding.mTransport = TransportType.UDP := by rw [hs2]; exact s1_udp
  have s2_server : serverTuple s2 = serverTuple sock := by
    rw [← s1_server, hs2]; simp [serverTuple]
  have s2_framing : s2.mTurnFraming = sock.mTurnFraming := by rw [hs2]; exact s1_framing
  have s2_handler : s2.mTurnAsyncSocketHandler = true := by rw [hs2]; exact s1_handler
  have s2_peers : s2.mChannelManager.peers = sock.mChannelManager.peers ++ [p0] := by
    rw [hs2]; exact s1_peers
  have s2_ops : s2.socketOps = sock.socketOps ++
      [SocketOp.send (serverTuple sock) (encoded env sock (sendIndication env sock p0 first))] := by
    rw [hs2]
    simp [s1_ops, s1_server, encoded, s1_framing, sendIndication, s1_tids]
  -- the data indication
  have e3 := handleDataInd_accepted env dataInd s2 { addr := address, port := port } ch n p0
    hpeer hch s2_find s2_at (Or.inl rfl)
  have p0_s2c : p0.mServerToClientChannelConfirmed = false := rfl
  simp only [hdata, s2_udp, if_true, p0_s2c, Bool.false_eq_true, if_false] at e3
  obtain ⟨p1, hp1⟩ : ∃ p1 : RemotePeer, p1 =
      { p0 with mServerToClientChannel := ch, mServerToClientChannelConfirmed := true } :=
    ⟨_, rfl⟩
  rw [← hp1] at e3
  obtain ⟨s3, hs3⟩ : ∃ s3 : TurnAsyncSocket, s3 =
      callback
        { s2 with
          mChannelManager :=
            (s2.mChannelManager.setPeer n p1).addRemotePeerServerToClientChannelLookup n,
          tidsDrawn := s2.tidsDrawn + 1,
          socketOps := s2.socketOps ++
            [SocketOp.send (serverTuple s2)
              (encoded env s2
                (channelConfirmationIndication env s2 { addr := address, port := port } ch))] }
        (Callback.onReceiveSuccess address port payload) := ⟨_, rfl⟩
  rw [← hs3] at e3
  have s3_peers : s3.mChannelManager.peers = sock.mChannelManager.peers ++ [p1] := by
    rw [hs3]
    simp only [callback, s2_handler, if_true,
      ChannelManager.addRemotePeerServerToClientChannelLookup,
      ChannelManager.setPeer, s2_peers, hn, set_append_last]
    simp
  have s3_at : s3.mChannelManager.peers[n]? = some p1 := by
    rw [s3_peers, hn]; exact List.getElem?_concat_length _ _
  have s3_act : s3.mActiveDestination = some n := by
    rw [hs3]; simp [callback, s2_handler, s2_act]
  have s3_have : s3.mHaveAllocation = true := by
    rw [hs3]; simp [callback, s2_handler, s2_have]
  have s3_udp : s3.mLocalBinding.mTransport = TransportType.UDP := by
    rw [hs3]; simp [callback, s2_handler, s2_udp]
  have s3_server : serverTuple s3 = serverTuple sock := by
    rw [← s2_server, hs3]; simp [callback, s2_handler, serverTuple]
  have s3_framing : s3.mTurnFraming = sock.mTurnFraming := by
    rw [hs3]; simp [callback, s2_handler, s2_framing]
  have s3_relay : s3.mRelayTransportType = sock.mRelayTransportType := by
    rw [hs3]; simp [callback, s2_handler, s2_relay]
  have s3_ops : s3.socketOps = s2.socketOps ++
      [SocketOp.send (serverTuple sock)
        (encoded env sock
          (channelConfirmationIndication env s2 { addr := address, port := port } ch))] := by
    rw [hs3]; simp [callback, s2_handler, s2_server, encoded, s2_framing]
  have s3_callbacks : s3.callbacks =
      s2.callbacks ++ [Callback.onReceiveSuccess address port payload] := by
    rw [hs3]; simp [callback, s2_handler]
  have p1_c2s : p1.mClientToServerChannelConfirmed = false := by rw [hp1]
  have p1_tuple : p1.mPeerTuple =
      { mTransport := sock.mRelayTransportType, mAddress := address, mPort := port } := by
    rw [hp1]
  have p1_channel : p1.mClientToServerChannel = sock.mChannelManager.mNextChannelNumber := by
    rw [hp1]
  -- the second send
  have e4 := doSend_to_peer env second s3 n p1 s3_have s3_act s3_at
  rw [sendTo_unconfirmed env n p1 second s3 p1_c2s] at e4
  simp only [s3_udp, if_true] at e4
  obtain ⟨s4, hs4⟩ : ∃ s4 : TurnAsyncSocket, s4 =
      { s3 with
        tidsDrawn := s3.tidsDrawn + 1,
        mChannelManager := s3.mChannelManager,
        socketOps := s3.socketOps ++
          [SocketOp.send (serverTuple s3) (encoded env s3 (sendIndication env s3 p1 second))] } :=
    ⟨_, rfl⟩
  rw [← hs4] at e4
  have s4_peers : s4.mChannelManager.peers = sock.mChannelManager.peers ++ [p1] := by
    rw [hs4]; exact s3_peers
  have s4_at : s4.mChannelManager.peers[n]? = some p1 := by rw [hs4]; exact s3_at
  have s4_act : s4.mActiveDestination = some n := by rw [hs4]; exact s3_act
  have s4_have : s4.mHaveAllocation = true := by rw [hs4]; exact s3_have
  have s4_relay : s4.mRelayTransportType = sock.mRelayTransportType := by rw [hs4]; exact s3_relay
  have s4_server : serverTuple s4 = serverTuple sock := by
    rw [← s3_server, hs4]; simp [serverTuple]
  have s4_ops : s4.socketOps = s3.socketOps ++
      [SocketOp.send (serverTuple sock) (encoded env sock (sendIndication env s3 p1 second))] := by
    rw [hs4]; simp [s3_server, encoded, s3_framing]
  have s4_find : s4.mChannelManager.findRemotePeerByClientToServerChannel
      sock.mChannelManager.mNextChannelNumber = some n := by
    simp only [ChannelManager.findRemotePeerByClientToServerChannel, s4_peers]
    rw [findIdx_append_new _ _ _ (by simpa using hfresh) (by simp [p1_channel])]
    simp [hn]
  -- the channel confirmation
  have e5 := handleChannelConfirmation_accepted confirmation s4 { addr := address, port := port }
    sock.mChannelManager.mNextChannelNumber n p1 hcpeer hcch s4_find s4_at
    (by rw [p1_tuple, s4_relay])
  obtain ⟨s5, hs5⟩ : ∃ s5 : TurnAsyncSocket, s5 =
      { s4 with mChannelManager :=
          (s4.mChannelManager.setPeer n { p1 with mClientToServerChannelConfirmed := true }) } :=
    ⟨_, rfl⟩
  rw [← hs5] at e5
  have s5_at : s5.mChannelManager.peers[n]? =
      some { p1 with mClientToServerChannelConfirmed := true } := by
    rw [hs5]
    simp only [ChannelManager.setPeer, s4_peers, hn, set_append_last]
    exact List.getElem?_concat_length _ _
  have s5_act : s5.mActiveDestination = some n := by rw [hs5]; exact s4_act
  have s5_have : s5.mHaveAllocation = true := by rw [hs5]; exact s4_have
  have s5_server : serverTuple s5 = serverTuple sock := by
    rw [← s4_server, hs5]; simp [serverTuple]
  have s5_ops : s5.socketOps = s4.socketOps := by rw [hs5]
  -- the third send
  have e6 := doSend_to_peer env third s5 n _ s5_have s5_act s5_at
  rw [sendTo_confirmed env n _ third s5 rfl] at e6
  refine ⟨s2, s3, s4, s5, _, p0, p1, rfl, hp1, e2, s2_ops, e3, s3_at, s3_ops, s3_callbacks, e4,
    s4_ops, e5, e6, ?_⟩
  simp [s5_ops, s5_server, p1_channel]

/-- The amended C23 at concrete values: the sample client holding an
allocation, the peer `5.6.7.8:9000`, the Data indication on channel 32768 and
the ChannelConfirmation indication for channel 16384; the third payload is the
first that goes out framed. -/
theorem udp_channel_round_trip_witness :
    ∃ s2 s3 s4 s5 s6,
      doSend sampleStunEnv [104, 105] (doSetActiveDestination "5.6.7.8" 9000 sampleAllocated) =
        .ok s2 ∧
      handleDataInd sampleStunEnv (sampleDataInd 32768 [104, 105, 45, 98, 97, 99, 107]) s2 =
        (ErrorCode.Success, s3) ∧
      doSend sampleStunEnv [98, 121, 101] s3 = .ok s4 ∧
      handleChannelConfirmation (sampleChannelConfirmation 16384) s4 = (ErrorCode.Success, s5) ∧
      doSend sampleStunEnv [109, 111, 114, 101] s5 = .ok s6 ∧
      s6.socketOps = s4.socketOps ++
        [SocketOp.sendFramed (sampleServer TransportType.UDP) 16384 [109, 111, 114, 101]] := by
  obtain ⟨s2, s3, s4, s5, s6, -, -, -, -, h2, -, h3, -, -, -, h4, -, h5, h6, hops⟩ :=
    udp_channel_round_trip sampleStunEnv sampleAllocated "5.6.7.8" 9000 32768
      [104, 105] [98, 121, 101] [109, 111, 114, 101] [104, 105, 45, 98, 97, 99, 107]
      (sampleDataInd 32768 [104, 105, 45, 98, 97, 99, 107]) (sampleChannelConfirmation 16384)
      rfl rfl rfl rfl (fun p hp => absurd hp (List.not_mem_nil p)) rfl rfl rfl rfl rfl
  exact ⟨s2, s3, s4, s5, s6, h2, h3, h4, h5, h6, hops⟩

end ChannelConfirmation

section DataIndication

/-- C24 (counterexample). The sample client holds an allocation and knows the
peer `5.6.7.8:9000`. A first Data indication of that peer with channel number
0 is accepted: the server-to-client channel of the peer is 0 and confirmed. A
second Data indication of that peer with channel number 5, which differs from
the learned one, is accepted as well: the payload is delivered, a
ChannelConfirmation indication is sent, and the error is not
`InvalidChannelNumberReceived`. -/
theorem data_indication_after_channel_zero_accepted :
    ∃ s1 s2,
      handleDataInd sampleStunEnv (sampleDataInd 0 [1])
          (doSetActiveDestination "5.6.7.8" 9000 sampleAllocated) = (ErrorCode.Success, s1) ∧
      s1.mChannelManager.peers = [samplePeer TransportType.UDP 0 false true] ∧
      handleDataInd sampleStunEnv (sampleDataInd 5 [2]) s1 = (ErrorCode.Success, s2) ∧
      s2.callbacks = s1.callbacks ++ [Callback.onReceiveSuccess "5.6.7.8" 9000 [2]] ∧
      s2.socketOps = s1.socketOps ++
        [SocketOp.send (sampleServer TransportType.UDP) (sampleStunEnv.stunEncodeMessage
          (channelConfirmationIndication sampleStunEnv s1 { addr := "5.6.7.8", port := 9000 } 5))] := by
  exact ⟨_, _, rfl, rfl, rfl, rfl, rfl⟩

/-- C24 (amended). For a known peer whose server-to-client channel is not yet
known, the first Data indication is accepted, sets the peer's server-to-client
channel to the channel number of the indication and marks it confirmed, and
the peer stays known under its address. When that channel number is not 0,
every Data indication for that peer whose channel number differs from the
learned one, in whatever later state the peer has the learned channel, returns
`InvalidChannelNumberReceived` and leaves the state as it was: no data is
delivered, no ChannelConfirmation is sent and the peer is unchanged. -/
theorem handleDataInd_learns_channel (env : StunEnv) (sock : TurnAsyncSocket)
    (dataInd : StunMessage) (peerAddress : StunAtrAddress) (ch peer : Nat)
    (remotePeer : RemotePeer)
    (haddr : dataInd.mTurnPeerAddress = some peerAddress)
    (hch : dataInd.mTurnChannelNumber = some ch)
    (hfind : sock.mChannelManager.findRemotePeerByPeerAddress
      { mTransport := sock.mRelayTransportType, mAddress := peerAddress.addr,
        mPort := peerAddress.port } = some peer)
    (hpeer : sock.mChannelManager.peers[peer]? = some remotePeer)
    (hzero : remotePeer.mServerToClientChannel = 0)
    (hunconfirmed : remotePeer.mServerToClientChannelConfirmed = false) :
    (∃ s1, handleDataInd env dataInd sock = (ErrorCode.Success, s1) ∧
      s1.mChannelManager.findRemotePeerByPeerAddress
        { mTransport := s1.mRelayTransportType, mAddress := peerAddress.addr,
          mPort := peerAddress.port } = some peer ∧
      s1.mChannelManager.peers[peer]? =
        some { remotePeer with mServerToClientChannel := ch,
                               mServerToClientChannelConfirmed := true }) ∧
    (ch ≠ 0 → ∀ (later : TurnAsyncSocket) (learned : RemotePeer) (second : StunMessage)
        (other : Nat),
      later.mChannelManager.findRemotePeerByPeerAddress
        { mTransport := later.mRelayTransportType, mAddress := peerAddress.addr,
          mPort := peerAddress.port } = some peer →
      later.mChannelManager.peers[peer]? = some learned →
      learned.mServerToClientChannel = ch →
      second.mTurnPeerAddress = some peerAddress →
      second.mTurnChannelNumber = some other →
      other ≠ ch →
      handleDataInd env second later = (ErrorCode.InvalidChannelNumberReceived, later)) := by
  constructor
  · have e := handleDataInd_accepted env dataInd sock peerAddress ch peer remotePeer haddr hch
      hfind hpeer (Or.inl hzero)
    simp only [hunconfirmed, Bool.false_eq_true, if_false] at e
    have hlen : peer < sock.mChannelManager.peers.length := by
      by_contra hge
      rw [List.getElem?_eq_none (Nat.le_of_not_lt hge)] at hpeer
      cases hpeer
    refine ⟨_, e, ?_, ?_⟩
    · have hkey : ((sock.mChannelManager.setPeer peer
            { remotePeer with mServerToClientChannel := ch,
                              mServerToClientChannelConfirmed := true
            }).addRemotePeerServerToClientChannelLookup peer).findRemotePeerByPeerAddress
          { mTransport := sock.mRelayTransportType, mAddress := peerAddress.addr,
            mPort := peerAddress.port } = some peer := by
        rw [ChannelManager.findRemotePeerByPeerAddress_congr _ _ _
          (ChannelManager.addRemotePeerServerToClientChannelLookup_peers _ _)]
        obtain ⟨p, hp, htuple⟩ := ChannelManager.findRemotePeerByPeerAddress_some _ _ _ hfind
        rw [hpeer] at hp
        injection hp with hp
        subst hp
        exact ChannelManager.findRemotePeerByPeerAddress_setPeer _ _ _ _ hfind htuple
      by_cases hudp : sock.mLocalBinding.mTransport = TransportType.UDP <;>
        cases hdata : dataInd.mTurnData <;>
        simp [hudp, callback_mChannelManager, callback_mRelayTransportType, hkey]
    · by_cases hudp : sock.mLocalBinding.mTransport = TransportType.UDP <;>
        cases hdata : dataInd.mTurnData <;>
        simp [hudp, callback_mChannelManager,
          ChannelManager.addRemotePeerServerToClientChannelLookup_peers,
          ChannelManager.setPeer, hlen]
  · intro hne later learned second other hfind2 hpeer2 hlearned haddr2 hch2 hother
    simp only [handleDataInd, haddr2, hch2, setTupleFromStunAtrAddress, StunTuple.unset, hfind2,
      Option.bind, hpeer2, hlearned]
    simp [hne, Ne.symm hother]

/-- The amended C24 at concrete values: the sample client learns channel 32768
from the first Data indication of the peer `5.6.7.8:9000`, and a Data
indication of that peer with channel number 5 is then rejected. -/
theorem handleDataInd_learns_channel_witness :
    ∃ s1,
      handleDataInd sampleStunEnv (sampleDataInd 32768 [1])
          (doSetActiveDestination "5.6.7.8" 9000 sampleAllocated) = (ErrorCode.Success, s1) ∧
      s1.mChannelManager.peers[0]? = some (samplePeer TransportType.UDP 32768 false true) ∧
      handleDataInd sampleStunEnv (sampleDataInd 5 [2]) s1 =
        (ErrorCode.InvalidChannelNumberReceived, s1) := by
  have h := handleDataInd_learns_channel sampleStunEnv
    (doSetActiveDestination "5.6.7.8" 9000 sampleAllocated) (sampleDataInd 32768 [1])
    { addr := "5.6.7.8", port := 9000 } 32768 0 (samplePeer TransportType.UDP 0 false false)
    rfl rfl rfl rfl rfl rfl
  obtain ⟨⟨s1, h1, hfind, hpeer⟩, hlater⟩ := h
  exact ⟨s1, h1, hpeer,
    hlater (by decide) s1 _ (sampleDataInd 5 [2]) 5 hfind hpeer rfl rfl rfl (by decide)⟩

/-- C25. A Data indication that `handleDataInd` accepts from a known peer (the
first one in particular) has these effects on the socket over a UDP local
transport: exactly one message is handed to the socket, the encoded
ChannelConfirmation indication, whose peer-address and channel-number
attributes are those of the Data indication; the request map and the request
timers are unchanged, so the indication is not registered. Over any other
local transport (TCP, TLS) nothing is handed to the socket. -/
theorem handleDataInd_channel_confirmation (env : StunEnv) (sock : TurnAsyncSocket)
    (dataInd : StunMessage) (peerAddress : StunAtrAddress) (ch peer : Nat)
    (remotePeer : RemotePeer)
    (haddr : dataInd.mTurnPeerAddress = some peerAddress)
    (hch : dataInd.mTurnChannelNumber = some ch)
    (hfind : sock.mChannelManager.findRemotePeerByPeerAddress
      { mTransport := sock.mRelayTransportType, mAddress := peerAddress.addr,
        mPort := peerAddress.port } = some peer)
    (hpeer : sock.mChannelManager.peers[peer]? = some remotePeer)
    (hok : remotePeer.mServerToClientChannel = 0 ∨ remotePeer.mServerToClientChannel = ch) :
    ∃ s1, handleDataInd env dataInd sock = (ErrorCode.Success, s1) ∧
      s1.mActiveRequestMap = sock.mActiveRequestMap ∧
      s1.timerOps = sock.timerOps ∧
      (sock.mLocalBinding.mTransport = TransportType.UDP →
        s1.socketOps = sock.socketOps ++
          [SocketOp.send (serverTuple sock)
            (encoded env sock (channelConfirmationIndication env sock peerAddress ch))] ∧
        (channelConfirmationIndication env sock peerAddress ch).mClass = StunClass.Indication ∧
        (channelConfirmationIndication env sock peerAddress ch).mMethod =
          StunMethod.TurnChannelConfirmation ∧
        (channelConfirmationIndication env sock peerAddress ch).mTurnPeerAddress =
          dataInd.mTurnPeerAddress ∧
        (channelConfirmationIndication env sock peerAddress ch).mTurnChannelNumber =
          dataInd.mTurnChannelNumber) ∧
      (sock.mLocalBinding.mTransport ≠ TransportType.UDP → s1.socketOps = sock.socketOps) := by
  have e := handleDataInd_accepted env dataInd sock peerAddress ch peer remotePeer haddr hch
    hfind hpeer hok
  refine ⟨_, e, ?_, ?_, ?_, ?_⟩
  · cases hconf : remotePeer.mServerToClientChannelConfirmed <;>
      by_cases hudp : sock.mLocalBinding.mTransport = TransportType.UDP <;>
      cases hdata : dataInd.mTurnData <;>
      simp [hudp, callback_mActiveRequestMap]
  · cases hconf : remotePeer.mServerToClientChannelConfirmed <;>
      by_cases hudp : sock.mLocalBinding.mTransport = TransportType.UDP <;>
      cases hdata : dataInd.mTurnData <;>
      simp [hudp, callback_timerOps]
  · intro hudp
    refine ⟨?_, rfl, rfl, haddr.symm, hch.symm⟩
    cases hconf : remotePeer.mServerToClientChannelConfirmed <;>
      cases hdata : dataInd.mTurnData <;>
      simp [hudp, callback_socketOps]
  · intro hudp
    cases hconf : remotePeer.mServerToClientChannelConfirmed <;>
      cases hdata : dataInd.mTurnData <;>
      simp [hudp, callback_socketOps]

/-- C25 at concrete values: the sample client over UDP, which knows the peer
`5.6.7.8:9000`, accepts its first Data indication. -/
theorem handleDataInd_channel_confirmation_witness :
    ∃ s1,
      handleDataInd sampleStunEnv (sampleDataInd 32768 [1])
          (doSetActiveDestination "5.6.7.8" 9000 sampleAllocated) = (ErrorCode.Success, s1) ∧
      s1.mActiveRequestMap = [] ∧
      s1.socketOps =
        [SocketOp.send (sampleServer TransportType.UDP)
          (sampleStunEnv.stunEncodeMessage
            (channelConfirmationIndication sampleStunEnv sampleAllocated
              { addr := "5.6.7.8", port := 9000 } 32768))] := by
  obtain ⟨s1, h1, hmap, -, hudp, -⟩ := handleDataInd_channel_confirmation sampleStunEnv
    (doSetActiveDestination "5.6.7.8" 9000 sampleAllocated) (sampleDataInd 32768 [1])
    { addr := "5.6.7.8", port := 9000 } 32768 0 (samplePeer TransportType.UDP 0 false false)
    rfl rfl rfl rfl (Or.inl rfl)
  exact ⟨s1, h1, hmap, (hudp rfl).1⟩

end DataIndication

section SendConfirmation

/-- C26. With an allocation, towards a known peer: over a local transport
other than UDP (TCP, TLS) the first send to the peer while its client-to-server
channel is unconfirmed hands one encoded Send indication to the socket and
marks the channel confirmed, and in every later state with that channel
manager a send to the peer is one framed send on its client-to-server channel.
Over UDP `sendTo` never changes the channel manager, whatever the peer's
confirmation state, and so neither does `doSendTo` towards a known peer. -/
theorem send_confirms_channel_unless_udp (env : StunEnv) (sock : TurnAsyncSocket)
    (address : String) (port : Nat) (first : List Nat) (peer : Nat) (remotePeer : RemotePeer)
    (hhave : sock.mHaveAllocation = true)
    (hfind : sock.mChannelManager.findRemotePeerByPeerAddress
      { mTransport := sock.mRelayTransportType, mAddress := address, mPort := port } = some peer)
    (hpeer : sock.mChannelManager.peers[peer]? = some remotePeer) :
    (sock.mLocalBinding.mTransport ≠ TransportType.UDP →
      remotePeer.mClientToServerChannelConfirmed = false →
      ∃ s1, doSendTo env address port first sock = .ok s1 ∧
        s1.socketOps = sock.socketOps ++
          [SocketOp.send (serverTuple sock)
            (encoded env sock (sendIndication env sock remotePeer first))] ∧
        s1.mChannelManager.peers[peer]? =
          some { remotePeer with mClientToServerChannelConfirmed := true } ∧
        ∀ (later : TurnAsyncSocket) (data : List Nat),
          later.mHaveAllocation = true →
          later.mRelayTransportType = sock.mRelayTransportType →
          later.mChannelManager = s1.mChannelManager →
          doSendTo env address port data later = .ok
            { later with socketOps := later.socketOps ++
                [SocketOp.sendFramed (serverTuple later)
                  remotePeer.mClientToServerChannel data] }) ∧
    (sock.mLocalBinding.mTransport = TransportType.UDP →
      (∀ (i : Nat) (p : RemotePeer) (data : List Nat),
        (sendTo env i p data sock).mChannelManager = sock.mChannelManager) ∧
      ∃ s1, doSendTo env address port first sock = .ok s1 ∧
        s1.mChannelManager = sock.mChannelManager) := by
  have hlen : peer < sock.mChannelManager.peers.length := by
    by_contra hge
    rw [List.getElem?_eq_none (Nat.le_of_not_lt hge)] at hpeer
    cases hpeer
  obtain ⟨p, hp, htuple⟩ := ChannelManager.findRemotePeerByPeerAddress_some _ _ _ hfind
  rw [hpeer] at hp
  injection hp with hp
  subst hp
  constructor
  · intro hnotudp hunconfirmed
    have e1 : doSendTo env address port first sock =
        .ok (sendTo env peer remotePeer first sock) := by
      simp [doSendTo, hhave, hfind, hpeer]
    rw [sendTo_unconfirmed env peer remotePeer first sock hunconfirmed] at e1
    simp only [hnotudp, if_false] at e1
    refine ⟨_, e1, rfl, ?_, ?_⟩
    · simp [ChannelManager.setPeer, hlen]
    · intro later data hhave2 hrelay hcm
      have hfind2 : later.mChannelManager.findRemotePeerByPeerAddress
          { mTransport := later.mRelayTransportType, mAddress := address, mPort := port } =
            some peer := by
        rw [hcm, hrelay]
        exact ChannelManager.findRemotePeerByPeerAddress_setPeer _ _ _ _ hfind htuple
      have hpeer2 : later.mChannelManager.peers[peer]? =
          some { remotePeer with mClientToServerChannelConfirmed := true } := by
        rw [hcm]; simp [ChannelManager.setPeer, hlen]
      simp [doSendTo, hhave2, hfind2, hpeer2, sendTo_confirmed]
  · intro hudp
    have hsend : ∀ (i : Nat) (p : RemotePeer) (data : List Nat),
        (sendTo env i p data sock).mChannelManager = sock.mChannelManager := by
      intro i p data
      cases hc : p.mClientToServerChannelConfirmed
      · rw [sendTo_unconfirmed env i p data sock hc]; simp [hudp]
      · rw [sendTo_confirmed env i p data sock hc]
    refine ⟨hsend, sendTo env peer remotePeer first sock, ?_, hsend _ _ _⟩
    simp [doSendTo, hhave, hfind, hpeer]

/-- C26 at concrete values: the sample client over TCP, which holds an
allocation and knows the peer `5.6.7.8:9000`, sends to it twice; the second
payload goes out framed on channel 16384. -/
theorem send_confirms_channel_unless_udp_witness :
    ∃ s0 s1 s2,
      s0 = doSetActiveDestination "5.6.7.8" 9000 sampleTcpAllocated ∧
      doSendTo sampleStunEnv "5.6.7.8" 9000 [104, 105] s0 = .ok s1 ∧
      s1.mChannelManager.peers[0]? = some (samplePeer TransportType.TCP 0 true false) ∧
      doSendTo sampleStunEnv "5.6.7.8" 9000 [98, 121, 101] s1 = .ok s2 ∧
      s2.socketOps = s1.socketOps ++
        [SocketOp.sendFramed (sampleServer TransportType.TCP) 16384 [98, 121, 101]] := by
  obtain ⟨s1, h1, -, hpeer, hlater⟩ :=
    (send_confirms_channel_unless_udp sampleStunEnv
      (doSetActiveDestination "5.6.7.8" 9000 sampleTcpAllocated) "5.6.7.8" 9000 [104, 105] 0
      (samplePeer TransportType.TCP 0 false false) rfl rfl rfl).1 (by decide) rfl
  have h1copy := h1
  injection h1copy with hs1
  have h2 := hlater s1 [98, 121, 101] (by rw [← hs1]; rfl) (by rw [← hs1]; rfl) rfl
  exact ⟨_, s1, _, rfl, h1, hpeer, h2, by rw [← hs1]; rfl⟩

end SendConfirmation

section ReceivedData

/-- C27. With TURN framing enabled, for a received buffer of more than 4
bytes the channel number is `256 * b0 + b1`, the first two bytes in network
order. Channel 0: the STUN message made of exactly the bytes from the fifth on
goes to `handleStunMessage`, and the socket is left as that call leaves it. A
non-zero channel by which the channel manager finds a peer (its
server-to-client channel): exactly the bytes from the fifth on go to
`onReceiveSuccess` with the address and port of that peer, and nothing else
happens. A non-zero channel by which no peer is found: nothing happens. A
buffer of at most 4 bytes: `onReceiveFailure` with `FrameError`, and nothing
else happens. -/
theorem handleReceivedData_framed (env : StunEnv)
    (stunMessageOf : StunTuple → StunTuple → List Nat → StunMessage)
    (address : String) (port : Nat) (sock : TurnAsyncSocket)
    (hframing : sock.mTurnFraming = true) :
    (∀ (b0 b1 b2 b3 : Nat) (payload : List Nat), b0 < 256 → b1 < 256 → payload ≠ [] →
      (256 * b0 + b1 = 0 →
        handleReceivedData env stunMessageOf address port (b0 :: b1 :: b2 :: b3 :: payload) sock =
          match handleStunMessage env
              (stunMessageOf sock.mLocalBinding (serverTuple sock) payload) sock with
          | .error f => .error f
          | .ok r => .ok r.2) ∧
      (256 * b0 + b1 ≠ 0 →
        (∀ (peer : Nat) (remotePeer : RemotePeer),
          sock.mChannelManager.findRemotePeerByServerToClientChannel (256 * b0 + b1) =
            some peer →
          sock.mChannelManager.peers[peer]? = some remotePeer →
          handleReceivedData env stunMessageOf address port (b0 :: b1 :: b2 :: b3 :: payload)
              sock =
            .ok (sock.callback (Callback.onReceiveSuccess remotePeer.mPeerTuple.mAddress
                   remotePeer.mPeerTuple.mPort payload))) ∧
        (sock.mChannelManager.findRemotePeerByServerToClientChannel (256 * b0 + b1) = none →
          handleReceivedData env stunMessageOf address port (b0 :: b1 :: b2 :: b3 :: payload)
              sock = .ok sock))) ∧
    (∀ data : List Nat, data.length ≤ 4 →
      handleReceivedData env stunMessageOf address port data sock =
        .ok (sock.callback (Callback.onReceiveFailure ErrorCode.FrameError))) := by
  constructor
  · intro b0 b1 b2 b3 payload h0 h1 hpayload
    have hlen : (b0 :: b1 :: b2 :: b3 :: payload).length > 4 := by
      cases payload with
      | nil => exact absurd rfl hpayload
      | cons x xs => simp
    have hnum : (b0 :: b1 :: b2 :: b3 :: payload).getD 0 0 % 256 * 256 +
        (b0 :: b1 :: b2 :: b3 :: payload).getD 1 0 % 256 = 256 * b0 + b1 := by
      simp [Nat.mod_eq_of_lt h0, Nat.mod_eq_of_lt h1, Nat.mul_comm]
    refine ⟨?_, ?_⟩
    · intro hzero
      simp only [handleReceivedData, hframing, if_true, hlen, hnum, hzero, List.drop_succ_cons,
        List.drop_zero]
    · intro hne
      refine ⟨?_, ?_⟩
      · intro peer remotePeer hfind hpeer
        simp only [handleReceivedData, hframing, if_true, hlen, hnum, hne, if_false, hfind,
          Option.bind, hpeer, List.drop_succ_cons, List.drop_zero]
      · intro hfind
        simp only [handleReceivedData, hframing, if_true, hlen, hnum, hne, if_false, hfind,
          Option.bind]
  · intro data hlen
    have hnot : ¬ data.length > 4 := Nat.not_lt.2 hlen
    simp only [handleReceivedData, hframing, if_true, hnot, if_false]

/-- C27 at concrete values: the sample client with framing enabled, which has
learned channel 32768 of the peer `5.6.7.8:9000`, receives the frame
`128 0 0 2 | 104 105` (channel 32768) and a buffer of three bytes. -/
theorem handleReceivedData_framed_witness :
    handleReceivedData sampleStunEnv (fun _ _ _ => StunMessage.empty) "10.0.0.2" 3478
        [128, 0, 0, 2, 104, 105]
        { sampleAllocated with
          mTurnFraming := true,
          mChannelManager :=
            { peers := [samplePeer TransportType.UDP 32768 false true],
              serverToClientLookup := [(32768, 0)], mNextChannelNumber := 16385 } } =
      .ok { sampleAllocated with
            mTurnFraming := true,
            mChannelManager :=
              { peers := [samplePeer TransportType.UDP 32768 false true],
                serverToClientLookup := [(32768, 0)], mNextChannelNumber := 16385 },
            callbacks := [Callback.onReceiveSuccess "5.6.7.8" 9000 [104, 105]] } ∧
    handleReceivedData sampleStunEnv (fun _ _ _ => StunMessage.empty) "10.0.0.2" 3478
        [128, 0, 0]
        { sampleAllocated with mTurnFraming := true } =
      .ok { sampleAllocated with
            mTurnFraming := true,
            callbacks := [Callback.onReceiveFailure ErrorCode.FrameError] } :=
  ⟨((handleReceivedData_framed sampleStunEnv (fun _ _ _ => StunMessage.empty) "10.0.0.2" 3478
      { sampleAllocated with
        mTurnFraming := true,
        mChannelManager :=
          { peers := [samplePeer TransportType.UDP 32768 false true],
            serverToClientLookup := [(32768, 0)], mNextChannelNumber := 16385 } } rfl).1
      128 0 0 2 [104, 105] (by decide) (by decide) (by decide)).2 (by decide) |>.1 0
      (samplePeer TransportType.UDP 32768 false true) rfl rfl,
   (handleReceivedData_framed sampleStunEnv (fun _ _ _ => StunMessage.empty) "10.0.0.2" 3478
      { sampleAllocated with mTurnFraming := true } rfl).2 [128, 0, 0] (by decide)⟩

end ReceivedData

section ResponseErrors

/-- C28. A valid STUN message whose integrity check against the current
`mHmacKey` fails makes `handleStunMessage` return `BadMessageIntegrity` and
leaves the socket exactly as it was: no callback, nothing sent, and the request
map, the timers, the allocation state and the channel manager unchanged. -/
theorem handleStunMessage_bad_integrity (env : StunEnv) (stunMessage : StunMessage)
    (sock : TurnAsyncSocket) (hvalid : stunMessage.mIsValid = true)
    (hinteg : env.checkMessageIntegrity stunMessage sock.mHmacKey = false) :
    ∃ s, handleStunMessage env stunMessage sock = .ok (ErrorCode.BadMessageIntegrity, s) ∧
      s = sock ∧
      s.callbacks = sock.callbacks ∧ s.socketOps = sock.socketOps ∧
      s.mActiveRequestMap = sock.mActiveRequestMap ∧ s.timerOps = sock.timerOps ∧
      s.mHaveAllocation = sock.mHaveAllocation ∧ s.mLifetime = sock.mLifetime ∧
      s.mActiveDestination = sock.mActiveDestination ∧
      s.mChannelManager = sock.mChannelManager := by
  refine ⟨sock, ?_, rfl, rfl, rfl, rfl, rfl, rfl, rfl, rfl, rfl⟩
  simp [handleStunMessage, hvalid, hinteg]

/-- C28 at concrete values: the sample client, whose key is empty, has an
Allocate request outstanding under id 7 and receives a success response keyed
with another key. -/
theorem handleStunMessage_bad_integrity_witness :
    handleStunMessage sampleStunEnv
        { sampleAllocateSuccess 7 600 with mHasMessageIntegrity := true, mHmacKey := "k" }
        sampleOutstanding =
      .ok (ErrorCode.BadMessageIntegrity, sampleOutstanding) := by
  obtain ⟨s, h, hs, -⟩ := handleStunMessage_bad_integrity sampleStunEnv
    { sampleAllocateSuccess 7 600 with mHasMessageIntegrity := true, mHmacKey := "k" }
    sampleOutstanding rfl rfl
  rw [h, hs]

theorem RequestMap.find_erase_ne (tid k : UInt128) (m : List (UInt128 × RequestEntry))
    (h : k ≠ tid) : RequestMap.find k (RequestMap.erase tid m) = RequestMap.find k m := by
  have hpred : ∀ a : UInt128 × RequestEntry,
      (decide (a.1 ≠ tid) && decide (a.1 = k)) = decide (a.1 = k) := by
    intro a
    by_cases h1 : a.1 = k
    · have h2 : a.1 ≠ tid := fun h3 => h (h1 ▸ h3)
      simp [h1, h2, h]
    · simp [h1]
  simp only [RequestMap.find, RequestMap.erase, List.find?_filter]
  congr 2
  funext a
  simpa using hpred a

/-- C29 (counterexample). The sample client holds an allocation, has a Bind
request outstanding under id 7, and is closing: the Refresh request with
lifetime 0 is outstanding under id 1000. The error response 437 to the Refresh
request reports `onRefreshFailure` with 437, and then closes the socket, which
clears the whole request map: the entry of the Bind request is gone too. -/
theorem refresh_error_while_closing_clears_map :
    ∃ s0 s1,
      s0 = doClose sampleStunEnv sampleDecls
        (sendStunMessage sampleStunEnv (sampleStunRequest StunMethod.Bind 7) false
          sampleAllocated) ∧
      (RequestMap.find 7 s0.mActiveRequestMap).isSome = true ∧
      (RequestMap.find 1000 s0.mActiveRequestMap).isSome = true ∧
      handleStunMessage sampleStunEnv
        { StunMessage.empty with
          mClass := StunClass.ErrorResponse, mMethod := StunMethod.TurnRefresh,
          magicCookieAndTid := 1000,
          mErrorCode := some { errorClass := 4, number := 37 } } s0 =
        .ok (ErrorCode.Success, s1) ∧
      s1.callbacks = [Callback.onRefreshFailure (ErrorCode.Stun 437)] ∧
      s1.mActiveRequestMap = [] ∧
      RequestMap.find 7 s1.mActiveRequestMap = none := by
  exact ⟨_, _, rfl, rfl, rfl, rfl, rfl, rfl, rfl⟩

/-- C29 (amended). An error response to an outstanding request, of method
Bind, SharedSecret, Allocate or Refresh, that does not meet the re-issue
condition: the failure callback of the method is invoked exactly once (on the
handler, when one is set), with the code `errorClass * 100 + number` when the response carries an
error code and with `MissingAttributes` (which is then also returned) when it
carries none, and nothing is handed to the socket but, possibly, the close.
Unless the response is for a Refresh while `close()` is waiting for the
allocation to be destroyed, the entry of the request is removed from the
request map and every other entry is unchanged; in that Refresh case the socket
is closed and the whole request map is cleared. -/
theorem error_response_reports_failure (env : StunEnv) (sock : TurnAsyncSocket)
    (rsp : StunMessage) (entry : RequestEntry)
    (hvalid : rsp.mIsValid = true)
    (hinteg : env.checkMessageIntegrity rsp sock.mHmacKey = true)
    (hclass : rsp.mClass = StunClass.ErrorResponse)
    (hfind : RequestMap.find rsp.magicCookieAndTid sock.mActiveRequestMap = some entry)
    (hmethod : rsp.mMethod = StunMethod.Bind ∨ rsp.mMethod = StunMethod.SharedSecret ∨
      rsp.mMethod = StunMethod.TurnAllocate ∨ rsp.mMethod = StunMethod.TurnRefresh)
    (hnoretry : isAuthChallenge rsp sock = false) :
    ∃ s, handleStunMessage env rsp sock =
        .ok ((match rsp.mErrorCode with
              | some _ => ErrorCode.Success
              | none => ErrorCode.MissingAttributes), s) ∧
      s.callbacks =
        (if sock.mTurnAsyncSocketHandler then
          sock.callbacks ++ failureCallback rsp.mMethod
            (match rsp.mErrorCode with
             | some ec => ErrorCode.Stun (ec.errorClass * 100 + ec.number)
             | none => ErrorCode.MissingAttributes)
         else sock.callbacks) ∧
      (¬ (rsp.mMethod = StunMethod.TurnRefresh ∧
          sock.mCloseAfterDestroyAllocationFinishes = true) →
        s.mActiveRequestMap = RequestMap.erase rsp.magicCookieAndTid sock.mActiveRequestMap ∧
        RequestMap.find rsp.magicCookieAndTid s.mActiveRequestMap = none ∧
        (∀ k, k ≠ rsp.magicCookieAndTid →
          RequestMap.find k s.mActiveRequestMap = RequestMap.find k sock.mActiveRequestMap) ∧
        s.socketOps = sock.socketOps) ∧
      (rsp.mMethod = StunMethod.TurnRefresh ∧
          sock.mCloseAfterDestroyAllocationFinishes = true →
        s.mActiveRequestMap = [] ∧ s.socketOps = sock.socketOps ++ [SocketOp.close]) := by
  have hc : isAuthChallenge rsp (stopTimer rsp.magicCookieAndTid sock) = false := by
    simpa [isAuthChallenge, stopTimer] using hnoretry
  have key : ∃ s, handleStunMessage env rsp sock =
        .ok ((match rsp.mErrorCode with
              | some _ => ErrorCode.Success
              | none => ErrorCode.MissingAttributes), s) ∧
      s.callbacks =
        (if sock.mTurnAsyncSocketHandler then
          sock.callbacks ++ failureCallback rsp.mMethod
            (match rsp.mErrorCode with
             | some ec => ErrorCode.Stun (ec.errorClass * 100 + ec.number)
             | none => ErrorCode.MissingAttributes)
         else sock.callbacks) ∧
      (¬ (rsp.mMethod = StunMethod.TurnRefresh ∧
          sock.mCloseAfterDestroyAllocationFinishes = true) →
        s.mActiveRequestMap = RequestMap.erase rsp.magicCookieAndTid sock.mActiveRequestMap ∧
        s.socketOps = sock.socketOps) ∧
      (rsp.mMethod = StunMethod.TurnRefresh ∧
          sock.mCloseAfterDestroyAllocationFinishes = true →
        s.mActiveRequestMap = [] ∧ s.socketOps = sock.socketOps ++ [SocketOp.close]) := by
    simp only [handleStunMessage, hvalid, hinteg, hclass, hfind, hc, if_true,
      Bool.not_true, Bool.false_eq_true, if_false]
    rcases hmethod with hm | hm | hm | hm
    · cases hcode : rsp.mErrorCode <;> cases hhandler : sock.mTurnAsyncSocketHandler <;>
        simp [hm, handleBindResponse, hclass, hcode, callback, stopTimer, hhandler,
          failureCallback]
    · cases hcode : rsp.mErrorCode <;> cases hhandler : sock.mTurnAsyncSocketHandler <;>
        simp [hm, handleSharedSecretResponse, hclass, hcode, callback, stopTimer, hhandler,
          failureCallback]
    · cases hcode : rsp.mErrorCode <;> cases hhandler : sock.mTurnAsyncSocketHandler <;>
        simp [hm, handleAllocateResponse, hclass, hcode, callback, stopTimer, hhandler,
          failureCallback]
    · by_cases hclose : sock.mCloseAfterDestroyAllocationFinishes = true
      · cases hcode : rsp.mErrorCode <;> cases hhandler : sock.mTurnAsyncSocketHandler <;>
          simp [hm, handleRefreshResponse, hclass, hcode, callback, stopTimer, hhandler,
            failureCallback, closeIfRequested, hclose, actualClose, cancelAllocationTimer,
            clearActiveRequestMap]
      · cases hcode : rsp.mErrorCode <;> cases hhandler : sock.mTurnAsyncSocketHandler <;>
          simp [hm, handleRefreshResponse, hclass, hcode, callback, stopTimer, hhandler,
            failureCallback, closeIfRequested, hclose]
  obtain ⟨s, h, hcallbacks, hkeep, hclosing⟩ := key
  refine ⟨s, h, hcallbacks, ?_, hclosing⟩
  intro hnot
  obtain ⟨hmap, hops⟩ := hkeep hnot
  refine ⟨hmap, ?_, ?_, hops⟩
  · rw [hmap]; exact RequestMap.find_erase_self _ _
  · intro k hk
    rw [hmap]; exact RequestMap.find_erase_ne _ _ _ hk

/-- The amended C29 at concrete values: the sample client has an Allocate
request outstanding under id 7 and receives the error response 420 to it. -/
theorem error_response_reports_failure_witness :
    ∃ s, handleStunMessage sampleStunEnv
        { StunMessage.empty with
          mClass := StunClass.ErrorResponse, mMethod := StunMethod.TurnAllocate,
          magicCookieAndTid := 7,
          mErrorCode := some { errorClass := 4, number := 20 } } sampleOutstanding =
        .ok (ErrorCode.Success, s) ∧
      s.callbacks = [Callback.onAllocationFailure (ErrorCode.Stun 420)] ∧
      s.mActiveRequestMap = [] := by
  obtain ⟨s, h, hcallbacks, hmap, -⟩ := error_response_reports_failure sampleStunEnv
    sampleOutstanding
    { StunMessage.empty with
      mClass := StunClass.ErrorResponse, mMethod := StunMethod.TurnAllocate,
      magicCookieAndTid := 7,
      mErrorCode := some { errorClass := 4, number := 20 } }
    (newRequestEntry sampleUdpSocket (sampleStunRequest StunMethod.TurnAllocate 7))
    rfl rfl rfl rfl (Or.inr (Or.inr (Or.inl rfl))) rfl
  exact ⟨s, h, hcallbacks, (hmap (by decide)).1⟩

end ResponseErrors

section TcpSingleShot

/-- The state invariant of sockets over TCP and TLS: `doClose` sets
`mCloseAfterDestroyAllocationFinishes` over UDP only, so over any other local
transport the flag stays as it was. -/
theorem doClose_flag_unless_udp (env : StunEnv) (decls : Decls) (sock : TurnAsyncSocket)
    (hnotudp : sock.mLocalBinding.mTransport ≠ TransportType.UDP) :
    (doClose env decls sock).mCloseAfterDestroyAllocationFinishes =
      sock.mCloseAfterDestroyAllocationFinishes := by
  simp [doClose, hnotudp, actualClose, cancelAllocationTimer, clearActiveRequestMap]

/-- C30. A STUN request (of method Bind, SharedSecret, Allocate or Refresh)
sent over a local transport other than UDP, while `close()` is not waiting for
the allocation to be destroyed (it never is over TCP or TLS):
`sendStunMessage` hands the request to the socket once and arms the request
timer once, with 7900 ms; the first expiry of the timer is `requestTimeout`:
nothing is handed to the socket, no timer is armed, the failure callback of the
method is invoked with `ResponseTimeout` (on the handler, when one is set), and
the entry is removed. -/
theorem tcp_request_single_shot (env : StunEnv) (sock : TurnAsyncSocket) (request : StunMessage)
    (hnotudp : sock.mLocalBinding.mTransport ≠ TransportType.UDP)
    (hclass : request.mClass = StunClass.Request)
    (hmethod : request.mMethod = StunMethod.Bind ∨ request.mMethod = StunMethod.SharedSecret ∨
      request.mMethod = StunMethod.TurnAllocate ∨ request.mMethod = StunMethod.TurnRefresh)
    (hnoclose : sock.mCloseAfterDestroyAllocationFinishes = false) :
    (sendStunMessage env request false sock).timerOps =
      sock.timerOps ++ [TimerOp.requestStart request.magicCookieAndTid 7900] ∧
    (sendStunMessage env request false sock).socketOps =
      sock.socketOps ++ [SocketOp.send (serverTuple sock) (encoded env sock request)] ∧
    ∃ s2, requestTimerFires env request.magicCookieAndTid
        (sendStunMessage env request false sock) = .ok s2 ∧
      s2.socketOps =
        sock.socketOps ++ [SocketOp.send (serverTuple sock) (encoded env sock request)] ∧
      s2.timerOps = sock.timerOps ++ [TimerOp.requestStart request.magicCookieAndTid 7900] ∧
      s2.callbacks =
        (if sock.mTurnAsyncSocketHandler then
          sock.callbacks ++ failureCallback request.mMethod ErrorCode.ResponseTimeout
         else sock.callbacks) ∧
      RequestMap.find request.magicCookieAndTid s2.mActiveRequestMap = none := by
  have hsend := sendStunMessage_request env request sock hclass
  have htimeout : (newRequestEntry sock request).mTimeout = 7900 := by
    simp [newRequestEntry, hnotudp, TCP_RESPONSE_TIME]
  rw [hsend]
  refine ⟨by simp [htimeout], rfl, ?_⟩
  have herase : RequestMap.find request.magicCookieAndTid
      (RequestMap.erase request.magicCookieAndTid sock.mActiveRequestMap) = none :=
    RequestMap.find_erase_self _ _
  simp only [requestTimerFires, RequestMap.find_insert_self, requestTimerExpired, newRequestEntry,
    hnotudp, ne_eq, not_false_eq_true, true_or, if_true, Bool.false_eq_true, if_false,
    requestTimeout]
  rcases hmethod with hm | hm | hm | hm <;> cases hhandler : sock.mTurnAsyncSocketHandler <;>
    simp [hm, callback, hhandler, hnoclose, failureCallback, RequestMap.erase_insert_self,
      RequestMap.map_erase_self, herase, TCP_RESPONSE_TIME, hnotudp]

/-- C30 at concrete values: a client over TCP sends the Bind request 42, which
is never answered. -/
theorem tcp_request_single_shot_witness :
    ∃ s2, requestTimerFires sampleStunEnv 42
        (sendStunMessage sampleStunEnv (sampleStunRequest StunMethod.Bind 42) false
          sampleTcpAllocated) = .ok s2 ∧
      s2.socketOps = [SocketOp.send (sampleServer TransportType.TCP) [42]] ∧
      s2.timerOps = [TimerOp.requestStart 42 7900] ∧
      s2.callbacks = [Callback.onBindFailure ErrorCode.ResponseTimeout] ∧
      RequestMap.find 42 s2.mActiveRequestMap = none :=
  (tcp_request_single_shot sampleStunEnv sampleTcpAllocated (sampleStunRequest StunMethod.Bind 42)
    (by decide) rfl (Or.inl rfl) rfl).2.2

end TcpSingleShot

/-! ### Re-issue on a challenge, channel confirmations, and the precondition of `doSend` -/

section AuthReissue

end AuthReissue

section ChannelConfirmationCases

theorem ChannelManager.findRemotePeerByClientToServerChannel_lt (cm : ChannelManager)
    (channel peer : Nat) (h : cm.findRemotePeerByClientToServerChannel channel = some peer) :
    peer < cm.peers.length := by
  simp only [ChannelManager.findRemotePeerByClientToServerChannel] at h
  split at h
  · next hlt =>
    injection h with h
    subst h
    exact hlt
  · cases h

/-- C36. `handleChannelConfirmation` sends nothing, invokes no callback and
touches no timer. It succeeds exactly when the indication carries peer address
and channel number, the channel number is the client-to-server channel of a
peer, and that peer's tuple is the indicated address over the relay transport;
it then marks the client-to-server channel of that peer confirmed (the peer
at that position then has `mClientToServerChannelConfirmed` set and its other
members as before, every other peer is as it was) and changes nothing else. Without one of the attributes it returns MissingAttributes, for a
channel number of no peer InvalidChannelNumberReceived, for a peer with another
tuple UnknownRemoteAddress, and in these three cases the socket is returned as
it was. -/
theorem handleChannelConfirmation_total (stunMessage : StunMessage) (sock : TurnAsyncSocket) :
    (handleChannelConfirmation stunMessage sock).2.socketOps = sock.socketOps ∧
    (handleChannelConfirmation stunMessage sock).2.callbacks = sock.callbacks ∧
    (handleChannelConfirmation stunMessage sock).2.timerOps = sock.timerOps ∧
    ((handleChannelConfirmation stunMessage sock).1 = ErrorCode.Success ↔
      ∃ peerAddress channelNumber peer remotePeer,
        stunMessage.mTurnPeerAddress = some peerAddress ∧
        stunMessage.mTurnChannelNumber = some channelNumber ∧
        sock.mChannelManager.findRemotePeerByClientToServerChannel channelNumber = some peer ∧
        sock.mChannelManager.peers[peer]? = some remotePeer ∧
        remotePeer.mPeerTuple =
          { mTransport := sock.mRelayTransportType, mAddress := peerAddress.addr,
            mPort := peerAddress.port }) ∧
    (∀ peerAddress channelNumber peer remotePeer,
      stunMessage.mTurnPeerAddress = some peerAddress →
      stunMessage.mTurnChannelNumber = some channelNumber →
      sock.mChannelManager.findRemotePeerByClientToServerChannel channelNumber = some peer →
      sock.mChannelManager.peers[peer]? = some remotePeer →
      remotePeer.mPeerTuple =
        { mTransport := sock.mRelayTransportType, mAddress := peerAddress.addr,
          mPort := peerAddress.port } →
      handleChannelConfirmation stunMessage sock =
        (ErrorCode.Success,
         { sock with mChannelManager :=
             (sock.mChannelManager.setPeer peer
               { remotePeer with mClientToServerChannelConfirmed := true }) }) ∧
      (handleChannelConfirmation stunMessage sock).2.mChannelManager.peers[peer]? =
        some { mPeerTuple := remotePeer.mPeerTuple,
               mClientToServerChannel := remotePeer.mClientToServerChannel,
               mServerToClientChannel := remotePeer.mServerToClientChannel,
               mClientToServerChannelConfirmed := true,
               mServerToClientChannelConfirmed := remotePeer.mServerToClientChannelConfirmed } ∧
      (∀ i, i ≠ peer →
        (handleChannelConfirmation stunMessage sock).2.mChannelManager.peers[i]? =
          sock.mChannelManager.peers[i]?) ∧
      (handleChannelConfirmation stunMessage sock).2.mChannelManager.peers.length =
        sock.mChannelManager.peers.length ∧
      (handleChannelConfirmation stunMessage sock).2.mChannelManager.serverToClientLookup =
        sock.mChannelManager.serverToClientLookup ∧
      (handleChannelConfirmation stunMessage sock).2.mChannelManager.mNextChannelNumber =
        sock.mChannelManager.mNextChannelNumber) ∧
    (stunMessage.mTurnPeerAddress = none ∨ stunMessage.mTurnChannelNumber = none →
      handleChannelConfirmation stunMessage sock = (ErrorCode.MissingAttributes, sock)) ∧
    (∀ peerAddress channelNumber,
      stunMessage.mTurnPeerAddress = some peerAddress →
      stunMessage.mTurnChannelNumber = some channelNumber →
      sock.mChannelManager.findRemotePeerByClientToServerChannel channelNumber = none →
      handleChannelConfirmation stunMessage sock =
        (ErrorCode.InvalidChannelNumberReceived, sock)) ∧
    (∀ peerAddress channelNumber peer remotePeer,
      stunMessage.mTurnPeerAddress = some peerAddress →
      stunMessage.mTurnChannelNumber = some channelNumber →
      sock.mChannelManager.findRemotePeerByClientToServerChannel channelNumber = some peer →
      sock.mChannelManager.peers[peer]? = some remotePeer →
      remotePeer.mPeerTuple ≠
        { mTransport := sock.mRelayTransportType, mAddress := peerAddress.addr,
          mPort := peerAddress.port } →
      handleChannelConfirmation stunMessage sock = (ErrorCode.UnknownRemoteAddress, sock)) := by
  rcases ha : stunMessage.mTurnPeerAddress with _ | a
  · have hval : handleChannelConfirmation stunMessage sock =
        (ErrorCode.MissingAttributes, sock) := by
      simp [handleChannelConfirmation, ha]
    rw [hval]
    refine ⟨rfl, rfl, rfl, ⟨?_, ?_⟩, ?_, ?_, ?_, ?_⟩
    · intro h
      cases h
    · rintro ⟨pa, cn, p, rp, h1, -⟩
      cases h1
    · intro pa cn p rp h1
      cases h1
    · intro _
      rfl
    · intro pa cn h1
      cases h1
    · intro pa cn p rp h1
      cases h1
  · rcases hc : stunMessage.mTurnChannelNumber with _ | ch
    · have hval : handleChannelConfirmation stunMessage sock =
          (ErrorCode.MissingAttributes, sock) := by
        simp [handleChannelConfirmation, ha, hc]
      rw [hval]
      refine ⟨rfl, rfl, rfl, ⟨?_, ?_⟩, ?_, ?_, ?_, ?_⟩
      · intro h
        cases h
      · rintro ⟨pa, cn, p, rp, -, h2, -⟩
        cases h2
      · intro pa cn p rp _ h2
        cases h2
      · intro _
        rfl
      · intro pa cn _ h2
        cases h2
      · intro pa cn p rp _ h2
        cases h2
    · rcases hf : sock.mChannelManager.findRemotePeerByClientToServerChannel ch with _ | peer
      · have hval : handleChannelConfirmation stunMessage sock =
            (ErrorCode.InvalidChannelNumberReceived, sock) := by
          simp [handleChannelConfirmation, ha, hc, hf]
        rw [hval]
        refine ⟨rfl, rfl, rfl, ⟨?_, ?_⟩, ?_, ?_, ?_, ?_⟩
        · intro h
          cases h
        · rintro ⟨pa, cn, p, rp, -, h2, h3, -⟩
          injection h2 with h2
          subst h2
          rw [hf] at h3
          cases h3
        · intro pa cn p rp _ h2 h3
          injection h2 with h2
          subst h2
          rw [hf] at h3
          cases h3
        · intro h
          rcases h with h | h <;> cases h
        · intro pa cn _ _ _
          rfl
        · intro pa cn p rp _ h2 h3
          injection h2 with h2
          subst h2
          rw [hf] at h3
          cases h3
      · have hlt := sock.mChannelManager.findRemotePeerByClientToServerChannel_lt ch peer hf
        have hrp : sock.mChannelManager.peers[peer]? = some sock.mChannelManager.peers[peer] :=
          List.getElem?_eq_getElem hlt
        by_cases ht : sock.mChannelManager.peers[peer].mPeerTuple =
            { mTransport := sock.mRelayTransportType, mAddress := a.addr, mPort := a.port }
        · have hval := handleChannelConfirmation_accepted stunMessage sock a ch peer _ ha hc hf
            hrp ht
          rw [hval]
          refine ⟨rfl, rfl, rfl, ⟨?_, ?_⟩, ?_, ?_, ?_, ?_⟩
          · intro _
            exact ⟨a, ch, peer, _, rfl, rfl, hf, hrp, ht⟩
          · intro _
            rfl
          · intro pa cn p rp h1 h2 h3 h4 _
            injection h1 with h1
            injection h2 with h2
            subst h1
            subst h2
            rw [hf] at h3
            injection h3 with h3
            subst h3
            rw [hrp] at h4
            injection h4 with h4
            subst h4
            refine ⟨rfl, ?_, ?_, ?_, rfl, rfl⟩
            · simp [ChannelManager.setPeer, List.getElem?_set, hlt]
            · intro i hi
              simp [ChannelManager.setPeer, List.getElem?_set, Ne.symm hi]
            · simp [ChannelManager.setPeer]
          · intro h
            rcases h with h | h <;> cases h
          · intro pa cn _ h2 h3
            injection h2 with h2
            subst h2
            rw [hf] at h3
            cases h3
          · intro pa cn p rp h1 h2 h3 h4 h5
            injection h1 with h1
            injection h2 with h2
            subst h1
            subst h2
            rw [hf] at h3
            injection h3 with h3
            subst h3
            rw [hrp] at h4
            injection h4 with h4
            subst h4
            exact absurd ht h5
        · have hval : handleChannelConfirmation stunMessage sock =
              (ErrorCode.UnknownRemoteAddress, sock) := by
            simp [handleChannelConfirmation, ha, hc, hf, hrp, ht, setTupleFromStunAtrAddress,
              StunTuple.unset, hlt]
          rw [hval]
          refine ⟨rfl, rfl, rfl, ⟨?_, ?_⟩, ?_, ?_, ?_, ?_⟩
          · intro h
            cases h
          · rintro ⟨pa, cn, p, rp, h1, h2, h3, h4, h5⟩
            injection h1 with h1
            injection h2 with h2
            subst h1
            subst h2
            rw [hf] at h3
            injection h3 with h3
            subst h3
            rw [hrp] at h4
            injection h4 with h4
            subst h4
            exact absurd h5 ht
          · intro pa cn p rp h1 h2 h3 h4 h5
            injection h1 with h1
            injection h2 with h2
            subst h1
            subst h2
            rw [hf] at h3
            injection h3 with h3
            subst h3
            rw [hrp] at h4
            injection h4 with h4
            subst h4
            exact absurd h5 ht
          · intro h
            rcases h with h | h <;> cases h
          · intro pa cn _ h2 h3
            injection h2 with h2
            subst h2
            rw [hf] at h3
            cases h3
          · intro pa cn p rp _ _ _ _ _
            rfl

/-- The cases of C36 at concrete values: the peer `5.6.7.8:9000` holds the
client-to-server channel 16384, not yet confirmed; the confirmation for channel
16384 is accepted and the peer is then confirmed, the one for channel 16385 is
refused. -/
theorem handleChannelConfirmation_total_witness :
    (samplePeer TransportType.UDP 0 false false).mClientToServerChannelConfirmed = false ∧
    (handleChannelConfirmation (sampleChannelConfirmation 16384) sampleWithPeer).1 =
      ErrorCode.Success ∧
    (handleChannelConfirmation (sampleChannelConfirmation 16384)
        sampleWithPeer).2.mChannelManager.peers[0]? =
      some { mPeerTuple := { mTransport := TransportType.UDP, mAddress := "5.6.7.8",
                             mPort := 9000 },
             mClientToServerChannel := 16384,
             mServerToClientChannel := 0,
             mClientToServerChannelConfirmed := true,
             mServerToClientChannelConfirmed := false } ∧
    handleChannelConfirmation (sampleChannelConfirmation 16385) sampleWithPeer =
      (ErrorCode.InvalidChannelNumberReceived, sampleWithPeer) :=
  ⟨rfl,
   congrArg Prod.fst
     ((handleChannelConfirmation_total (sampleChannelConfirmation 16384)
        sampleWithPeer).2.2.2.2.1 { addr := "5.6.7.8", port := 9000 } 16384 0
        (samplePeer TransportType.UDP 0 false false) rfl rfl rfl rfl rfl).1,
   ((handleChannelConfirmation_total (sampleChannelConfirmation 16384)
      sampleWithPeer).2.2.2.2.1 { addr := "5.6.7.8", port := 9000 } 16384 0
      (samplePeer TransportType.UDP 0 false false) rfl rfl rfl rfl rfl).2.1,
   (handleChannelConfirmation_total (sampleChannelConfirmation 16385)
      sampleWithPeer).2.2.2.2.2.2.1 { addr := "5.6.7.8", port := 9000 } 16385 rfl rfl rfl⟩

end ChannelConfirmationCases

section SendPrecondition

/-- C37. With every active-destination pointer pointing at a peer of the
channel manager, `doSend` runs without fault exactly when there is no
allocation or an active destination is set; with an allocation and no active
destination it dereferences the null pointer. The operations do not keep that
precondition: the success response to an Allocate request (non-zero lifetime)
on a socket without active destination, and `doClearActiveDestination` on a
socket with an allocation, both end with an allocation and no active
destination, where `doSend` faults. -/
theorem doSend_defined_iff (env : StunEnv) (data : List Nat) (sock : TurnAsyncSocket)
    (hptr : ∀ p, sock.mActiveDestination = some p → p < sock.mChannelManager.peers.length) :
    ((∃ s1, doSend env data sock = .ok s1) ↔
      (sock.mHaveAllocation = false ∨ sock.mActiveDestination ≠ none)) ∧
    (sock.mHaveAllocation = true → sock.mActiveDestination = none →
      doSend env data sock = .error Fault.nullDeref) ∧
    (∀ (rsp : StunMessage) (lifetime : Nat), rsp.mClass = StunClass.SuccessResponse →
      rsp.mTurnLifetime = some lifetime → lifetime ≠ 0 → sock.mActiveDestination = none →
      (handleAllocateResponse rsp sock).1 = ErrorCode.Success ∧
      (handleAllocateResponse rsp sock).2.mHaveAllocation = true ∧
      (handleAllocateResponse rsp sock).2.mActiveDestination = none ∧
      doSend env data (handleAllocateResponse rsp sock).2 = .error Fault.nullDeref) ∧
    (sock.mHaveAllocation = true →
      (doClearActiveDestination sock).mHaveAllocation = true ∧
      (doClearActiveDestination sock).mActiveDestination = none ∧
      doSend env data (doClearActiveDestination sock) = .error Fault.nullDeref) := by
  have hnull : ∀ s : TurnAsyncSocket, s.mHaveAllocation = true → s.mActiveDestination = none →
      doSend env data s = .error Fault.nullDeref := by
    intro s h1 h2
    simp [doSend, h1, h2]
  refine ⟨?_, hnull sock, ?_, ?_⟩
  · rcases hh : sock.mHaveAllocation with _ | _
    · simp [doSend, hh]
    · rcases hact : sock.mActiveDestination with _ | p
      · simp [doSend, hh, hact]
      · have hlt := hptr p hact
        simp [doSend, hh, hact, List.getElem?_eq_getElem hlt]
  · intro rsp lifetime hclass hlife hne hact
    have h1 : (handleAllocateResponse rsp sock).2.mHaveAllocation = true := by
      simp only [handleAllocateResponse, hclass, hlife, if_true, ne_eq, hne, not_false_eq_true,
        callback, startAllocationTimer]
      split <;> rfl
    have h2 : (handleAllocateResponse rsp sock).2.mActiveDestination = none := by
      simp only [handleAllocateResponse, hclass, hlife, if_true, ne_eq, hne, not_false_eq_true,
        callback, startAllocationTimer]
      split <;> exact hact
    refine ⟨?_, h1, h2, hnull _ h1 h2⟩
    simp [handleAllocateResponse, hclass, hlife, hne]
  · intro hh
    have h1 : (doClearActiveDestination sock).mHaveAllocation = true := by
      simp only [doClearActiveDestination, hh, Bool.not_true, Bool.false_eq_true, if_false,
        callback]
      split <;> rfl
    have h2 : (doClearActiveDestination sock).mActiveDestination = none := by
      simp only [doClearActiveDestination, hh, Bool.not_true, Bool.false_eq_true, if_false,
        callback]
      split <;> rfl
    exact ⟨h1, h2, hnull _ h1 h2⟩

/-- The cases of C37 at concrete values: the sample client receives the
success response to its Allocate request, and the allocated sample client
clears its active destination; in both states `doSend` dereferences the null
pointer. -/
theorem doSend_defined_iff_witness :
    doSend sampleStunEnv [1, 2, 3]
        (handleAllocateResponse (sampleAllocateSuccess 7 600) sampleUdpSocket).2 =
      .error Fault.nullDeref ∧
    doSend sampleStunEnv [1, 2, 3] (doClearActiveDestination sampleAllocated) =
      .error Fault.nullDeref ∧
    ((∃ s1, doSend sampleStunEnv [1, 2, 3] sampleUdpSocket = .ok s1) ↔
      (sampleUdpSocket.mHaveAllocation = false ∨ sampleUdpSocket.mActiveDestination ≠ none)) :=
  ⟨((doSend_defined_iff sampleStunEnv [1, 2, 3] sampleUdpSocket
      (by intro p hp; cases hp)).2.2.1 (sampleAllocateSuccess 7 600) 600 rfl rfl (by decide)
      rfl).2.2.2,
   ((doSend_defined_iff sampleStunEnv [1, 2, 3] sampleAllocated
      (by intro p hp; cases hp)).2.2.2 rfl).2.2,
   (doSend_defined_iff sampleStunEnv [1, 2, 3] sampleUdpSocket (by intro p hp; cases hp)).1⟩

end SendPrecondition

end reTurn
